import Mathlib

/-!
Shallow embedding of `src/volcano_models.py` (class `VolcanoSimulation`),
the simulation-and-rasterization core of the repository, together with
theorems settling the specification claims about it.

Numbers are modelled by `ℝ`; numpy arrays of shape (n, n) by functions
`Fin n → Fin n → ℝ`; the RGBA raster by `Fin n → Fin n → RGBA` with the
8-bit channels stored as integers (numpy's `astype(np.uint8)` truncates
the nonneg floats produced here, i.e. takes the floor).  The matplotlib
colormap resolved by `get_colormap` is external third-party code; it is
modelled as an abstract parameter `cmap : ℝ → ℝ × ℝ × ℝ × ℝ` returning
the RGBA components in [0,1] (its alpha component is overwritten by
`_array_to_rgba` and never used).
-/

namespace Volcano

noncomputable section

/-- `np.clip(x, lo, hi)` on scalars. -/
def npclip (x lo hi : ℝ) : ℝ := min (max x lo) hi

/-- `math.radians` -/
def radians (deg : ℝ) : ℝ := deg * (Real.pi / 180)

/-- Python float `%` (for the positive modulus used in the source). -/
def fmod (a b : ℝ) : ℝ := a - b * ⌊a / b⌋

/-- `np.linspace(a, b, n)`, sample `i`.  For `n = 1` numpy returns `[a]`;
for `n ≥ 2` it samples evenly with both endpoints included. -/
def linspace (a b : ℝ) (n : ℕ) (i : Fin n) : ℝ :=
  if n = 1 then a else a + (b - a) * i / ((n : ℝ) - 1)

/-- The per-degree-longitude kilometre scale computed (twice, identically)
in `__init__` and in `compute_ash_overlay`:
`111.320 * cos(lat_rad) if abs(cos(lat_rad)) > 1e-6 else 111.320`. -/
def lonKmPerDeg (lat_deg : ℝ) : ℝ :=
  if |Real.cos (radians lat_deg)| > 1e-6 then 111.320 * Real.cos (radians lat_deg)
  else 111.320

/-- The state of a `VolcanoSimulation` instance after `__init__`:
all attributes assigned by the constructor. -/
structure VolcanoSimulation (n : ℕ) where
  volcano_x : ℝ
  volcano_y : ℝ
  extent_km : ℝ
  lon_min : ℝ
  lon_max : ℝ
  lat_min : ℝ
  lat_max : ℝ
  XX : Fin n → Fin n → ℝ
  YY : Fin n → Fin n → ℝ
  dist_grid : Fin n → Fin n → ℝ

/-- `VolcanoSimulation.__init__(volcano_x, volcano_y, grid_res, extent_km)`,
for a nonnegative resolution (the only case in which `np.linspace` does not
raise; see `buildChecked`). -/
def VolcanoSimulation.build (volcano_x volcano_y : ℝ) (grid_res : ℕ)
    (extent_km : ℝ) : VolcanoSimulation grid_res :=
  let lat_deg_span := extent_km / 111
  let l := lonKmPerDeg volcano_y
  let lon_deg_span := extent_km / l
  let lon_min := volcano_x - lon_deg_span
  let lon_max := volcano_x + lon_deg_span
  let lat_min := volcano_y - lat_deg_span
  let lat_max := volcano_y + lat_deg_span
  let xs := linspace lon_min lon_max grid_res
  let ys := linspace lat_min lat_max grid_res
  let XX : Fin grid_res → Fin grid_res → ℝ := fun _i j => xs j
  let YY : Fin grid_res → Fin grid_res → ℝ := fun i _j => ys i
  { volcano_x := volcano_x
    volcano_y := volcano_y
    extent_km := extent_km
    lon_min := lon_min
    lon_max := lon_max
    lat_min := lat_min
    lat_max := lat_max
    XX := XX
    YY := YY
    dist_grid := fun i j =>
      Real.sqrt (((XX i j - volcano_x) * l) ^ 2 + ((YY i j - volcano_y) * 111) ^ 2) }

/-- `__init__` as actually invoked with an arbitrary integer resolution:
`np.linspace` raises `ValueError` when the number of samples is negative,
and otherwise the constructor performs no input validation at all. -/
def VolcanoSimulation.buildChecked (volcano_x volcano_y : ℝ) (grid_res : ℤ)
    (extent_km : ℝ) : Except String (VolcanoSimulation grid_res.toNat) :=
  if grid_res < 0 then Except.error "Number of samples must be non-negative"
  else Except.ok (VolcanoSimulation.build volcano_x volcano_y grid_res.toNat extent_km)

/-- `np.max` over an (n, n) array (junk value 0 for the empty array,
on which numpy raises). -/
def amax {n : ℕ} (f : Fin n → Fin n → ℝ) : ℝ :=
  if h : n = 0 then 0
  else
    have : Nonempty (Fin n) := ⟨⟨0, Nat.pos_of_ne_zero h⟩⟩
    Finset.univ.sup' Finset.univ_nonempty (fun p : Fin n × Fin n => f p.1 p.2)

/-- `np.min` over an (n, n) array (junk value 0 for the empty array). -/
def amin {n : ℕ} (f : Fin n → Fin n → ℝ) : ℝ :=
  if h : n = 0 then 0
  else
    have : Nonempty (Fin n) := ⟨⟨0, Nat.pos_of_ne_zero h⟩⟩
    Finset.univ.inf' Finset.univ_nonempty (fun p : Fin n × Fin n => f p.1 p.2)

/-- One RGBA pixel; channel values as produced by `astype(np.uint8)`. -/
structure RGBA where
  r : ℤ
  g : ℤ
  b : ℤ
  a : ℤ

/-- `astype(np.uint8)` on the nonnegative in-range floats produced here:
truncation toward zero, i.e. the floor. -/
def toUint8 (x : ℝ) : ℤ := ⌊x⌋

/-- The min/max normalization `(array - minv) / (maxv - minv + 1e-12)`
performed by `_array_to_rgba`. -/
def normedField {n : ℕ} (array : Fin n → Fin n → ℝ) (i j : Fin n) : ℝ :=
  (array i j - amin array) / (amax array - amin array + 1e-12)

/-- `VolcanoSimulation._array_to_rgba(array, cmap_name)`; the resolved
colormap is the abstract parameter `cmap`. -/
def array_to_rgba {n : ℕ} (cmap : ℝ → ℝ × ℝ × ℝ × ℝ)
    (array : Fin n → Fin n → ℝ) : Fin n → Fin n → RGBA := fun i j =>
  let normed := normedField array i j
  let c := cmap normed
  { r := toUint8 (c.1 * 255)
    g := toUint8 (c.2.1 * 255)
    b := toUint8 (c.2.2.1 * 255)
    a := toUint8 (npclip (normed * 1.5) 0 1 * 255) }

/-- The scalar damage field computed by `compute_damage_overlay` between
the degenerate-input guard and the `_array_to_rgba` call. -/
def compute_damage_field {n : ℕ} (sim : VolcanoSimulation n)
    (radius scale eq_mag_num max_radius : ℝ) : Fin n → Fin n → ℝ := fun i j =>
  let base := npclip (1 - sim.dist_grid i j / max radius 1e-6) 0 1
  let scale_factor := npclip (scale / 4) 0 1
  let quake_factor := npclip (eq_mag_num / 7) 0 1
  let damage := base * scale_factor * quake_factor
  let falloff_km := max 1 (max_radius / 6)
  let damage := damage * Real.exp (-sim.dist_grid i j / falloff_km)
  let damage := if sim.dist_grid i j > max_radius then 0 else damage
  npclip (damage * 2) 0 1

/-- The all-zero pixel of the transparent raster returned on degenerate input. -/
def zeroRGBA : RGBA := ⟨0, 0, 0, 0⟩

/-- `VolcanoSimulation.compute_damage_overlay`. -/
def compute_damage_overlay {n : ℕ} (sim : VolcanoSimulation n)
    (radius scale eq_mag_num max_radius : ℝ) (cmap : ℝ → ℝ × ℝ × ℝ × ℝ) :
    Fin n → Fin n → RGBA :=
  if radius ≤ 0 ∨ max_radius ≤ 0 then fun _ _ => zeroRGBA
  else array_to_rgba cmap (compute_damage_field sim radius scale eq_mag_num max_radius)

/-- The ash field of `compute_ash_overlay` up to and including
`ash = gauss * radial_atten` (lines 100-125 of the source). -/
def ash_pre {n : ℕ} (sim : VolcanoSimulation n)
    (radius wind_dir wind_speed max_radius : ℝ) : Fin n → Fin n → ℝ := fun i j =>
  let ash_angle_deg := fmod (wind_dir + 180) 360
  let ash_rad := radians ash_angle_deg
  let ux := Real.sin ash_rad
  let uy := Real.cos ash_rad
  let l := lonKmPerDeg sim.volcano_y
  let RX_km := (sim.XX i j - sim.volcano_x) * l
  let RY_km := (sim.YY i j - sim.volcano_y) * 111
  let parallel := RX_km * ux + RY_km * uy
  let perp := -RX_km * uy + RY_km * ux
  let wind_factor := max 0.1 (wind_speed / 10)
  let parallel_sigma := max 1 ((radius + 1) * 0.4 * wind_factor)
  let perp_sigma := max 0.5 ((radius + 1) * 0.25)
  let gauss := Real.exp (-0.5 * ((parallel / parallel_sigma) ^ 2 + (perp / perp_sigma) ^ 2))
  let gauss := gauss * (1 / (1 + Real.exp (-0.8 * parallel / max parallel_sigma 1e-6)))
  let radial_atten := Real.exp (-sim.dist_grid i j / max 1 (max_radius / 3))
  gauss * radial_atten

/-- The guarded maximum-normalization
`ash = ash / max_ash if max_ash > 0 else ash` (lines 127-128). -/
def ashNormalized {n : ℕ} (pre : Fin n → Fin n → ℝ) : Fin n → Fin n → ℝ :=
  if 0 < amax pre then fun i j => pre i j / amax pre else pre

/-- The scalar ash field computed by `compute_ash_overlay` between the
degenerate-input guard and the `_array_to_rgba` call. -/
def compute_ash_field {n : ℕ} (sim : VolcanoSimulation n)
    (radius wind_dir wind_speed max_radius : ℝ) : Fin n → Fin n → ℝ :=
  let pre := ash_pre sim radius wind_dir wind_speed max_radius
  let ash1 := ashNormalized pre
  let ash2 := fun i j => ash1 i j * npclip (radius / max 1 max_radius * 1.2 + 0.05) 0 1
  let ash3 := fun i j => if sim.dist_grid i j > max_radius * 1.5 then 0 else ash2 i j
  fun i j => npclip (ash3 i j * 2) 0 1

/-- `VolcanoSimulation.compute_ash_overlay`. -/
def compute_ash_overlay {n : ℕ} (sim : VolcanoSimulation n)
    (radius wind_dir wind_speed max_radius : ℝ) (cmap : ℝ → ℝ × ℝ × ℝ × ℝ) :
    Fin n → Fin n → RGBA :=
  if radius ≤ 0 ∨ max_radius ≤ 0 then fun _ _ => zeroRGBA
  else array_to_rgba cmap (compute_ash_field sim radius wind_dir wind_speed max_radius)

/-- `compute_damage_overlay` with the instance state threaded explicitly:
the method reads `self.dist_grid` and assigns no attribute, so the
post-call state is the pre-call state. -/
def compute_damage_overlayStateful {n : ℕ} (sim : VolcanoSimulation n)
    (radius scale eq_mag_num max_radius : ℝ) (cmap : ℝ → ℝ × ℝ × ℝ × ℝ) :
    (Fin n → Fin n → RGBA) × VolcanoSimulation n :=
  (compute_damage_overlay sim radius scale eq_mag_num max_radius cmap, sim)

/-- `compute_ash_overlay` with the instance state threaded explicitly:
the method reads `self.volcano_x`, `self.volcano_y`, `self.XX`, `self.YY`
and `self.dist_grid` and assigns no attribute. -/
def compute_ash_overlayStateful {n : ℕ} (sim : VolcanoSimulation n)
    (radius wind_dir wind_speed max_radius : ℝ) (cmap : ℝ → ℝ × ℝ × ℝ × ℝ) :
    (Fin n → Fin n → RGBA) × VolcanoSimulation n :=
  (compute_ash_overlay sim radius wind_dir wind_speed max_radius cmap, sim)

/-- The damage intensity formula exactly as the specification states it:
`clamp(2 · clamp(1 − d/radius, 0, 1) · clamp(alert/4, 0, 1) ·
clamp(magnitude/7, 0, 1) · exp(−d / max(1, cutoff/6)), 0, 1)`,
with the base falloff divided by `radius` itself. -/
def damageSpecFormula (radius scale eq_mag_num max_radius d : ℝ) : ℝ :=
  npclip (2 * (npclip (1 - d / radius) 0 1 * npclip (scale / 4) 0 1
    * npclip (eq_mag_num / 7) 0 1 * Real.exp (-d / max 1 (max_radius / 6)))) 0 1

/-- The damage intensity formula amended to the guarded base denominator
`max(radius, 1e-6)` that the code actually uses. -/
def damageSpecFormulaGuarded (radius scale eq_mag_num max_radius d : ℝ) : ℝ :=
  npclip (2 * (npclip (1 - d / max radius 1e-6) 0 1 * npclip (scale / 4) 0 1
    * npclip (eq_mag_num / 7) 0 1 * Real.exp (-d / max 1 (max_radius / 6)))) 0 1

/-- The ash post-processing pipeline exactly as the specification states
it: normalize by the field's own maximum (unchanged when that maximum is
0), rescale by `clamp((radius/cutoff_radius)·1.2 + 0.05, 0, 1)`, zero out
beyond `1.5 · cutoff_radius`, then `clamp(value·2, 0, 1)`. -/
def ashPostSpec {n : ℕ} (pre dist : Fin n → Fin n → ℝ) (radius max_radius : ℝ) :
    Fin n → Fin n → ℝ := fun i j =>
  let v := if 0 < amax pre then pre i j / amax pre else pre i j
  let v := v * npclip (radius / max_radius * 1.2 + 0.05) 0 1
  let v := if dist i j > 1.5 * max_radius then 0 else v
  npclip (v * 2) 0 1

/-- The ash post-processing pipeline amended to the rescale denominator
`max(1, cutoff_radius)` that the code actually uses. -/
def ashPostGuarded {n : ℕ} (pre dist : Fin n → Fin n → ℝ) (radius max_radius : ℝ) :
    Fin n → Fin n → ℝ := fun i j =>
  let v := if 0 < amax pre then pre i j / amax pre else pre i j
  let v := v * npclip (radius / max 1 max_radius * 1.2 + 0.05) 0 1
  let v := if dist i j > 1.5 * max_radius then 0 else v
  npclip (v * 2) 0 1

/-! The C4 wind-bias scenario: resolution 50, extent 40 km, radius 10,
wind_dir 0° (wind from the north), wind_speed 20, cutoff_radius 20,
grid centred at the origin.  In this scenario the planar offset of grid
row/column `k` from the volcano is `(80k - 1960)/49` km on each axis. -/

/-- Planar km offset of grid index `k` (row or column) from the centre in
the C4 scenario. -/
def oKm (k : ℕ) : ℝ := (80 * k - 1960) / 49

/-- The C4 scenario pre-normalization ash value at row `a`, column `b`,
in closed form: Gaussian × logistic (downwind bias) × radial attenuation. -/
def sPreN (a b : ℕ) : ℝ :=
  Real.exp (-(25 / 3872 * oKm a ^ 2) - 8 / 121 * oKm b ^ 2)
    * (1 + Real.exp (oKm a / 11))⁻¹
    * Real.exp (-(3 / 20 * Real.sqrt (oKm b ^ 2 + oKm a ^ 2)))

/-- The C4 scenario grid. -/
def sGrid : VolcanoSimulation 50 := VolcanoSimulation.build 0 0 50 40

/-- The C4 scenario ash field. -/
def sField : Fin 50 → Fin 50 → ℝ := compute_ash_field sGrid 10 0 20 20

/-- The maximum of the C4 pre-normalization ash field. -/
def sMax : ℝ := amax fun i j : Fin 50 => sPreN i.val j.val

/-- The C4 scenario ash intensity at row `a`, column `b`, in closed form. -/
def sVN (a b : ℕ) : ℝ :=
  if 30 < Real.sqrt (oKm b ^ 2 + oKm a ^ 2) then 0
  else min 1 (13 / 10 * sPreN a b / sMax)

/-- Row sum of the C4 scenario ash intensity. -/
def rowSumN (a : ℕ) : ℝ := Finset.sum (Finset.range 50) fun b => sVN a b

/-- Summed C4 ash intensity strictly south of the volcano. -/
def southSum : ℝ :=
  Finset.sum (Finset.univ.filter fun p : Fin 50 × Fin 50 =>
    sGrid.YY p.1 p.2 < sGrid.volcano_y) fun p => sField p.1 p.2

/-- Summed C4 ash intensity strictly north of the volcano. -/
def northSum : ℝ :=
  Finset.sum (Finset.univ.filter fun p : Fin 50 × Fin 50 =>
    sGrid.volcano_y < sGrid.YY p.1 p.2) fun p => sField p.1 p.2

/-- Column factor of the upper bound used for the far rows of the C4
scenario (Gaussian crosswind factor × radial column share). -/
def colF (b : ℕ) : ℝ := Real.exp (-(8 / 121 * oKm b ^ 2) - 93 / 2000 * |oKm b|)

/-! ### Helper lemmas about the embedded primitives -/

theorem le_amax {n : ℕ} (f : Fin n → Fin n → ℝ) (i j : Fin n) : f i j ≤ amax f := by
  have hn : n ≠ 0 := fun h => (h ▸ i).elim0
  rw [amax, dif_neg hn]
  exact Finset.le_sup' (fun p : Fin n × Fin n => f p.1 p.2) (Finset.mem_univ (i, j))

theorem amin_le {n : ℕ} (f : Fin n → Fin n → ℝ) (i j : Fin n) : amin f ≤ f i j := by
  have hn : n ≠ 0 := fun h => (h ▸ i).elim0
  rw [amin, dif_neg hn]
  exact Finset.inf'_le (fun p : Fin n × Fin n => f p.1 p.2) (Finset.mem_univ (i, j))

theorem amax_le {n : ℕ} (f : Fin n → Fin n → ℝ) (c : ℝ) (i0 : Fin n)
    (h : ∀ i j, f i j ≤ c) : amax f ≤ c := by
  have hn : n ≠ 0 := fun hh => (hh ▸ i0).elim0
  rw [amax, dif_neg hn]
  exact (Finset.sup'_le_iff _ _).2 fun p _ => h p.1 p.2

theorem le_amin {n : ℕ} (f : Fin n → Fin n → ℝ) (c : ℝ) (i0 : Fin n)
    (h : ∀ i j, c ≤ f i j) : c ≤ amin f := by
  have hn : n ≠ 0 := fun hh => (hh ▸ i0).elim0
  rw [amin, dif_neg hn]
  exact Finset.le_inf' _ _ fun p _ => h p.1 p.2

theorem amax_const {n : ℕ} (c : ℝ) (i0 : Fin n) : amax (fun _ _ : Fin n => c) = c :=
  le_antisymm (amax_le _ c i0 fun _ _ => le_rfl) (le_amax (fun _ _ : Fin n => c) i0 i0)

theorem amin_const {n : ℕ} (c : ℝ) (i0 : Fin n) : amin (fun _ _ : Fin n => c) = c :=
  le_antisymm (amin_le (fun _ _ : Fin n => c) i0 i0) (le_amin _ c i0 fun _ _ => le_rfl)

theorem amax_one {f : Fin 1 → Fin 1 → ℝ} : amax f = f 0 0 := by
  have h : f = fun _ _ => f 0 0 := by
    funext i j
    rw [Subsingleton.elim i 0, Subsingleton.elim j 0]
  rw [h]
  exact amax_const _ 0

theorem amin_one {f : Fin 1 → Fin 1 → ℝ} : amin f = f 0 0 := by
  have h : f = fun _ _ => f 0 0 := by
    funext i j
    rw [Subsingleton.elim i 0, Subsingleton.elim j 0]
  rw [h]
  exact amin_const _ 0

theorem npclip_nonneg {x hi : ℝ} (h : 0 ≤ hi) : 0 ≤ npclip x 0 hi :=
  le_min (le_max_right x 0) h

theorem npclip_le {x hi : ℝ} : npclip x 0 hi ≤ hi := min_le_right _ _

theorem npclip_of_mem {x lo hi : ℝ} (h1 : lo ≤ x) (h2 : x ≤ hi) : npclip x lo hi = x := by
  rw [npclip, max_eq_left h1, min_eq_left h2]

theorem npclip_of_le {x lo hi : ℝ} (h1 : x ≤ lo) (h2 : lo ≤ hi) : npclip x lo hi = lo := by
  rw [npclip, max_eq_right h1, min_eq_left h2]

theorem npclip_of_ge {x lo hi : ℝ} (h1 : lo ≤ hi) (h2 : hi ≤ x) : npclip x lo hi = hi := by
  rw [npclip, max_eq_left (h1.trans h2), min_eq_right h2]

theorem npclip_zero {hi : ℝ} (h : 0 ≤ hi) : npclip 0 0 hi = 0 := npclip_of_mem le_rfl h

theorem build_lon_min (x y : ℝ) (n : ℕ) (e : ℝ) :
    (VolcanoSimulation.build x y n e).lon_min = x - e / lonKmPerDeg y := rfl

theorem build_lon_max (x y : ℝ) (n : ℕ) (e : ℝ) :
    (VolcanoSimulation.build x y n e).lon_max = x + e / lonKmPerDeg y := rfl

theorem build_lat_min (x y : ℝ) (n : ℕ) (e : ℝ) :
    (VolcanoSimulation.build x y n e).lat_min = y - e / 111 := rfl

theorem build_lat_max (x y : ℝ) (n : ℕ) (e : ℝ) :
    (VolcanoSimulation.build x y n e).lat_max = y + e / 111 := rfl

theorem build_XX (x y : ℝ) (n : ℕ) (e : ℝ) (i j : Fin n) :
    (VolcanoSimulation.build x y n e).XX i j
      = linspace (x - e / lonKmPerDeg y) (x + e / lonKmPerDeg y) n j := rfl

theorem build_YY (x y : ℝ) (n : ℕ) (e : ℝ) (i j : Fin n) :
    (VolcanoSimulation.build x y n e).YY i j
      = linspace (y - e / 111) (y + e / 111) n i := rfl

theorem build_dist_grid (x y : ℝ) (n : ℕ) (e : ℝ) (i j : Fin n) :
    (VolcanoSimulation.build x y n e).dist_grid i j
      = Real.sqrt ((((VolcanoSimulation.build x y n e).XX i j - x) * lonKmPerDeg y) ^ 2
          + (((VolcanoSimulation.build x y n e).YY i j - y) * 111) ^ 2) := rfl

theorem radians_zero : radians 0 = 0 := by rw [radians]; ring

theorem lonKmPerDeg_zero : lonKmPerDeg 0 = 111.320 := by
  rw [lonKmPerDeg, radians_zero, Real.cos_zero,
    if_pos (by rw [abs_of_nonneg (by norm_num : (0:ℝ) ≤ 1)]; norm_num)]
  norm_num

/-- The single point of a 1×1 grid centred at the origin sits at the
bottom-left bound, at planar offset (-extent, -extent) km. -/
theorem dist_grid_one (e : ℝ) :
    (VolcanoSimulation.build 0 0 1 e).dist_grid 0 0 = Real.sqrt (e ^ 2 + e ^ 2) := by
  rw [build_dist_grid, build_XX, build_YY, lonKmPerDeg_zero, linspace, linspace,
    if_pos rfl, if_pos rfl]
  norm_num

/-- Unfolding of the damage-field pipeline at one grid point. -/
theorem compute_damage_field_eq {n : ℕ} (sim : VolcanoSimulation n)
    (radius scale eq_mag_num max_radius : ℝ) (i j : Fin n) :
    compute_damage_field sim radius scale eq_mag_num max_radius i j
      = npclip ((if sim.dist_grid i j > max_radius then 0 else
          npclip (1 - sim.dist_grid i j / max radius 1e-6) 0 1 * npclip (scale / 4) 0 1
            * npclip (eq_mag_num / 7) 0 1
            * Real.exp (-sim.dist_grid i j / max 1 (max_radius / 6))) * 2) 0 1 := rfl

/-- The alpha channel written by `_array_to_rgba`. -/
theorem array_to_rgba_a {n : ℕ} (cmap : ℝ → ℝ × ℝ × ℝ × ℝ)
    (f : Fin n → Fin n → ℝ) (i j : Fin n) :
    (array_to_rgba cmap f i j).a = toUint8 (npclip (normedField f i j * 1.5) 0 1 * 255) := rfl

/-- Unfolding of the ash-field post-processing at one grid point. -/
theorem compute_ash_field_eq {n : ℕ} (sim : VolcanoSimulation n)
    (radius wind_dir wind_speed max_radius : ℝ) (i j : Fin n) :
    compute_ash_field sim radius wind_dir wind_speed max_radius i j
      = npclip ((if sim.dist_grid i j > max_radius * 1.5 then 0 else
          ashNormalized (ash_pre sim radius wind_dir wind_speed max_radius) i j
            * npclip (radius / max 1 max_radius * 1.2 + 0.05) 0 1) * 2) 0 1 := rfl

/-- Every pre-normalization ash value is strictly positive: a product of
exponentials and a logistic factor. -/
theorem ash_pre_pos {n : ℕ} (sim : VolcanoSimulation n)
    (radius wind_dir wind_speed max_radius : ℝ) (i j : Fin n) :
    0 < ash_pre sim radius wind_dir wind_speed max_radius i j := by
  simp only [ash_pre]
  positivity

theorem npclip_pos {x hi : ℝ} (hx : 0 < x) (hhi : 0 < hi) : 0 < npclip x 0 hi :=
  lt_min (lt_of_lt_of_le hx (le_max_left x 0)) hhi

/-- The single corner point sampled by `np.linspace` with two samples at
index 0 is the lower bound of each axis, at planar offset
(-extent, -extent) km for a grid centred at the origin. -/
theorem dist_grid_two_corner (e : ℝ) :
    (VolcanoSimulation.build 0 0 2 e).dist_grid 0 0 = Real.sqrt (e ^ 2 + e ^ 2) := by
  rw [build_dist_grid, build_XX, build_YY, lonKmPerDeg_zero, linspace, linspace,
    if_neg (by norm_num), if_neg (by norm_num)]
  norm_num

/-! ### C4 scenario closed forms -/

theorem build_volcano_x (x y : ℝ) (n : ℕ) (e : ℝ) :
    (VolcanoSimulation.build x y n e).volcano_x = x := rfl

theorem build_volcano_y (x y : ℝ) (n : ℕ) (e : ℝ) :
    (VolcanoSimulation.build x y n e).volcano_y = y := rfl

theorem sGrid_volcano_x : sGrid.volcano_x = 0 := rfl

theorem sGrid_volcano_y : sGrid.volcano_y = 0 := rfl

theorem oKm_nonpos {a : ℕ} (ha : a ≤ 24) : oKm a ≤ 0 := by
  rw [oKm]
  apply div_nonpos_of_nonpos_of_nonneg _ (by norm_num)
  have : (a:ℝ) ≤ 24 := by exact_mod_cast ha
  linarith

theorem sGrid_RX (i j : Fin 50) :
    (sGrid.XX i j - sGrid.volcano_x) * lonKmPerDeg sGrid.volcano_y = oKm j.val := by
  simp only [sGrid, build_XX, build_volcano_x, build_volcano_y, lonKmPerDeg_zero,
    linspace, if_neg (by norm_num : ¬ (50:ℕ) = 1), oKm]
  have h49 : ((50:ℕ):ℝ) - 1 = 49 := by norm_num
  rw [h49]
  field_simp
  ring

theorem sGrid_RY (i j : Fin 50) :
    (sGrid.YY i j - sGrid.volcano_y) * 111 = oKm i.val := by
  simp only [sGrid, build_YY, build_volcano_y,
    linspace, if_neg (by norm_num : ¬ (50:ℕ) = 1), oKm]
  have h49 : ((50:ℕ):ℝ) - 1 = 49 := by norm_num
  rw [h49]
  field_simp
  ring

theorem sGrid_dist (i j : Fin 50) :
    sGrid.dist_grid i j = Real.sqrt (oKm j.val ^ 2 + oKm i.val ^ 2) := by
  have hx := sGrid_RX i j
  have hy := sGrid_RY i j
  rw [sGrid_volcano_x, sGrid_volcano_y] at hx
  rw [sGrid_volcano_y] at hy
  simp only [sGrid] at hx hy ⊢
  rw [build_dist_grid, hx, hy]

theorem oKm_neg_iff {a : ℕ} : oKm a < 0 ↔ a ≤ 24 := by
  rw [oKm]
  constructor
  · intro h
    rcases div_neg_iff.mp h with ⟨_, h2⟩ | ⟨h1, _⟩
    · norm_num at h2
    · have : (80 * a : ℝ) < 1960 := by linarith
      have : 80 * a < 1960 := by exact_mod_cast this
      omega
  · intro h
    apply div_neg_of_neg_of_pos _ (by norm_num)
    have : (a:ℝ) ≤ 24 := by exact_mod_cast h
    linarith

theorem oKm_pos_iff {a : ℕ} : 0 < oKm a ↔ 25 ≤ a := by
  rw [oKm]
  constructor
  · intro h
    rcases div_pos_iff.mp h with ⟨h1, _⟩ | ⟨_, h2⟩
    · have : (1960:ℝ) < 80 * a := by linarith
      have : 1960 < 80 * a := by exact_mod_cast this
      omega
    · norm_num at h2
  · intro h
    apply div_pos _ (by norm_num)
    have : (25:ℝ) ≤ (a:ℝ) := by exact_mod_cast h
    linarith

/-- A grid point lies strictly south of the volcano iff its row index is
at most 24. -/
theorem sGrid_south_iff (i j : Fin 50) :
    (sGrid.YY i j < sGrid.volcano_y) ↔ i.val ≤ 24 := by
  have hy : sGrid.YY i j * 111 = oKm i.val := by
    have := sGrid_RY i j
    rwa [sGrid_volcano_y, sub_zero] at this
  rw [sGrid_volcano_y, ← oKm_neg_iff (a := i.val), ← hy]
  constructor
  · intro h; nlinarith
  · intro h; nlinarith

/-- A grid point lies strictly north of the volcano iff its row index is
at least 25. -/
theorem sGrid_north_iff (i j : Fin 50) :
    (sGrid.volcano_y < sGrid.YY i j) ↔ 25 ≤ i.val := by
  have hy : sGrid.YY i j * 111 = oKm i.val := by
    have := sGrid_RY i j
    rwa [sGrid_volcano_y, sub_zero] at this
  rw [sGrid_volcano_y, ← oKm_pos_iff (a := i.val), ← hy]
  constructor
  · intro h; nlinarith
  · intro h; nlinarith

/-- In the C4 scenario the wind blows from the north: the plume axis
`(wind_dir + 180) mod 360 = 180°` has unit vector (sin 180°, cos 180°)
= (0, -1), pointing due south. -/
theorem scenario_axis :
    fmod ((0:ℝ) + 180) 360 = 180 ∧
      Real.sin (radians (fmod ((0:ℝ) + 180) 360)) = 0 ∧
      Real.cos (radians (fmod ((0:ℝ) + 180) 360)) = -1 := by
  have hfloor : ⌊((0:ℝ) + 180) / 360⌋ = 0 :=
    Int.floor_eq_zero_iff.mpr ⟨by norm_num, by norm_num⟩
  have hfmod : fmod ((0:ℝ) + 180) 360 = 180 := by
    rw [fmod, hfloor]
    norm_num
  have hrad : radians 180 = Real.pi := by rw [radians]; ring
  exact ⟨hfmod, by rw [hfmod, hrad, Real.sin_pi], by rw [hfmod, hrad, Real.cos_pi]⟩

/-- Closed form of the C4 pre-normalization ash field. -/
theorem sPre_eq (i j : Fin 50) :
    ash_pre sGrid 10 0 20 20 i j = sPreN i.val j.val := by
  obtain ⟨-, hux, huy⟩ := scenario_axis
  simp only [ash_pre]
  rw [hux, huy, sGrid_RX, sGrid_RY, sGrid_dist]
  rw [(by norm_num : max (0.1:ℝ) (20/10) = 2),
    (by norm_num : max (1:ℝ) ((10 + 1) * 0.4 * 2) = 44/5),
    (by norm_num : max ((44:ℝ)/5) 1e-6 = 44/5),
    (by norm_num : max (0.5:ℝ) ((10 + 1) * 0.25) = 11/4),
    (by norm_num : max (1:ℝ) (20/3) = 20/3)]
  simp only [mul_zero, zero_add, add_zero, mul_neg_one, mul_one, neg_neg]
  rw [sPreN, one_div]
  congr 1
  · congr 1
    · congr 1
      rw [(by norm_num : (0.5:ℝ) = 1/2)]
      ring
    · congr 2
      rw [(by norm_num : (0.8:ℝ) = 4/5)]
      ring
  · congr 1
    ring

theorem sPreN_pos (a b : ℕ) : 0 < sPreN a b := by
  simp only [sPreN]
  positivity

theorem sPreN_le_one (a b : ℕ) : sPreN a b ≤ 1 := by
  simp only [sPreN]
  have h1 : Real.exp (-(25 / 3872 * oKm a ^ 2) - 8 / 121 * oKm b ^ 2) ≤ 1 := by
    rw [Real.exp_le_one_iff]
    nlinarith [sq_nonneg (oKm a), sq_nonneg (oKm b)]
  have h2 : (1 + Real.exp (oKm a / 11))⁻¹ ≤ 1 := by
    rw [inv_le_one_iff₀]
    right
    nlinarith [Real.exp_pos (oKm a / 11)]
  have h3 : Real.exp (-(3 / 20 * Real.sqrt (oKm b ^ 2 + oKm a ^ 2))) ≤ 1 := by
    rw [Real.exp_le_one_iff]
    nlinarith [Real.sqrt_nonneg (oKm b ^ 2 + oKm a ^ 2)]
  have e2 : (0:ℝ) ≤ (1 + Real.exp (oKm a / 11))⁻¹ := by positivity
  have e3 := (Real.exp_pos (-(3 / 20 * Real.sqrt (oKm b ^ 2 + oKm a ^ 2)))).le
  exact mul_le_one₀ (mul_le_one₀ h1 e2 h2) e3 h3

theorem sMax_pos : 0 < sMax :=
  lt_of_lt_of_le (sPreN_pos 0 0) (le_amax (fun i j : Fin 50 => sPreN i.val j.val) 0 0)

theorem sMax_le_one : sMax ≤ 1 :=
  amax_le _ 1 0 fun i j => sPreN_le_one i.val j.val

theorem sMax_ge_ref : sPreN 24 25 ≤ sMax :=
  le_amax (fun i j : Fin 50 => sPreN i.val j.val) ⟨24, by norm_num⟩ ⟨25, by norm_num⟩

theorem amax_ash_pre_eq : amax (ash_pre sGrid 10 0 20 20) = sMax := by
  simp only [sMax]
  congr 1
  funext i j
  exact sPre_eq i j

theorem sVN_nonneg (a b : ℕ) : 0 ≤ sVN a b := by
  rw [sVN]
  split
  · exact le_rfl
  · exact le_min (by norm_num)
      (div_nonneg (mul_nonneg (by norm_num) (sPreN_pos a b).le) sMax_pos.le)

set_option maxRecDepth 2000 in
/-- Closed form of the C4 scenario ash intensity. -/
theorem sField_eq (i j : Fin 50) : sField i j = sVN i.val j.val := by
  have hp : 0 < amax (ash_pre sGrid 10 0 20 20) := amax_ash_pre_eq ▸ sMax_pos
  have hnorm : ashNormalized (ash_pre sGrid 10 0 20 20) i j = sPreN i.val j.val / sMax := by
    rw [ashNormalized, if_pos hp]
    show ash_pre sGrid 10 0 20 20 i j / amax (ash_pre sGrid 10 0 20 20) = _
    rw [sPre_eq, amax_ash_pre_eq]
  have hfac : npclip ((10:ℝ) / max 1 20 * 1.2 + 0.05) 0 1 = 13/20 := by
    rw [(by norm_num : max (1:ℝ) 20 = 20), npclip_of_mem (by norm_num) (by norm_num)]
    norm_num
  simp only [sField]
  rw [compute_ash_field_eq, hnorm, hfac, sGrid_dist,
    (by norm_num : (20:ℝ) * 1.5 = 30), sVN]
  split
  · rw [zero_mul, npclip_zero (by norm_num)]
  · have hx0 : (0:ℝ) ≤ sPreN i.val j.val / sMax * (13/20) * 2 :=
      mul_nonneg (mul_nonneg (div_nonneg (sPreN_pos _ _).le sMax_pos.le)
        (by norm_num)) (by norm_num)
    rw [npclip, max_eq_left hx0, min_comm]
    congr 1
    ring

/-- The southern sum is the sum of the first 25 row sums. -/
theorem southSum_eq : southSum = Finset.sum (Finset.range 25) rowSumN := by
  have h1 : ∀ p : Fin 50 × Fin 50,
      (if sGrid.YY p.1 p.2 < sGrid.volcano_y then sField p.1 p.2 else 0)
        = (if p.1.val ≤ 24 then sVN p.1.val p.2.val else 0) := by
    intro p
    rw [sField_eq]
    by_cases h : sGrid.YY p.1 p.2 < sGrid.volcano_y
    · rw [if_pos h, if_pos ((sGrid_south_iff p.1 p.2).mp h)]
    · rw [if_neg h, if_neg fun hc => h ((sGrid_south_iff p.1 p.2).mpr hc)]
  have h2 : southSum = Finset.sum Finset.univ
      fun p : Fin 50 × Fin 50 => if p.1.val ≤ 24 then sVN p.1.val p.2.val else 0 := by
    rw [southSum, Finset.sum_filter]
    exact Finset.sum_congr rfl fun p _ => h1 p
  rw [h2]
  rw [Fintype.sum_prod_type]
  have h3 : ∀ i : Fin 50,
      (Finset.sum Finset.univ fun j : Fin 50 => if i.val ≤ 24 then sVN i.val j.val else 0)
        = (fun a => if a ≤ 24 then rowSumN a else 0) i.val := by
    intro i
    by_cases h : i.val ≤ 24
    · simp only [h, if_true, rowSumN]
      exact Fin.sum_univ_eq_sum_range (fun b => sVN i.val b) 50
    · simp [h]
  rw [Finset.sum_congr rfl fun i _ => h3 i,
    Fin.sum_univ_eq_sum_range (fun a => if a ≤ 24 then rowSumN a else 0) 50]
  have hsub : Finset.sum (Finset.range 25) (fun a => if a ≤ 24 then rowSumN a else 0)
      = Finset.sum (Finset.range 50) fun a => if a ≤ 24 then rowSumN a else 0 :=
    Finset.sum_subset (Finset.range_subset.mpr (by norm_num))
      fun x _ hx => if_neg fun hc => hx (Finset.mem_range.mpr (by omega))
  rw [← hsub]
  exact Finset.sum_congr rfl fun a ha =>
    if_pos (by have := Finset.mem_range.mp ha; omega)

/-- The northern sum is the sum of the row sums of the mirrored rows
`49 - a`, `a < 25`. -/
theorem northSum_eq : northSum = Finset.sum (Finset.range 25) fun a => rowSumN (49 - a) := by
  have h1 : ∀ p : Fin 50 × Fin 50,
      (if sGrid.volcano_y < sGrid.YY p.1 p.2 then sField p.1 p.2 else 0)
        = (if 25 ≤ p.1.val then sVN p.1.val p.2.val else 0) := by
    intro p
    rw [sField_eq]
    by_cases h : sGrid.volcano_y < sGrid.YY p.1 p.2
    · rw [if_pos h, if_pos ((sGrid_north_iff p.1 p.2).mp h)]
    · rw [if_neg h, if_neg fun hc => h ((sGrid_north_iff p.1 p.2).mpr hc)]
  have h2 : northSum = Finset.sum Finset.univ
      fun p : Fin 50 × Fin 50 => if 25 ≤ p.1.val then sVN p.1.val p.2.val else 0 := by
    rw [northSum, Finset.sum_filter]
    exact Finset.sum_congr rfl fun p _ => h1 p
  rw [h2, Fintype.sum_prod_type]
  have h3 : ∀ i : Fin 50,
      (Finset.sum Finset.univ fun j : Fin 50 => if 25 ≤ i.val then sVN i.val j.val else 0)
        = (fun a => if 25 ≤ a then rowSumN a else 0) i.val := by
    intro i
    by_cases h : 25 ≤ i.val
    · simp only [h, if_true, rowSumN]
      exact Fin.sum_univ_eq_sum_range (fun b => sVN i.val b) 50
    · simp [h]
  rw [Finset.sum_congr rfl fun i _ => h3 i,
    Fin.sum_univ_eq_sum_range (fun a => if 25 ≤ a then rowSumN a else 0) 50]
  have hsub : Finset.sum (Finset.Ico 25 50) (fun a => if 25 ≤ a then rowSumN a else 0)
      = Finset.sum (Finset.range 50) fun a => if 25 ≤ a then rowSumN a else 0 :=
    Finset.sum_subset
      (fun x hx => Finset.mem_range.mpr (by have := Finset.mem_Ico.mp hx; omega))
      fun x _ hx => if_neg fun hc => hx (Finset.mem_Ico.mpr
        ⟨hc, by have := Finset.mem_range.mp ‹x ∈ Finset.range 50›; omega⟩)
  rw [← hsub]
  have h5 : Finset.sum (Finset.Ico 25 50) (fun a => if 25 ≤ a then rowSumN a else 0)
      = Finset.sum (Finset.Ico 25 50) fun a => rowSumN a :=
    Finset.sum_congr rfl fun a ha => if_pos (Finset.mem_Ico.mp ha).1
  rw [h5, Finset.sum_Ico_eq_sum_range,
    (by norm_num : 50 - 25 = 25), ← Finset.sum_range_reflect]
  exact Finset.sum_congr rfl fun a ha => by
    congr 1
    have := Finset.mem_range.mp ha
    omega

/-- Certified rational upper bound for `exp (-q)`. -/
theorem exp_neg_le_ub (q : ℝ) (hq : 0 ≤ q) : Real.exp (-q) ≤ ((1 + q / 32) ^ 32)⁻¹ := by
  have h1 : 1 + q / 32 ≤ Real.exp (q / 32) := by
    have := Real.add_one_le_exp (q / 32)
    linarith
  have h0 : (0:ℝ) < 1 + q / 32 := by linarith
  have h2 : (1 + q / 32) ^ 32 ≤ Real.exp (q / 32) ^ 32 := pow_le_pow_left₀ h0.le h1 32
  rw [← Real.exp_nat_mul] at h2
  rw [(by push_cast; ring : ((32:ℕ):ℝ) * (q / 32) = q)] at h2
  rw [Real.exp_neg]
  exact inv_anti₀ (by positivity) h2

/-- Certified rational lower bound for `exp (-q)`, `0 ≤ q ≤ 32`. -/
theorem exp_neg_ge_lb (q : ℝ) (hq : 0 ≤ q) (hq32 : q ≤ 32) :
    (1 - q / 32) ^ 32 ≤ Real.exp (-q) := by
  have h1 : 1 - q / 32 ≤ Real.exp (-(q / 32)) := by
    have := Real.add_one_le_exp (-(q / 32))
    linarith
  have h0 : (0:ℝ) ≤ 1 - q / 32 := by linarith
  have h2 : (1 - q / 32) ^ 32 ≤ Real.exp (-(q / 32)) ^ 32 := pow_le_pow_left₀ h0 h1 32
  rw [← Real.exp_nat_mul] at h2
  rwa [(by push_cast; ring : ((32:ℕ):ℝ) * -(q / 32) = -q)] at h2

/-- Scaling a clamped value by `c ∈ [0,1]`. -/
theorem min_scale {c u : ℝ} (hc0 : 0 ≤ c) (hc1 : c ≤ 1) (hu : 0 ≤ u) :
    c * min 1 u ≤ min 1 (c * u) := by
  rcases le_total u 1 with h | h
  · rw [min_eq_right h, min_eq_right (mul_le_one₀ hc1 hu h)]
  · rw [min_eq_left h, mul_one]
    exact le_min hc1 (le_mul_of_one_le_right hc0 h)

theorem oKm_flip {a : ℕ} (ha : a ≤ 24) : oKm (49 - a) = -oKm a := by
  rw [oKm, oKm]
  rw [(by push_cast [Nat.cast_sub (by omega : a ≤ 49)]; ring : ((49 - a : ℕ) : ℝ) = 49 - (a:ℝ))]
  ring

/-- The mirrored (north) pre-normalization value is exactly
`exp (oKm a / 11)` times the southern one: the Gaussian and the radial
attenuation are symmetric, only the logistic factor changes. -/
theorem sPreN_flip {a : ℕ} (ha : a ≤ 24) (b : ℕ) :
    sPreN (49 - a) b = Real.exp (oKm a / 11) * sPreN a b := by
  rw [sPreN, sPreN, oKm_flip ha]
  simp only [neg_sq]
  have hE := Real.exp_pos (oKm a / 11)
  have hne : Real.exp (oKm a / 11) ≠ 0 := hE.ne'
  have hne2 : (1:ℝ) + Real.exp (oKm a / 11) ≠ 0 := by positivity
  have hlog : (1 + Real.exp (-oKm a / 11))⁻¹
      = Real.exp (oKm a / 11) * (1 + Real.exp (oKm a / 11))⁻¹ := by
    rw [(by ring : -oKm a / 11 = -(oKm a / 11)), Real.exp_neg]
    field_simp
    ring
  rw [hlog]
  ring

theorem rowSum_nonneg (a : ℕ) : 0 ≤ rowSumN a :=
  Finset.sum_nonneg fun b _ => sVN_nonneg a b

/-- Pointwise pairing bound between a southern grid point and its
mirrored northern point. -/
theorem sVN_pair {a : ℕ} (ha : a ≤ 24) (b : ℕ) :
    Real.exp (oKm a / 11) * sVN a b ≤ sVN (49 - a) b := by
  have hz : oKm a / 11 ≤ 0 := div_nonpos_of_nonpos_of_nonneg (oKm_nonpos ha) (by norm_num)
  have hc1 : Real.exp (oKm a / 11) ≤ 1 := Real.exp_le_one_iff.mpr hz
  have hc0 := (Real.exp_pos (oKm a / 11)).le
  rw [sVN, sVN, oKm_flip ha]
  simp only [neg_sq]
  by_cases hm : 30 < Real.sqrt (oKm b ^ 2 + oKm a ^ 2)
  · rw [if_pos hm, if_pos hm, mul_zero]
  · rw [if_neg hm, if_neg hm, sPreN_flip ha b]
    have hu : (0:ℝ) ≤ 13 / 10 * sPreN a b / sMax :=
      div_nonneg (mul_nonneg (by norm_num) (sPreN_pos a b).le) sMax_pos.le
    calc Real.exp (oKm a / 11) * min 1 (13 / 10 * sPreN a b / sMax)
        ≤ min 1 (Real.exp (oKm a / 11) * (13 / 10 * sPreN a b / sMax)) :=
          min_scale hc0 hc1 hu
      _ = min 1 (13 / 10 * (Real.exp (oKm a / 11) * sPreN a b) / sMax) := by
          congr 1
          ring

theorem rowSum_pair {a : ℕ} (ha : a ≤ 24) :
    Real.exp (oKm a / 11) * rowSumN a ≤ rowSumN (49 - a) := by
  rw [rowSumN, rowSumN, Finset.mul_sum]
  exact Finset.sum_le_sum fun b _ => sVN_pair ha b

/-- Per-row pairing bound for the south-minus-twice-north sum. -/
theorem term_pair {a : ℕ} (ha : a ≤ 24) :
    rowSumN a - 2 * rowSumN (49 - a) ≤ (1 - 2 * Real.exp (oKm a / 11)) * rowSumN a := by
  have h := rowSum_pair ha
  nlinarith [rowSum_nonneg a]

/-- Cauchy–Schwarz split of the planar distance: `0.95·t + 0.31·|x| ≤
√(x² + t²)` since `0.95² + 0.31² ≤ 1`. -/
theorem dist_split (t x : ℝ) :
    19 / 20 * t + 31 / 100 * |x| ≤ Real.sqrt (x ^ 2 + t ^ 2) := by
  apply Real.le_sqrt_of_sq_le
  have h2 : |x| ^ 2 = x ^ 2 := sq_abs x
  nlinarith [sq_nonneg (t - 589 / 195 * |x|), sq_nonneg |x|]

/-- Far-row factorization: the pre-normalization value is bounded by a
row factor times the column factor `colF`. -/
theorem sPreN_le_row_col (a b : ℕ) :
    sPreN a b ≤ Real.exp (-(25 / 3872 * oKm a ^ 2) + 57 / 400 * oKm a)
      * (1 + Real.exp (oKm a / 11))⁻¹ * colF b := by
  have hR : -(3 / 20 * Real.sqrt (oKm b ^ 2 + oKm a ^ 2))
      ≤ 57 / 400 * oKm a - 93 / 2000 * |oKm b| := by
    have h := dist_split (-oKm a) (oKm b)
    rw [neg_sq] at h
    nlinarith
  have hL : (0:ℝ) ≤ (1 + Real.exp (oKm a / 11))⁻¹ := by positivity
  rw [sPreN, colF]
  calc Real.exp (-(25 / 3872 * oKm a ^ 2) - 8 / 121 * oKm b ^ 2)
        * (1 + Real.exp (oKm a / 11))⁻¹
        * Real.exp (-(3 / 20 * Real.sqrt (oKm b ^ 2 + oKm a ^ 2)))
      ≤ Real.exp (-(25 / 3872 * oKm a ^ 2) - 8 / 121 * oKm b ^ 2)
        * (1 + Real.exp (oKm a / 11))⁻¹
        * Real.exp (57 / 400 * oKm a - 93 / 2000 * |oKm b|) := by
        apply mul_le_mul_of_nonneg_left (Real.exp_le_exp.mpr hR)
        positivity
    _ = Real.exp (-(25 / 3872 * oKm a ^ 2) + 57 / 400 * oKm a)
        * (1 + Real.exp (oKm a / 11))⁻¹
        * Real.exp (-(8 / 121 * oKm b ^ 2) - 93 / 2000 * |oKm b|) := by
        rw [mul_right_comm, mul_right_comm (Real.exp (-(25 / 3872 * oKm a ^ 2) + 57 / 400 * oKm a)),
          ← Real.exp_add, ← Real.exp_add]
        congr 2
        ring

/-- Every scenario intensity is bounded by the unnormalized value scaled
by `1.3 / sMax`. -/
theorem sVN_le_scaled (a b : ℕ) : sVN a b ≤ 13 / 10 * sPreN a b / sMax := by
  rw [sVN]
  have h0 : (0:ℝ) ≤ 13 / 10 * sPreN a b / sMax :=
    div_nonneg (mul_nonneg (by norm_num) (sPreN_pos a b).le) sMax_pos.le
  split
  · exact h0
  · exact min_le_right _ _

/-- Lower bound for an unmasked scenario intensity on nearly-central
points, using `sMax ≤ 1`. -/
theorem sVN_near_ge (a b : ℕ) (r : ℝ) (hr1 : r ≤ 1)
    (hmask : Real.sqrt (oKm b ^ 2 + oKm a ^ 2) ≤ 30)
    (hp : r ≤ 13 / 10 * sPreN a b) :
    r ≤ sVN a b := by
  rw [sVN, if_neg (not_lt.mpr hmask)]
  apply le_min hr1
  have h1 : 13 / 10 * sPreN a b ≤ 13 / 10 * sPreN a b / sMax := by
    rw [le_div_iff₀ sMax_pos]
    calc 13 / 10 * sPreN a b * sMax ≤ 13 / 10 * sPreN a b * 1 :=
        mul_le_mul_of_nonneg_left sMax_le_one
          (mul_nonneg (by norm_num) (sPreN_pos a b).le)
      _ = 13 / 10 * sPreN a b := mul_one _
  linarith

/-- Lower bound factorization for a near point of the C4 scenario. -/
theorem sPreN_near_ge (a b : ℕ) (E zub : ℝ)
    (hE : -E ≤ -(25 / 3872 * oKm a ^ 2) - 8 / 121 * oKm b ^ 2
      - 3 / 20 * Real.sqrt (oKm b ^ 2 + oKm a ^ 2))
    (hz : Real.exp (oKm a / 11) ≤ zub)
    (hE0 : 0 ≤ E) (hE32 : E ≤ 32) :
    (1 - E / 32) ^ 32 * (1 + zub)⁻¹ ≤ sPreN a b := by
  have h1 : (1 - E / 32) ^ 32 ≤ Real.exp (-(25 / 3872 * oKm a ^ 2) - 8 / 121 * oKm b ^ 2
      - 3 / 20 * Real.sqrt (oKm b ^ 2 + oKm a ^ 2)) :=
    le_trans (exp_neg_ge_lb E hE0 hE32) (Real.exp_le_exp.mpr hE)
  have h2 : (1 + zub)⁻¹ ≤ (1 + Real.exp (oKm a / 11))⁻¹ := by
    apply inv_anti₀ (by positivity) (by linarith)
  have hzub : (0:ℝ) < zub := lt_of_lt_of_le (Real.exp_pos _) hz
  calc (1 - E / 32) ^ 32 * (1 + zub)⁻¹
      ≤ Real.exp (-(25 / 3872 * oKm a ^ 2) - 8 / 121 * oKm b ^ 2
          - 3 / 20 * Real.sqrt (oKm b ^ 2 + oKm a ^ 2)) * (1 + Real.exp (oKm a / 11))⁻¹ := by
        apply mul_le_mul h1 h2 (inv_nonneg.mpr (by linarith)) (Real.exp_pos _).le
    _ = sPreN a b := by
        rw [sPreN, mul_right_comm, ← Real.exp_add]
        congr 2

theorem colF_nonneg (b : ℕ) : 0 ≤ colF b := by
  rw [colF]
  exact (Real.exp_pos _).le

/-- Far-row assembly: a row sum is bounded through the factorized column
sum, the row factor bound and the lower bound 2/5 on `sMax`. -/
theorem rowSum_far_le (a : ℕ) (R C : ℝ) (hR : 0 ≤ R)
    (hC : Finset.sum (Finset.range 50) colF ≤ C)
    (hM : (2/5 : ℝ) ≤ sMax)
    (hrow : Real.exp (-(25 / 3872 * oKm a ^ 2) + 57 / 400 * oKm a)
      * (1 + Real.exp (oKm a / 11))⁻¹ ≤ R) :
    rowSumN a ≤ 13 / 10 * (R * C) / (2 / 5) := by
  have h1 : rowSumN a
      ≤ 13 / 10 * (Finset.sum (Finset.range 50) fun b => sPreN a b) / sMax := by
    rw [rowSumN, Finset.mul_sum, Finset.sum_div]
    exact Finset.sum_le_sum fun b _ => sVN_le_scaled a b
  have h2 : (Finset.sum (Finset.range 50) fun b => sPreN a b) ≤ R * C := by
    calc (Finset.sum (Finset.range 50) fun b => sPreN a b)
        ≤ Finset.sum (Finset.range 50) fun b =>
            Real.exp (-(25 / 3872 * oKm a ^ 2) + 57 / 400 * oKm a)
              * (1 + Real.exp (oKm a / 11))⁻¹ * colF b :=
          Finset.sum_le_sum fun b _ => sPreN_le_row_col a b
      _ = Real.exp (-(25 / 3872 * oKm a ^ 2) + 57 / 400 * oKm a)
            * (1 + Real.exp (oKm a / 11))⁻¹ * Finset.sum (Finset.range 50) colF :=
          (Finset.mul_sum _ _ _).symm
      _ ≤ R * C := by
          apply mul_le_mul hrow hC (Finset.sum_nonneg fun b _ => colF_nonneg b) hR
  have hC0 : 0 ≤ C := le_trans (Finset.sum_nonneg fun b _ => colF_nonneg b) hC
  calc rowSumN a ≤ 13 / 10 * (Finset.sum (Finset.range 50) fun b => sPreN a b) / sMax := h1
    _ ≤ 13 / 10 * (R * C) / (2 / 5) := by
        apply div_le_div₀ (mul_nonneg (by norm_num) (mul_nonneg hR hC0))
          (mul_le_mul_of_nonneg_left h2 (by norm_num)) (by norm_num) hM

/-- Certified upper bound on the column sum of `colF`. -/
theorem colSum_le : Finset.sum (Finset.range 50) colF ≤ (3867357/1000000 : ℝ) := by
  have ho0 : oKm 0 = (-40 : ℝ) := by rw [oKm]; norm_num
  have hcol0 : colF 0 ≤ (1/10000000 : ℝ) := by
    rw [colF, ho0, abs_of_nonpos (by norm_num : (-40 : ℝ) ≤ 0)]
    calc Real.exp (-((8:ℝ)/121 * (-40 : ℝ) ^ 2) - 93/2000 * -(-40 : ℝ))
        ≤ Real.exp (-(1076451/10000 : ℝ)) := Real.exp_le_exp.mpr (by norm_num)
      _ ≤ ((1 + (1076451/10000 : ℝ)/32) ^ 32)⁻¹ := exp_neg_le_ub _ (by norm_num)
      _ ≤ (1/10000000 : ℝ) := by norm_num
  have ho1 : oKm 1 = (-1880/49 : ℝ) := by rw [oKm]; norm_num
  have hcol1 : colF 1 ≤ (1/10000000 : ℝ) := by
    rw [colF, ho1, abs_of_nonpos (by norm_num : (-1880/49 : ℝ) ≤ 0)]
    calc Real.exp (-((8:ℝ)/121 * (-1880/49 : ℝ) ^ 2) - 93/2000 * -(-1880/49 : ℝ))
        ≤ Real.exp (-(991099/10000 : ℝ)) := Real.exp_le_exp.mpr (by norm_num)
      _ ≤ ((1 + (991099/10000 : ℝ)/32) ^ 32)⁻¹ := exp_neg_le_ub _ (by norm_num)
      _ ≤ (1/10000000 : ℝ) := by norm_num
  have ho2 : oKm 2 = (-1800/49 : ℝ) := by rw [oKm]; norm_num
  have hcol2 : colF 2 ≤ (1/10000000 : ℝ) := by
    rw [colF, ho2, abs_of_nonpos (by norm_num : (-1800/49 : ℝ) ≤ 0)]
    calc Real.exp (-((8:ℝ)/121 * (-1800/49 : ℝ) ^ 2) - 93/2000 * -(-1800/49 : ℝ))
        ≤ Real.exp (-(909271/10000 : ℝ)) := Real.exp_le_exp.mpr (by norm_num)
      _ ≤ ((1 + (909271/10000 : ℝ)/32) ^ 32)⁻¹ := exp_neg_le_ub _ (by norm_num)
      _ ≤ (1/10000000 : ℝ) := by norm_num
  have ho3 : oKm 3 = (-1720/49 : ℝ) := by rw [oKm]; norm_num
  have hcol3 : colF 3 ≤ (1/10000000 : ℝ) := by
    rw [colF, ho3, abs_of_nonpos (by norm_num : (-1720/49 : ℝ) ≤ 0)]
    calc Real.exp (-((8:ℝ)/121 * (-1720/49 : ℝ) ^ 2) - 93/2000 * -(-1720/49 : ℝ))
        ≤ Real.exp (-(830969/10000 : ℝ)) := Real.exp_le_exp.mpr (by norm_num)
      _ ≤ ((1 + (830969/10000 : ℝ)/32) ^ 32)⁻¹ := exp_neg_le_ub _ (by norm_num)
      _ ≤ (1/10000000 : ℝ) := by norm_num
  have ho4 : oKm 4 = (-1640/49 : ℝ) := by rw [oKm]; norm_num
  have hcol4 : colF 4 ≤ (1/10000000 : ℝ) := by
    rw [colF, ho4, abs_of_nonpos (by norm_num : (-1640/49 : ℝ) ≤ 0)]
    calc Real.exp (-((8:ℝ)/121 * (-1640/49 : ℝ) ^ 2) - 93/2000 * -(-1640/49 : ℝ))
        ≤ Real.exp (-(756191/10000 : ℝ)) := Real.exp_le_exp.mpr (by norm_num)
      _ ≤ ((1 + (756191/10000 : ℝ)/32) ^ 32)⁻¹ := exp_neg_le_ub _ (by norm_num)
      _ ≤ (1/10000000 : ℝ) := by norm_num
  have ho5 : oKm 5 = (-1560/49 : ℝ) := by rw [oKm]; norm_num
  have hcol5 : colF 5 ≤ (1/10000000 : ℝ) := by
    rw [colF, ho5, abs_of_nonpos (by norm_num : (-1560/49 : ℝ) ≤ 0)]
    calc Real.exp (-((8:ℝ)/121 * (-1560/49 : ℝ) ^ 2) - 93/2000 * -(-1560/49 : ℝ))
        ≤ Real.exp (-(342469/5000 : ℝ)) := Real.exp_le_exp.mpr (by norm_num)
      _ ≤ ((1 + (342469/5000 : ℝ)/32) ^ 32)⁻¹ := exp_neg_le_ub _ (by norm_num)
      _ ≤ (1/10000000 : ℝ) := by norm_num
  have ho6 : oKm 6 = (-1480/49 : ℝ) := by rw [oKm]; norm_num
  have hcol6 : colF 6 ≤ (1/10000000 : ℝ) := by
    rw [colF, ho6, abs_of_nonpos (by norm_num : (-1480/49 : ℝ) ≤ 0)]
    calc Real.exp (-((8:ℝ)/121 * (-1480/49 : ℝ) ^ 2) - 93/2000 * -(-1480/49 : ℝ))
        ≤ Real.exp (-(617209/10000 : ℝ)) := Real.exp_le_exp.mpr (by norm_num)
      _ ≤ ((1 + (617209/10000 : ℝ)/32) ^ 32)⁻¹ := exp_neg_le_ub _ (by norm_num)
      _ ≤ (1/10000000 : ℝ) := by norm_num
  have ho7 : oKm 7 = (-200/7 : ℝ) := by rw [oKm]; norm_num
  have hcol7 : colF 7 ≤ (1/10000000 : ℝ) := by
    rw [colF, ho7, abs_of_nonpos (by norm_num : (-200/7 : ℝ) ≤ 0)]
    calc Real.exp (-((8:ℝ)/121 * (-200/7 : ℝ) ^ 2) - 93/2000 * -(-200/7 : ℝ))
        ≤ Real.exp (-(110601/2000 : ℝ)) := Real.exp_le_exp.mpr (by norm_num)
      _ ≤ ((1 + (110601/2000 : ℝ)/32) ^ 32)⁻¹ := exp_neg_le_ub _ (by norm_num)
      _ ≤ (1/10000000 : ℝ) := by norm_num
  have ho8 : oKm 8 = (-1320/49 : ℝ) := by rw [oKm]; norm_num
  have hcol8 : colF 8 ≤ (1/10000000 : ℝ) := by
    rw [colF, ho8, abs_of_nonpos (by norm_num : (-1320/49 : ℝ) ≤ 0)]
    calc Real.exp (-((8:ℝ)/121 * (-1320/49 : ℝ) ^ 2) - 93/2000 * -(-1320/49 : ℝ))
        ≤ Real.exp (-(246163/5000 : ℝ)) := Real.exp_le_exp.mpr (by norm_num)
      _ ≤ ((1 + (246163/5000 : ℝ)/32) ^ 32)⁻¹ := exp_neg_le_ub _ (by norm_num)
      _ ≤ (1/10000000 : ℝ) := by norm_num
  have ho9 : oKm 9 = (-1240/49 : ℝ) := by rw [oKm]; norm_num
  have hcol9 : colF 9 ≤ (1/10000000 : ℝ) := by
    rw [colF, ho9, abs_of_nonpos (by norm_num : (-1240/49 : ℝ) ≤ 0)]
    calc Real.exp (-((8:ℝ)/121 * (-1240/49 : ℝ) ^ 2) - 93/2000 * -(-1240/49 : ℝ))
        ≤ Real.exp (-(108793/2500 : ℝ)) := Real.exp_le_exp.mpr (by norm_num)
      _ ≤ ((1 + (108793/2500 : ℝ)/32) ^ 32)⁻¹ := exp_neg_le_ub _ (by norm_num)
      _ ≤ (1/10000000 : ℝ) := by norm_num
  have ho10 : oKm 10 = (-1160/49 : ℝ) := by rw [oKm]; norm_num
  have hcol10 : colF 10 ≤ (1/10000000 : ℝ) := by
    rw [colF, ho10, abs_of_nonpos (by norm_num : (-1160/49 : ℝ) ≤ 0)]
    calc Real.exp (-((8:ℝ)/121 * (-1160/49 : ℝ) ^ 2) - 93/2000 * -(-1160/49 : ℝ))
        ≤ Real.exp (-(190771/5000 : ℝ)) := Real.exp_le_exp.mpr (by norm_num)
      _ ≤ ((1 + (190771/5000 : ℝ)/32) ^ 32)⁻¹ := exp_neg_le_ub _ (by norm_num)
      _ ≤ (1/10000000 : ℝ) := by norm_num
  have ho11 : oKm 11 = (-1080/49 : ℝ) := by rw [oKm]; norm_num
  have hcol11 : colF 11 ≤ (1/10000000 : ℝ) := by
    rw [colF, ho11, abs_of_nonpos (by norm_num : (-1080/49 : ℝ) ≤ 0)]
    calc Real.exp (-((8:ℝ)/121 * (-1080/49 : ℝ) ^ 2) - 93/2000 * -(-1080/49 : ℝ))
        ≤ Real.exp (-(331437/10000 : ℝ)) := Real.exp_le_exp.mpr (by norm_num)
      _ ≤ ((1 + (331437/10000 : ℝ)/32) ^ 32)⁻¹ := exp_neg_le_ub _ (by norm_num)
      _ ≤ (1/10000000 : ℝ) := by norm_num
  have ho12 : oKm 12 = (-1000/49 : ℝ) := by rw [oKm]; norm_num
  have hcol12 : colF 12 ≤ (1/10000000 : ℝ) := by
    rw [colF, ho12, abs_of_nonpos (by norm_num : (-1000/49 : ℝ) ≤ 0)]
    calc Real.exp (-((8:ℝ)/121 * (-1000/49 : ℝ) ^ 2) - 93/2000 * -(-1000/49 : ℝ))
        ≤ Real.exp (-(284857/10000 : ℝ)) := Real.exp_le_exp.mpr (by norm_num)
      _ ≤ ((1 + (284857/10000 : ℝ)/32) ^ 32)⁻¹ := exp_neg_le_ub _ (by norm_num)
      _ ≤ (1/10000000 : ℝ) := by norm_num
  have ho13 : oKm 13 = (-920/49 : ℝ) := by rw [oKm]; norm_num
  have hcol13 : colF 13 ≤ (1/10000000 : ℝ) := by
    rw [colF, ho13, abs_of_nonpos (by norm_num : (-920/49 : ℝ) ≤ 0)]
    calc Real.exp (-((8:ℝ)/121 * (-920/49 : ℝ) ^ 2) - 93/2000 * -(-920/49 : ℝ))
        ≤ Real.exp (-(241801/10000 : ℝ)) := Real.exp_le_exp.mpr (by norm_num)
      _ ≤ ((1 + (241801/10000 : ℝ)/32) ^ 32)⁻¹ := exp_neg_le_ub _ (by norm_num)
      _ ≤ (1/10000000 : ℝ) := by norm_num
  have ho14 : oKm 14 = (-120/7 : ℝ) := by rw [oKm]; norm_num
  have hcol14 : colF 14 ≤ (1/5000000 : ℝ) := by
    rw [colF, ho14, abs_of_nonpos (by norm_num : (-120/7 : ℝ) ≤ 0)]
    calc Real.exp (-((8:ℝ)/121 * (-120/7 : ℝ) ^ 2) - 93/2000 * -(-120/7 : ℝ))
        ≤ Real.exp (-(20227/1000 : ℝ)) := Real.exp_le_exp.mpr (by norm_num)
      _ ≤ ((1 + (20227/1000 : ℝ)/32) ^ 32)⁻¹ := exp_neg_le_ub _ (by norm_num)
      _ ≤ (1/5000000 : ℝ) := by norm_num
  have ho15 : oKm 15 = (-760/49 : ℝ) := by rw [oKm]; norm_num
  have hcol15 : colF 15 ≤ (1/625000 : ℝ) := by
    rw [colF, ho15, abs_of_nonpos (by norm_num : (-760/49 : ℝ) ≤ 0)]
    calc Real.exp (-((8:ℝ)/121 * (-760/49 : ℝ) ^ 2) - 93/2000 * -(-760/49 : ℝ))
        ≤ Real.exp (-(20783/1250 : ℝ)) := Real.exp_le_exp.mpr (by norm_num)
      _ ≤ ((1 + (20783/1250 : ℝ)/32) ^ 32)⁻¹ := exp_neg_le_ub _ (by norm_num)
      _ ≤ (1/625000 : ℝ) := by norm_num
  have ho16 : oKm 16 = (-680/49 : ℝ) := by rw [oKm]; norm_num
  have hcol16 : colF 16 ≤ (7/500000 : ℝ) := by
    rw [colF, ho16, abs_of_nonpos (by norm_num : (-680/49 : ℝ) ≤ 0)]
    calc Real.exp (-((8:ℝ)/121 * (-680/49 : ℝ) ^ 2) - 93/2000 * -(-680/49 : ℝ))
        ≤ Real.exp (-(66891/5000 : ℝ)) := Real.exp_le_exp.mpr (by norm_num)
      _ ≤ ((1 + (66891/5000 : ℝ)/32) ^ 32)⁻¹ := exp_neg_le_ub _ (by norm_num)
      _ ≤ (7/500000 : ℝ) := by norm_num
  have ho17 : oKm 17 = (-600/49 : ℝ) := by rw [oKm]; norm_num
  have hcol17 : colF 17 ≤ (577/5000000 : ℝ) := by
    rw [colF, ho17, abs_of_nonpos (by norm_num : (-600/49 : ℝ) ≤ 0)]
    calc Real.exp (-((8:ℝ)/121 * (-600/49 : ℝ) ^ 2) - 93/2000 * -(-600/49 : ℝ))
        ≤ Real.exp (-(52413/5000 : ℝ)) := Real.exp_le_exp.mpr (by norm_num)
      _ ≤ ((1 + (52413/5000 : ℝ)/32) ^ 32)⁻¹ := exp_neg_le_ub _ (by norm_num)
      _ ≤ (577/5000000 : ℝ) := by norm_num
  have ho18 : oKm 18 = (-520/49 : ℝ) := by rw [oKm]; norm_num
  have hcol18 : colF 18 ≤ (8317/10000000 : ℝ) := by
    rw [colF, ho18, abs_of_nonpos (by norm_num : (-520/49 : ℝ) ≤ 0)]
    calc Real.exp (-((8:ℝ)/121 * (-520/49 : ℝ) ^ 2) - 93/2000 * -(-520/49 : ℝ))
        ≤ Real.exp (-(39697/5000 : ℝ)) := Real.exp_le_exp.mpr (by norm_num)
      _ ≤ ((1 + (39697/5000 : ℝ)/32) ^ 32)⁻¹ := exp_neg_le_ub _ (by norm_num)
      _ ≤ (8317/10000000 : ℝ) := by norm_num
  have ho19 : oKm 19 = (-440/49 : ℝ) := by rw [oKm]; norm_num
  have hcol19 : colF 19 ≤ (2529/500000 : ℝ) := by
    rw [colF, ho19, abs_of_nonpos (by norm_num : (-440/49 : ℝ) ≤ 0)]
    calc Real.exp (-((8:ℝ)/121 * (-440/49 : ℝ) ^ 2) - 93/2000 * -(-440/49 : ℝ))
        ≤ Real.exp (-(28743/5000 : ℝ)) := Real.exp_le_exp.mpr (by norm_num)
      _ ≤ ((1 + (28743/5000 : ℝ)/32) ^ 32)⁻¹ := exp_neg_le_ub _ (by norm_num)
      _ ≤ (2529/500000 : ℝ) := by norm_num
  have ho20 : oKm 20 = (-360/49 : ℝ) := by rw [oKm]; norm_num
  have hcol20 : colF 20 ≤ (124957/5000000 : ℝ) := by
    rw [colF, ho20, abs_of_nonpos (by norm_num : (-360/49 : ℝ) ≤ 0)]
    calc Real.exp (-((8:ℝ)/121 * (-360/49 : ℝ) ^ 2) - 93/2000 * -(-360/49 : ℝ))
        ≤ Real.exp (-(39103/10000 : ℝ)) := Real.exp_le_exp.mpr (by norm_num)
      _ ≤ ((1 + (39103/10000 : ℝ)/32) ^ 32)⁻¹ := exp_neg_le_ub _ (by norm_num)
      _ ≤ (124957/5000000 : ℝ) := by norm_num
  have ho21 : oKm 21 = (-40/7 : ℝ) := by rw [oKm]; norm_num
  have hcol21 : colF 21 ≤ (966129/10000000 : ℝ) := by
    rw [colF, ho21, abs_of_nonpos (by norm_num : (-40/7 : ℝ) ≤ 0)]
    calc Real.exp (-((8:ℝ)/121 * (-40/7 : ℝ) ^ 2) - 93/2000 * -(-40/7 : ℝ))
        ≤ Real.exp (-(4849/2000 : ℝ)) := Real.exp_le_exp.mpr (by norm_num)
      _ ≤ ((1 + (4849/2000 : ℝ)/32) ^ 32)⁻¹ := exp_neg_le_ub _ (by norm_num)
      _ ≤ (966129/10000000 : ℝ) := by norm_num
  have ho22 : oKm 22 = (-200/49 : ℝ) := by rw [oKm]; norm_num
  have hcol22 : colF 22 ≤ (2820051/10000000 : ℝ) := by
    rw [colF, ho22, abs_of_nonpos (by norm_num : (-200/49 : ℝ) ≤ 0)]
    calc Real.exp (-((8:ℝ)/121 * (-200/49 : ℝ) ^ 2) - 93/2000 * -(-200/49 : ℝ))
        ≤ Real.exp (-(807/625 : ℝ)) := Real.exp_le_exp.mpr (by norm_num)
      _ ≤ ((1 + (807/625 : ℝ)/32) ^ 32)⁻¹ := exp_neg_le_ub _ (by norm_num)
      _ ≤ (2820051/10000000 : ℝ) := by norm_num
  have ho23 : oKm 23 = (-120/49 : ℝ) := by rw [oKm]; norm_num
  have hcol23 : colF 23 ≤ (301339/500000 : ℝ) := by
    rw [colF, ho23, abs_of_nonpos (by norm_num : (-120/49 : ℝ) ≤ 0)]
    calc Real.exp (-((8:ℝ)/121 * (-120/49 : ℝ) ^ 2) - 93/2000 * -(-120/49 : ℝ))
        ≤ Real.exp (-(319/625 : ℝ)) := Real.exp_le_exp.mpr (by norm_num)
      _ ≤ ((1 + (319/625 : ℝ)/32) ^ 32)⁻¹ := exp_neg_le_ub _ (by norm_num)
      _ ≤ (301339/500000 : ℝ) := by norm_num
  have ho24 : oKm 24 = (-40/49 : ℝ) := by rw [oKm]; norm_num
  have hcol24 : colF 24 ≤ (4606843/5000000 : ℝ) := by
    rw [colF, ho24, abs_of_nonpos (by norm_num : (-40/49 : ℝ) ≤ 0)]
    calc Real.exp (-((8:ℝ)/121 * (-40/49 : ℝ) ^ 2) - 93/2000 * -(-40/49 : ℝ))
        ≤ Real.exp (-(41/500 : ℝ)) := Real.exp_le_exp.mpr (by norm_num)
      _ ≤ ((1 + (41/500 : ℝ)/32) ^ 32)⁻¹ := exp_neg_le_ub _ (by norm_num)
      _ ≤ (4606843/5000000 : ℝ) := by norm_num
  have ho25 : oKm 25 = (40/49 : ℝ) := by rw [oKm]; norm_num
  have hcol25 : colF 25 ≤ (4606843/5000000 : ℝ) := by
    rw [colF, ho25, abs_of_nonneg (by norm_num : (0:ℝ) ≤ (40/49 : ℝ))]
    calc Real.exp (-((8:ℝ)/121 * (40/49 : ℝ) ^ 2) - 93/2000 * (40/49 : ℝ))
        ≤ Real.exp (-(41/500 : ℝ)) := Real.exp_le_exp.mpr (by norm_num)
      _ ≤ ((1 + (41/500 : ℝ)/32) ^ 32)⁻¹ := exp_neg_le_ub _ (by norm_num)
      _ ≤ (4606843/5000000 : ℝ) := by norm_num
  have ho26 : oKm 26 = (120/49 : ℝ) := by rw [oKm]; norm_num
  have hcol26 : colF 26 ≤ (301339/500000 : ℝ) := by
    rw [colF, ho26, abs_of_nonneg (by norm_num : (0:ℝ) ≤ (120/49 : ℝ))]
    calc Real.exp (-((8:ℝ)/121 * (120/49 : ℝ) ^ 2) - 93/2000 * (120/49 : ℝ))
        ≤ Real.exp (-(319/625 : ℝ)) := Real.exp_le_exp.mpr (by norm_num)
      _ ≤ ((1 + (319/625 : ℝ)/32) ^ 32)⁻¹ := exp_neg_le_ub _ (by norm_num)
      _ ≤ (301339/500000 : ℝ) := by norm_num
  have ho27 : oKm 27 = (200/49 : ℝ) := by rw [oKm]; norm_num
  have hcol27 : colF 27 ≤ (2820051/10000000 : ℝ) := by
    rw [colF, ho27, abs_of_nonneg (by norm_num : (0:ℝ) ≤ (200/49 : ℝ))]
    calc Real.exp (-((8:ℝ)/121 * (200/49 : ℝ) ^ 2) - 93/2000 * (200/49 : ℝ))
        ≤ Real.exp (-(807/625 : ℝ)) := Real.exp_le_exp.mpr (by norm_num)
      _ ≤ ((1 + (807/625 : ℝ)/32) ^ 32)⁻¹ := exp_neg_le_ub _ (by norm_num)
      _ ≤ (2820051/10000000 : ℝ) := by norm_num
  have ho28 : oKm 28 = (40/7 : ℝ) := by rw [oKm]; norm_num
  have hcol28 : colF 28 ≤ (966129/10000000 : ℝ) := by
    rw [colF, ho28, abs_of_nonneg (by norm_num : (0:ℝ) ≤ (40/7 : ℝ))]
    calc Real.exp (-((8:ℝ)/121 * (40/7 : ℝ) ^ 2) - 93/2000 * (40/7 : ℝ))
        ≤ Real.exp (-(4849/2000 : ℝ)) := Real.exp_le_exp.mpr (by norm_num)
      _ ≤ ((1 + (4849/2000 : ℝ)/32) ^ 32)⁻¹ := exp_neg_le_ub _ (by norm_num)
      _ ≤ (966129/10000000 : ℝ) := by norm_num
  have ho29 : oKm 29 = (360/49 : ℝ) := by rw [oKm]; norm_num
  have hcol29 : colF 29 ≤ (124957/5000000 : ℝ) := by
    rw [colF, ho29, abs_of_nonneg (by norm_num : (0:ℝ) ≤ (360/49 : ℝ))]
    calc Real.exp (-((8:ℝ)/121 * (360/49 : ℝ) ^ 2) - 93/2000 * (360/49 : ℝ))
        ≤ Real.exp (-(39103/10000 : ℝ)) := Real.exp_le_exp.mpr (by norm_num)
      _ ≤ ((1 + (39103/10000 : ℝ)/32) ^ 32)⁻¹ := exp_neg_le_ub _ (by norm_num)
      _ ≤ (124957/5000000 : ℝ) := by norm_num
  have ho30 : oKm 30 = (440/49 : ℝ) := by rw [oKm]; norm_num
  have hcol30 : colF 30 ≤ (2529/500000 : ℝ) := by
    rw [colF, ho30, abs_of_nonneg (by norm_num : (0:ℝ) ≤ (440/49 : ℝ))]
    calc Real.exp (-((8:ℝ)/121 * (440/49 : ℝ) ^ 2) - 93/2000 * (440/49 : ℝ))
        ≤ Real.exp (-(28743/5000 : ℝ)) := Real.exp_le_exp.mpr (by norm_num)
      _ ≤ ((1 + (28743/5000 : ℝ)/32) ^ 32)⁻¹ := exp_neg_le_ub _ (by norm_num)
      _ ≤ (2529/500000 : ℝ) := by norm_num
  have ho31 : oKm 31 = (520/49 : ℝ) := by rw [oKm]; norm_num
  have hcol31 : colF 31 ≤ (8317/10000000 : ℝ) := by
    rw [colF, ho31, abs_of_nonneg (by norm_num : (0:ℝ) ≤ (520/49 : ℝ))]
    calc Real.exp (-((8:ℝ)/121 * (520/49 : ℝ) ^ 2) - 93/2000 * (520/49 : ℝ))
        ≤ Real.exp (-(39697/5000 : ℝ)) := Real.exp_le_exp.mpr (by norm_num)
      _ ≤ ((1 + (39697/5000 : ℝ)/32) ^ 32)⁻¹ := exp_neg_le_ub _ (by norm_num)
      _ ≤ (8317/10000000 : ℝ) := by norm_num
  have ho32 : oKm 32 = (600/49 : ℝ) := by rw [oKm]; norm_num
  have hcol32 : colF 32 ≤ (577/5000000 : ℝ) := by
    rw [colF, ho32, abs_of_nonneg (by norm_num : (0:ℝ) ≤ (600/49 : ℝ))]
    calc Real.exp (-((8:ℝ)/121 * (600/49 : ℝ) ^ 2) - 93/2000 * (600/49 : ℝ))
        ≤ Real.exp (-(52413/5000 : ℝ)) := Real.exp_le_exp.mpr (by norm_num)
      _ ≤ ((1 + (52413/5000 : ℝ)/32) ^ 32)⁻¹ := exp_neg_le_ub _ (by norm_num)
      _ ≤ (577/5000000 : ℝ) := by norm_num
  have ho33 : oKm 33 = (680/49 : ℝ) := by rw [oKm]; norm_num
  have hcol33 : colF 33 ≤ (7/500000 : ℝ) := by
    rw [colF, ho33, abs_of_nonneg (by norm_num : (0:ℝ) ≤ (680/49 : ℝ))]
    calc Real.exp (-((8:ℝ)/121 * (680/49 : ℝ) ^ 2) - 93/2000 * (680/49 : ℝ))
        ≤ Real.exp (-(66891/5000 : ℝ)) := Real.exp_le_exp.mpr (by norm_num)
      _ ≤ ((1 + (66891/5000 : ℝ)/32) ^ 32)⁻¹ := exp_neg_le_ub _ (by norm_num)
      _ ≤ (7/500000 : ℝ) := by norm_num
  have ho34 : oKm 34 = (760/49 : ℝ) := by rw [oKm]; norm_num
  have hcol34 : colF 34 ≤ (1/625000 : ℝ) := by
    rw [colF, ho34, abs_of_nonneg (by norm_num : (0:ℝ) ≤ (760/49 : ℝ))]
    calc Real.exp (-((8:ℝ)/121 * (760/49 : ℝ) ^ 2) - 93/2000 * (760/49 : ℝ))
        ≤ Real.exp (-(20783/1250 : ℝ)) := Real.exp_le_exp.mpr (by norm_num)
      _ ≤ ((1 + (20783/1250 : ℝ)/32) ^ 32)⁻¹ := exp_neg_le_ub _ (by norm_num)
      _ ≤ (1/625000 : ℝ) := by norm_num
  have ho35 : oKm 35 = (120/7 : ℝ) := by rw [oKm]; norm_num
  have hcol35 : colF 35 ≤ (1/5000000 : ℝ) := by
    rw [colF, ho35, abs_of_nonneg (by norm_num : (0:ℝ) ≤ (120/7 : ℝ))]
    calc Real.exp (-((8:ℝ)/121 * (120/7 : ℝ) ^ 2) - 93/2000 * (120/7 : ℝ))
        ≤ Real.exp (-(20227/1000 : ℝ)) := Real.exp_le_exp.mpr (by norm_num)
      _ ≤ ((1 + (20227/1000 : ℝ)/32) ^ 32)⁻¹ := exp_neg_le_ub _ (by norm_num)
      _ ≤ (1/5000000 : ℝ) := by norm_num
  have ho36 : oKm 36 = (920/49 : ℝ) := by rw [oKm]; norm_num
  have hcol36 : colF 36 ≤ (1/10000000 : ℝ) := by
    rw [colF, ho36, abs_of_nonneg (by norm_num : (0:ℝ) ≤ (920/49 : ℝ))]
    calc Real.exp (-((8:ℝ)/121 * (920/49 : ℝ) ^ 2) - 93/2000 * (920/49 : ℝ))
        ≤ Real.exp (-(241801/10000 : ℝ)) := Real.exp_le_exp.mpr (by norm_num)
      _ ≤ ((1 + (241801/10000 : ℝ)/32) ^ 32)⁻¹ := exp_neg_le_ub _ (by norm_num)
      _ ≤ (1/10000000 : ℝ) := by norm_num
  have ho37 : oKm 37 = (1000/49 : ℝ) := by rw [oKm]; norm_num
  have hcol37 : colF 37 ≤ (1/10000000 : ℝ) := by
    rw [colF, ho37, abs_of_nonneg (by norm_num : (0:ℝ) ≤ (1000/49 : ℝ))]
    calc Real.exp (-((8:ℝ)/121 * (1000/49 : ℝ) ^ 2) - 93/2000 * (1000/49 : ℝ))
        ≤ Real.exp (-(284857/10000 : ℝ)) := Real.exp_le_exp.mpr (by norm_num)
      _ ≤ ((1 + (284857/10000 : ℝ)/32) ^ 32)⁻¹ := exp_neg_le_ub _ (by norm_num)
      _ ≤ (1/10000000 : ℝ) := by norm_num
  have ho38 : oKm 38 = (1080/49 : ℝ) := by rw [oKm]; norm_num
  have hcol38 : colF 38 ≤ (1/10000000 : ℝ) := by
    rw [colF, ho38, abs_of_nonneg (by norm_num : (0:ℝ) ≤ (1080/49 : ℝ))]
    calc Real.exp (-((8:ℝ)/121 * (1080/49 : ℝ) ^ 2) - 93/2000 * (1080/49 : ℝ))
        ≤ Real.exp (-(331437/10000 : ℝ)) := Real.exp_le_exp.mpr (by norm_num)
      _ ≤ ((1 + (331437/10000 : ℝ)/32) ^ 32)⁻¹ := exp_neg_le_ub _ (by norm_num)
      _ ≤ (1/10000000 : ℝ) := by norm_num
  have ho39 : oKm 39 = (1160/49 : ℝ) := by rw [oKm]; norm_num
  have hcol39 : colF 39 ≤ (1/10000000 : ℝ) := by
    rw [colF, ho39, abs_of_nonneg (by norm_num : (0:ℝ) ≤ (1160/49 : ℝ))]
    calc Real.exp (-((8:ℝ)/121 * (1160/49 : ℝ) ^ 2) - 93/2000 * (1160/49 : ℝ))
        ≤ Real.exp (-(190771/5000 : ℝ)) := Real.exp_le_exp.mpr (by norm_num)
      _ ≤ ((1 + (190771/5000 : ℝ)/32) ^ 32)⁻¹ := exp_neg_le_ub _ (by norm_num)
      _ ≤ (1/10000000 : ℝ) := by norm_num
  have ho40 : oKm 40 = (1240/49 : ℝ) := by rw [oKm]; norm_num
  have hcol40 : colF 40 ≤ (1/10000000 : ℝ) := by
    rw [colF, ho40, abs_of_nonneg (by norm_num : (0:ℝ) ≤ (1240/49 : ℝ))]
    calc Real.exp (-((8:ℝ)/121 * (1240/49 : ℝ) ^ 2) - 93/2000 * (1240/49 : ℝ))
        ≤ Real.exp (-(108793/2500 : ℝ)) := Real.exp_le_exp.mpr (by norm_num)
      _ ≤ ((1 + (108793/2500 : ℝ)/32) ^ 32)⁻¹ := exp_neg_le_ub _ (by norm_num)
      _ ≤ (1/10000000 : ℝ) := by norm_num
  have ho41 : oKm 41 = (1320/49 : ℝ) := by rw [oKm]; norm_num
  have hcol41 : colF 41 ≤ (1/10000000 : ℝ) := by
    rw [colF, ho41, abs_of_nonneg (by norm_num : (0:ℝ) ≤ (1320/49 : ℝ))]
    calc Real.exp (-((8:ℝ)/121 * (1320/49 : ℝ) ^ 2) - 93/2000 * (1320/49 : ℝ))
        ≤ Real.exp (-(246163/5000 : ℝ)) := Real.exp_le_exp.mpr (by norm_num)
      _ ≤ ((1 + (246163/5000 : ℝ)/32) ^ 32)⁻¹ := exp_neg_le_ub _ (by norm_num)
      _ ≤ (1/10000000 : ℝ) := by norm_num
  have ho42 : oKm 42 = (200/7 : ℝ) := by rw [oKm]; norm_num
  have hcol42 : colF 42 ≤ (1/10000000 : ℝ) := by
    rw [colF, ho42, abs_of_nonneg (by norm_num : (0:ℝ) ≤ (200/7 : ℝ))]
    calc Real.exp (-((8:ℝ)/121 * (200/7 : ℝ) ^ 2) - 93/2000 * (200/7 : ℝ))
        ≤ Real.exp (-(110601/2000 : ℝ)) := Real.exp_le_exp.mpr (by norm_num)
      _ ≤ ((1 + (110601/2000 : ℝ)/32) ^ 32)⁻¹ := exp_neg_le_ub _ (by norm_num)
      _ ≤ (1/10000000 : ℝ) := by norm_num
  have ho43 : oKm 43 = (1480/49 : ℝ) := by rw [oKm]; norm_num
  have hcol43 : colF 43 ≤ (1/10000000 : ℝ) := by
    rw [colF, ho43, abs_of_nonneg (by norm_num : (0:ℝ) ≤ (1480/49 : ℝ))]
    calc Real.exp (-((8:ℝ)/121 * (1480/49 : ℝ) ^ 2) - 93/2000 * (1480/49 : ℝ))
        ≤ Real.exp (-(617209/10000 : ℝ)) := Real.exp_le_exp.mpr (by norm_num)
      _ ≤ ((1 + (617209/10000 : ℝ)/32) ^ 32)⁻¹ := exp_neg_le_ub _ (by norm_num)
      _ ≤ (1/10000000 : ℝ) := by norm_num
  have ho44 : oKm 44 = (1560/49 : ℝ) := by rw [oKm]; norm_num
  have hcol44 : colF 44 ≤ (1/10000000 : ℝ) := by
    rw [colF, ho44, abs_of_nonneg (by norm_num : (0:ℝ) ≤ (1560/49 : ℝ))]
    calc Real.exp (-((8:ℝ)/121 * (1560/49 : ℝ) ^ 2) - 93/2000 * (1560/49 : ℝ))
        ≤ Real.exp (-(342469/5000 : ℝ)) := Real.exp_le_exp.mpr (by norm_num)
      _ ≤ ((1 + (342469/5000 : ℝ)/32) ^ 32)⁻¹ := exp_neg_le_ub _ (by norm_num)
      _ ≤ (1/10000000 : ℝ) := by norm_num
  have ho45 : oKm 45 = (1640/49 : ℝ) := by rw [oKm]; norm_num
  have hcol45 : colF 45 ≤ (1/10000000 : ℝ) := by
    rw [colF, ho45, abs_of_nonneg (by norm_num : (0:ℝ) ≤ (1640/49 : ℝ))]
    calc Real.exp (-((8:ℝ)/121 * (1640/49 : ℝ) ^ 2) - 93/2000 * (1640/49 : ℝ))
        ≤ Real.exp (-(756191/10000 : ℝ)) := Real.exp_le_exp.mpr (by norm_num)
      _ ≤ ((1 + (756191/10000 : ℝ)/32) ^ 32)⁻¹ := exp_neg_le_ub _ (by norm_num)
      _ ≤ (1/10000000 : ℝ) := by norm_num
  have ho46 : oKm 46 = (1720/49 : ℝ) := by rw [oKm]; norm_num
  have hcol46 : colF 46 ≤ (1/10000000 : ℝ) := by
    rw [colF, ho46, abs_of_nonneg (by norm_num : (0:ℝ) ≤ (1720/49 : ℝ))]
    calc Real.exp (-((8:ℝ)/121 * (1720/49 : ℝ) ^ 2) - 93/2000 * (1720/49 : ℝ))
        ≤ Real.exp (-(830969/10000 : ℝ)) := Real.exp_le_exp.mpr (by norm_num)
      _ ≤ ((1 + (830969/10000 : ℝ)/32) ^ 32)⁻¹ := exp_neg_le_ub _ (by norm_num)
      _ ≤ (1/10000000 : ℝ) := by norm_num
  have ho47 : oKm 47 = (1800/49 : ℝ) := by rw [oKm]; norm_num
  have hcol47 : colF 47 ≤ (1/10000000 : ℝ) := by
    rw [colF, ho47, abs_of_nonneg (by norm_num : (0:ℝ) ≤ (1800/49 : ℝ))]
    calc Real.exp (-((8:ℝ)/121 * (1800/49 : ℝ) ^ 2) - 93/2000 * (1800/49 : ℝ))
        ≤ Real.exp (-(909271/10000 : ℝ)) := Real.exp_le_exp.mpr (by norm_num)
      _ ≤ ((1 + (909271/10000 : ℝ)/32) ^ 32)⁻¹ := exp_neg_le_ub _ (by norm_num)
      _ ≤ (1/10000000 : ℝ) := by norm_num
  have ho48 : oKm 48 = (1880/49 : ℝ) := by rw [oKm]; norm_num
  have hcol48 : colF 48 ≤ (1/10000000 : ℝ) := by
    rw [colF, ho48, abs_of_nonneg (by norm_num : (0:ℝ) ≤ (1880/49 : ℝ))]
    calc Real.exp (-((8:ℝ)/121 * (1880/49 : ℝ) ^ 2) - 93/2000 * (1880/49 : ℝ))
        ≤ Real.exp (-(991099/10000 : ℝ)) := Real.exp_le_exp.mpr (by norm_num)
      _ ≤ ((1 + (991099/10000 : ℝ)/32) ^ 32)⁻¹ := exp_neg_le_ub _ (by norm_num)
      _ ≤ (1/10000000 : ℝ) := by norm_num
  have ho49 : oKm 49 = (40 : ℝ) := by rw [oKm]; norm_num
  have hcol49 : colF 49 ≤ (1/10000000 : ℝ) := by
    rw [colF, ho49, abs_of_nonneg (by norm_num : (0:ℝ) ≤ (40 : ℝ))]
    calc Real.exp (-((8:ℝ)/121 * (40 : ℝ) ^ 2) - 93/2000 * (40 : ℝ))
        ≤ Real.exp (-(1076451/10000 : ℝ)) := Real.exp_le_exp.mpr (by norm_num)
      _ ≤ ((1 + (1076451/10000 : ℝ)/32) ^ 32)⁻¹ := exp_neg_le_ub _ (by norm_num)
      _ ≤ (1/10000000 : ℝ) := by norm_num
  simp only [Finset.sum_range_succ, Finset.sum_range_zero]
  linarith only [hcol0, hcol1, hcol2, hcol3, hcol4, hcol5, hcol6, hcol7, hcol8, hcol9, hcol10, hcol11, hcol12, hcol13, hcol14, hcol15, hcol16, hcol17, hcol18, hcol19, hcol20, hcol21, hcol22, hcol23, hcol24, hcol25, hcol26, hcol27, hcol28, hcol29, hcol30, hcol31, hcol32, hcol33, hcol34, hcol35, hcol36, hcol37, hcol38, hcol39, hcol40, hcol41, hcol42, hcol43, hcol44, hcol45, hcol46, hcol47, hcol48, hcol49]

/-- Certified lower bound on the maximum of the pre-normalization ash
field: the value near the centre already exceeds 2/5. -/
theorem sMax_lb : (2/5 : ℝ) ≤ sMax := by
  have ho24 : oKm 24 = (-40/49 : ℝ) := by rw [oKm]; norm_num
  have ho25 : oKm 25 = (40/49 : ℝ) := by rw [oKm]; norm_num
  have hs : Real.sqrt (oKm 25 ^ 2 + oKm 24 ^ 2) ≤ (2309/2000 : ℝ) := by
    rw [ho24, ho25]
    exact Real.sqrt_le_iff.mpr ⟨by norm_num, by norm_num⟩
  have hE : -(277/1250 : ℝ) ≤ -(25/3872 * oKm 24 ^ 2) - 8/121 * oKm 25 ^ 2
      - 3/20 * Real.sqrt (oKm 25 ^ 2 + oKm 24 ^ 2) := by
    rw [ho24, ho25] at hs ⊢
    linarith only [hs]
  have hz : Real.exp (oKm 24 / 11) ≤ (2321389/2500000 : ℝ) := by
    rw [ho24, (by norm_num : (-40/49 : ℝ) / 11 = -(40/539))]
    calc Real.exp (-(40/539 : ℝ))
        ≤ Real.exp (-(74211/1000000 : ℝ)) := Real.exp_le_exp.mpr (by norm_num)
      _ ≤ ((1 + (74211/1000000 : ℝ)/32) ^ 32)⁻¹ := exp_neg_le_ub _ (by norm_num)
      _ ≤ (2321389/2500000 : ℝ) := by norm_num
  have h := sPreN_near_ge 24 25 (277/1250 : ℝ) (2321389/2500000 : ℝ) hE hz (by norm_num) (by norm_num)
  refine le_trans (le_trans ?_ h) sMax_ge_ref
  norm_num

theorem c4_row_0 : rowSumN 0 - 2 * rowSumN 49 ≤ 0 := by
  have ho : oKm 0 = (-40 : ℝ) := by rw [oKm]; norm_num
  have hz : rowSumN 0 = 0 := Finset.sum_eq_zero fun b _ => by
    rw [sVN, if_pos (show (30:ℝ) < Real.sqrt (oKm b ^ 2 + oKm 0 ^ 2) by
      rw [ho]
      refine (Real.lt_sqrt (by positivity)).mpr ?_
      linarith only [sq_nonneg (oKm b)])]
  linarith only [rowSum_nonneg 49, hz]

theorem c4_row_1 : rowSumN 1 - 2 * rowSumN 48 ≤ 0 := by
  have ho : oKm 1 = (-1880/49 : ℝ) := by rw [oKm]; norm_num
  have hz : rowSumN 1 = 0 := Finset.sum_eq_zero fun b _ => by
    rw [sVN, if_pos (show (30:ℝ) < Real.sqrt (oKm b ^ 2 + oKm 1 ^ 2) by
      rw [ho]
      refine (Real.lt_sqrt (by positivity)).mpr ?_
      linarith only [sq_nonneg (oKm b)])]
  linarith only [rowSum_nonneg 48, hz]

theorem c4_row_2 : rowSumN 2 - 2 * rowSumN 47 ≤ 0 := by
  have ho : oKm 2 = (-1800/49 : ℝ) := by rw [oKm]; norm_num
  have hz : rowSumN 2 = 0 := Finset.sum_eq_zero fun b _ => by
    rw [sVN, if_pos (show (30:ℝ) < Real.sqrt (oKm b ^ 2 + oKm 2 ^ 2) by
      rw [ho]
      refine (Real.lt_sqrt (by positivity)).mpr ?_
      linarith only [sq_nonneg (oKm b)])]
  linarith only [rowSum_nonneg 47, hz]

theorem c4_row_3 : rowSumN 3 - 2 * rowSumN 46 ≤ 0 := by
  have ho : oKm 3 = (-1720/49 : ℝ) := by rw [oKm]; norm_num
  have hz : rowSumN 3 = 0 := Finset.sum_eq_zero fun b _ => by
    rw [sVN, if_pos (show (30:ℝ) < Real.sqrt (oKm b ^ 2 + oKm 3 ^ 2) by
      rw [ho]
      refine (Real.lt_sqrt (by positivity)).mpr ?_
      linarith only [sq_nonneg (oKm b)])]
  linarith only [rowSum_nonneg 46, hz]

theorem c4_row_4 : rowSumN 4 - 2 * rowSumN 45 ≤ 0 := by
  have ho : oKm 4 = (-1640/49 : ℝ) := by rw [oKm]; norm_num
  have hz : rowSumN 4 = 0 := Finset.sum_eq_zero fun b _ => by
    rw [sVN, if_pos (show (30:ℝ) < Real.sqrt (oKm b ^ 2 + oKm 4 ^ 2) by
      rw [ho]
      refine (Real.lt_sqrt (by positivity)).mpr ?_
      linarith only [sq_nonneg (oKm b)])]
  linarith only [rowSum_nonneg 45, hz]

theorem c4_row_5 : rowSumN 5 - 2 * rowSumN 44 ≤ 0 := by
  have ho : oKm 5 = (-1560/49 : ℝ) := by rw [oKm]; norm_num
  have hz : rowSumN 5 = 0 := Finset.sum_eq_zero fun b _ => by
    rw [sVN, if_pos (show (30:ℝ) < Real.sqrt (oKm b ^ 2 + oKm 5 ^ 2) by
      rw [ho]
      refine (Real.lt_sqrt (by positivity)).mpr ?_
      linarith only [sq_nonneg (oKm b)])]
  linarith only [rowSum_nonneg 44, hz]

theorem c4_row_6 : rowSumN 6 - 2 * rowSumN 43 ≤ 0 := by
  have ho : oKm 6 = (-1480/49 : ℝ) := by rw [oKm]; norm_num
  have hz : rowSumN 6 = 0 := Finset.sum_eq_zero fun b _ => by
    rw [sVN, if_pos (show (30:ℝ) < Real.sqrt (oKm b ^ 2 + oKm 6 ^ 2) by
      rw [ho]
      refine (Real.lt_sqrt (by positivity)).mpr ?_
      linarith only [sq_nonneg (oKm b)])]
  linarith only [rowSum_nonneg 43, hz]

theorem c4_row_7 : rowSumN 7 - 2 * rowSumN 42 ≤ (44/15625 : ℝ) := by
  have ho : oKm 7 = (-200/7 : ℝ) := by rw [oKm]; norm_num
  have hzlb : (333017/5000000 : ℝ) ≤ Real.exp (oKm 7 / 11) := by
    rw [ho, (by norm_num : (-200/7 : ℝ) / 11 = -(200/77))]
    calc (333017/5000000 : ℝ) ≤ (1 - (1039/400 : ℝ)/32) ^ 32 := by norm_num
      _ ≤ Real.exp (-(1039/400 : ℝ)) := exp_neg_ge_lb _ (by norm_num) (by norm_num)
      _ ≤ Real.exp (-(200/77 : ℝ)) := Real.exp_le_exp.mpr (by norm_num)
  have hcoef : 1 - 2 * Real.exp (oKm 7 / 11) ≤ (2166983/2500000 : ℝ) := by linarith only [hzlb]
  have hexp : Real.exp (-(25/3872 * oKm 7 ^ 2) + 57/400 * oKm 7) ≤ (689/2500000 : ℝ) := by
    rw [ho, (by norm_num : -((25:ℝ)/3872 * (-200/7 : ℝ) ^ 2) + 57/400 * (-200/7 : ℝ) = -(110779/11858))]
    calc Real.exp (-(110779/11858 : ℝ))
        ≤ Real.exp (-(93421/10000 : ℝ)) := Real.exp_le_exp.mpr (by norm_num)
      _ ≤ ((1 + (93421/10000 : ℝ)/32) ^ 32)⁻¹ := exp_neg_le_ub _ (by norm_num)
      _ ≤ (689/2500000 : ℝ) := by norm_num
  have hlog : (1 + Real.exp (oKm 7 / 11))⁻¹ ≤ (9375557/10000000 : ℝ) := by
    calc (1 + Real.exp (oKm 7 / 11))⁻¹ ≤ (1 + (333017/5000000 : ℝ))⁻¹ :=
        inv_anti₀ (by norm_num) (by linarith only [hzlb])
      _ ≤ (9375557/10000000 : ℝ) := by norm_num
  have hrow : Real.exp (-(25/3872 * oKm 7 ^ 2) + 57/400 * oKm 7)
      * (1 + Real.exp (oKm 7 / 11))⁻¹ ≤ (689/2500000 : ℝ) * (9375557/10000000 : ℝ) :=
    mul_le_mul hexp hlog (by positivity) (by norm_num)
  have hub := rowSum_far_le 7 ((689/2500000 : ℝ) * (9375557/10000000 : ℝ)) (3867357/1000000 : ℝ)
    (by norm_num) colSum_le sMax_lb hrow
  have h := term_pair (by norm_num : (7:ℕ) ≤ 24)
  rw [(by norm_num : (49:ℕ) - 7 = 42)] at h
  calc rowSumN 7 - 2 * rowSumN 42
      ≤ (1 - 2 * Real.exp (oKm 7 / 11)) * rowSumN 7 := h
    _ ≤ (2166983/2500000 : ℝ) * rowSumN 7 := mul_le_mul_of_nonneg_right hcoef (rowSum_nonneg 7)
    _ ≤ (2166983/2500000 : ℝ) * (13/10 * ((689/2500000 : ℝ) * (9375557/10000000 : ℝ) * (3867357/1000000 : ℝ)) / (2/5)) :=
        mul_le_mul_of_nonneg_left hub (by norm_num)
    _ ≤ (44/15625 : ℝ) := by norm_num

theorem c4_row_8 : rowSumN 8 - 2 * rowSumN 41 ≤ (321/62500 : ℝ) := by
  have ho : oKm 8 = (-1320/49 : ℝ) := by rw [oKm]; norm_num
  have hzlb : (782547/10000000 : ℝ) ≤ Real.exp (oKm 8 / 11) := by
    rw [ho, (by norm_num : (-1320/49 : ℝ) / 11 = -(120/49))]
    calc (782547/10000000 : ℝ) ≤ (1 - (2449/1000 : ℝ)/32) ^ 32 := by norm_num
      _ ≤ Real.exp (-(2449/1000 : ℝ)) := exp_neg_ge_lb _ (by norm_num) (by norm_num)
      _ ≤ Real.exp (-(120/49 : ℝ)) := Real.exp_le_exp.mpr (by norm_num)
  have hcoef : 1 - 2 * Real.exp (oKm 8 / 11) ≤ (4217453/5000000 : ℝ) := by linarith only [hzlb]
  have hexp : Real.exp (-(25/3872 * oKm 8 ^ 2) + 57/400 * oKm 8) ≤ (5223/10000000 : ℝ) := by
    rw [ho, (by norm_num : -((25:ℝ)/3872 * (-1320/49 : ℝ) ^ 2) + 57/400 * (-1320/49 : ℝ) = -(204669/24010))]
    calc Real.exp (-(204669/24010 : ℝ))
        ≤ Real.exp (-(85243/10000 : ℝ)) := Real.exp_le_exp.mpr (by norm_num)
      _ ≤ ((1 + (85243/10000 : ℝ)/32) ^ 32)⁻¹ := exp_neg_le_ub _ (by norm_num)
      _ ≤ (5223/10000000 : ℝ) := by norm_num
  have hlog : (1 + Real.exp (oKm 8 / 11))⁻¹ ≤ (9274247/10000000 : ℝ) := by
    calc (1 + Real.exp (oKm 8 / 11))⁻¹ ≤ (1 + (782547/10000000 : ℝ))⁻¹ :=
        inv_anti₀ (by norm_num) (by linarith only [hzlb])
      _ ≤ (9274247/10000000 : ℝ) := by norm_num
  have hrow : Real.exp (-(25/3872 * oKm 8 ^ 2) + 57/400 * oKm 8)
      * (1 + Real.exp (oKm 8 / 11))⁻¹ ≤ (5223/10000000 : ℝ) * (9274247/10000000 : ℝ) :=
    mul_le_mul hexp hlog (by positivity) (by norm_num)
  have hub := rowSum_far_le 8 ((5223/10000000 : ℝ) * (9274247/10000000 : ℝ)) (3867357/1000000 : ℝ)
    (by norm_num) colSum_le sMax_lb hrow
  have h := term_pair (by norm_num : (8:ℕ) ≤ 24)
  rw [(by norm_num : (49:ℕ) - 8 = 41)] at h
  calc rowSumN 8 - 2 * rowSumN 41
      ≤ (1 - 2 * Real.exp (oKm 8 / 11)) * rowSumN 8 := h
    _ ≤ (4217453/5000000 : ℝ) * rowSumN 8 := mul_le_mul_of_nonneg_right hcoef (rowSum_nonneg 8)
    _ ≤ (4217453/5000000 : ℝ) * (13/10 * ((5223/10000000 : ℝ) * (9274247/10000000 : ℝ) * (3867357/1000000 : ℝ)) / (2/5)) :=
        mul_le_mul_of_nonneg_left hub (by norm_num)
    _ ≤ (321/62500 : ℝ) := by norm_num

theorem c4_row_9 : rowSumN 9 - 2 * rowSumN 40 ≤ (9167/1000000 : ℝ) := by
  have ho : oKm 9 = (-1240/49 : ℝ) := by rw [oKm]; norm_num
  have hzlb : (918599/10000000 : ℝ) ≤ Real.exp (oKm 9 / 11) := by
    rw [ho, (by norm_num : (-1240/49 : ℝ) / 11 = -(1240/539))]
    calc (918599/10000000 : ℝ) ≤ (1 - (11503/5000 : ℝ)/32) ^ 32 := by norm_num
      _ ≤ Real.exp (-(11503/5000 : ℝ)) := exp_neg_ge_lb _ (by norm_num) (by norm_num)
      _ ≤ Real.exp (-(1240/539 : ℝ)) := Real.exp_le_exp.mpr (by norm_num)
  have hcoef : 1 - 2 * Real.exp (oKm 9 / 11) ≤ (4081401/5000000 : ℝ) := by linarith only [hzlb]
  have hexp : Real.exp (-(25/3872 * oKm 9 ^ 2) + 57/400 * oKm 9) ≤ (1951/2000000 : ℝ) := by
    rw [ho, (by norm_num : -((25:ℝ)/3872 * (-1240/49 : ℝ) ^ 2) + 57/400 * (-1240/49 : ℝ) = -(22489043/2905210))]
    calc Real.exp (-(22489043/2905210 : ℝ))
        ≤ Real.exp (-(77409/10000 : ℝ)) := Real.exp_le_exp.mpr (by norm_num)
      _ ≤ ((1 + (77409/10000 : ℝ)/32) ^ 32)⁻¹ := exp_neg_le_ub _ (by norm_num)
      _ ≤ (1951/2000000 : ℝ) := by norm_num
  have hlog : (1 + Real.exp (oKm 9 / 11))⁻¹ ≤ (1831737/2000000 : ℝ) := by
    calc (1 + Real.exp (oKm 9 / 11))⁻¹ ≤ (1 + (918599/10000000 : ℝ))⁻¹ :=
        inv_anti₀ (by norm_num) (by linarith only [hzlb])
      _ ≤ (1831737/2000000 : ℝ) := by norm_num
  have hrow : Real.exp (-(25/3872 * oKm 9 ^ 2) + 57/400 * oKm 9)
      * (1 + Real.exp (oKm 9 / 11))⁻¹ ≤ (1951/2000000 : ℝ) * (1831737/2000000 : ℝ) :=
    mul_le_mul hexp hlog (by positivity) (by norm_num)
  have hub := rowSum_far_le 9 ((1951/2000000 : ℝ) * (1831737/2000000 : ℝ)) (3867357/1000000 : ℝ)
    (by norm_num) colSum_le sMax_lb hrow
  have h := term_pair (by norm_num : (9:ℕ) ≤ 24)
  rw [(by norm_num : (49:ℕ) - 9 = 40)] at h
  calc rowSumN 9 - 2 * rowSumN 40
      ≤ (1 - 2 * Real.exp (oKm 9 / 11)) * rowSumN 9 := h
    _ ≤ (4081401/5000000 : ℝ) * rowSumN 9 := mul_le_mul_of_nonneg_right hcoef (rowSum_nonneg 9)
    _ ≤ (4081401/5000000 : ℝ) * (13/10 * ((1951/2000000 : ℝ) * (1831737/2000000 : ℝ) * (3867357/1000000 : ℝ)) / (2/5)) :=
        mul_le_mul_of_nonneg_left hub (by norm_num)
    _ ≤ (9167/1000000 : ℝ) := by norm_num

theorem c4_row_10 : rowSumN 10 - 2 * rowSumN 39 ≤ (7981/500000 : ℝ) := by
  have ho : oKm 10 = (-1160/49 : ℝ) := by rw [oKm]; norm_num
  have hzlb : (215489/2000000 : ℝ) ≤ Real.exp (oKm 10 / 11) := by
    rw [ho, (by norm_num : (-1160/49 : ℝ) / 11 = -(1160/539))]
    calc (215489/2000000 : ℝ) ≤ (1 - (10761/5000 : ℝ)/32) ^ 32 := by norm_num
      _ ≤ Real.exp (-(10761/5000 : ℝ)) := exp_neg_ge_lb _ (by norm_num) (by norm_num)
      _ ≤ Real.exp (-(1160/539 : ℝ)) := Real.exp_le_exp.mpr (by norm_num)
  have hcoef : 1 - 2 * Real.exp (oKm 10 / 11) ≤ (784511/1000000 : ℝ) := by linarith only [hzlb]
  have hexp : Real.exp (-(25/3872 * oKm 10 ^ 2) + 57/400 * oKm 10) ≤ (4483/2500000 : ℝ) := by
    rw [ho, (by norm_num : -((25:ℝ)/3872 * (-1160/49 : ℝ) ^ 2) + 57/400 * (-1160/49 : ℝ) = -(20313137/2905210))]
    calc Real.exp (-(20313137/2905210 : ℝ))
        ≤ Real.exp (-(69919/10000 : ℝ)) := Real.exp_le_exp.mpr (by norm_num)
      _ ≤ ((1 + (69919/10000 : ℝ)/32) ^ 32)⁻¹ := exp_neg_le_ub _ (by norm_num)
      _ ≤ (4483/2500000 : ℝ) := by norm_num
  have hlog : (1 + Real.exp (oKm 10 / 11))⁻¹ ≤ (9027353/10000000 : ℝ) := by
    calc (1 + Real.exp (oKm 10 / 11))⁻¹ ≤ (1 + (215489/2000000 : ℝ))⁻¹ :=
        inv_anti₀ (by norm_num) (by linarith only [hzlb])
      _ ≤ (9027353/10000000 : ℝ) := by norm_num
  have hrow : Real.exp (-(25/3872 * oKm 10 ^ 2) + 57/400 * oKm 10)
      * (1 + Real.exp (oKm 10 / 11))⁻¹ ≤ (4483/2500000 : ℝ) * (9027353/10000000 : ℝ) :=
    mul_le_mul hexp hlog (by positivity) (by norm_num)
  have hub := rowSum_far_le 10 ((4483/2500000 : ℝ) * (9027353/10000000 : ℝ)) (3867357/1000000 : ℝ)
    (by norm_num) colSum_le sMax_lb hrow
  have h := term_pair (by norm_num : (10:ℕ) ≤ 24)
  rw [(by norm_num : (49:ℕ) - 10 = 39)] at h
  calc rowSumN 10 - 2 * rowSumN 39
      ≤ (1 - 2 * Real.exp (oKm 10 / 11)) * rowSumN 10 := h
    _ ≤ (784511/1000000 : ℝ) * rowSumN 10 := mul_le_mul_of_nonneg_right hcoef (rowSum_nonneg 10)
    _ ≤ (784511/1000000 : ℝ) * (13/10 * ((4483/2500000 : ℝ) * (9027353/10000000 : ℝ) * (3867357/1000000 : ℝ)) / (2/5)) :=
        mul_le_mul_of_nonneg_left hub (by norm_num)
    _ ≤ (7981/500000 : ℝ) := by norm_num

theorem c4_row_11 : rowSumN 11 - 2 * rowSumN 38 ≤ (27033/1000000 : ℝ) := by
  have ho : oKm 11 = (-1080/49 : ℝ) := by rw [oKm]; norm_num
  have hzlb : (631379/5000000 : ℝ) ≤ Real.exp (oKm 11 / 11) := by
    rw [ho, (by norm_num : (-1080/49 : ℝ) / 11 = -(1080/539))]
    calc (631379/5000000 : ℝ) ≤ (1 - (10019/5000 : ℝ)/32) ^ 32 := by norm_num
      _ ≤ Real.exp (-(10019/5000 : ℝ)) := exp_neg_ge_lb _ (by norm_num) (by norm_num)
      _ ≤ Real.exp (-(1080/539 : ℝ)) := Real.exp_le_exp.mpr (by norm_num)
  have hcoef : 1 - 2 * Real.exp (oKm 11 / 11) ≤ (1868621/2500000 : ℝ) := by linarith only [hzlb]
  have hexp : Real.exp (-(25/3872 * oKm 11 ^ 2) + 57/400 * oKm 11) ≤ (4051/1250000 : ℝ) := by
    rw [ho, (by norm_num : -((25:ℝ)/3872 * (-1080/49 : ℝ) ^ 2) + 57/400 * (-1080/49 : ℝ) = -(18237231/2905210))]
    calc Real.exp (-(18237231/2905210 : ℝ))
        ≤ Real.exp (-(31387/5000 : ℝ)) := Real.exp_le_exp.mpr (by norm_num)
      _ ≤ ((1 + (31387/5000 : ℝ)/32) ^ 32)⁻¹ := exp_neg_le_ub _ (by norm_num)
      _ ≤ (4051/1250000 : ℝ) := by norm_num
  have hlog : (1 + Real.exp (oKm 11 / 11))⁻¹ ≤ (443941/500000 : ℝ) := by
    calc (1 + Real.exp (oKm 11 / 11))⁻¹ ≤ (1 + (631379/5000000 : ℝ))⁻¹ :=
        inv_anti₀ (by norm_num) (by linarith only [hzlb])
      _ ≤ (443941/500000 : ℝ) := by norm_num
  have hrow : Real.exp (-(25/3872 * oKm 11 ^ 2) + 57/400 * oKm 11)
      * (1 + Real.exp (oKm 11 / 11))⁻¹ ≤ (4051/1250000 : ℝ) * (443941/500000 : ℝ) :=
    mul_le_mul hexp hlog (by positivity) (by norm_num)
  have hub := rowSum_far_le 11 ((4051/1250000 : ℝ) * (443941/500000 : ℝ)) (3867357/1000000 : ℝ)
    (by norm_num) colSum_le sMax_lb hrow
  have h := term_pair (by norm_num : (11:ℕ) ≤ 24)
  rw [(by norm_num : (49:ℕ) - 11 = 38)] at h
  calc rowSumN 11 - 2 * rowSumN 38
      ≤ (1 - 2 * Real.exp (oKm 11 / 11)) * rowSumN 11 := h
    _ ≤ (1868621/2500000 : ℝ) * rowSumN 11 := mul_le_mul_of_nonneg_right hcoef (rowSum_nonneg 11)
    _ ≤ (1868621/2500000 : ℝ) * (13/10 * ((4051/1250000 : ℝ) * (443941/500000 : ℝ) * (3867357/1000000 : ℝ)) / (2/5)) :=
        mul_le_mul_of_nonneg_left hub (by norm_num)
    _ ≤ (27033/1000000 : ℝ) := by norm_num

theorem c4_row_12 : rowSumN 12 - 2 * rowSumN 37 ≤ (22177/500000 : ℝ) := by
  have ho : oKm 12 = (-1000/49 : ℝ) := by rw [oKm]; norm_num
  have hzlb : (1478943/10000000 : ℝ) ≤ Real.exp (oKm 12 / 11) := by
    rw [ho, (by norm_num : (-1000/49 : ℝ) / 11 = -(1000/539))]
    calc (1478943/10000000 : ℝ) ≤ (1 - (18553/10000 : ℝ)/32) ^ 32 := by norm_num
      _ ≤ Real.exp (-(18553/10000 : ℝ)) := exp_neg_ge_lb _ (by norm_num) (by norm_num)
      _ ≤ Real.exp (-(1000/539 : ℝ)) := Real.exp_le_exp.mpr (by norm_num)
  have hcoef : 1 - 2 * Real.exp (oKm 12 / 11) ≤ (3521057/5000000 : ℝ) := by linarith only [hzlb]
  have hexp : Real.exp (-(25/3872 * oKm 12 ^ 2) + 57/400 * oKm 12) ≤ (57521/10000000 : ℝ) := by
    rw [ho, (by norm_num : -((25:ℝ)/3872 * (-1000/49 : ℝ) ^ 2) + 57/400 * (-1000/49 : ℝ) = -(3252265/581042))]
    calc Real.exp (-(3252265/581042 : ℝ))
        ≤ Real.exp (-(13993/2500 : ℝ)) := Real.exp_le_exp.mpr (by norm_num)
      _ ≤ ((1 + (13993/2500 : ℝ)/32) ^ 32)⁻¹ := exp_neg_le_ub _ (by norm_num)
      _ ≤ (57521/10000000 : ℝ) := by norm_num
  have hlog : (1 + Real.exp (oKm 12 / 11))⁻¹ ≤ (2177901/2500000 : ℝ) := by
    calc (1 + Real.exp (oKm 12 / 11))⁻¹ ≤ (1 + (1478943/10000000 : ℝ))⁻¹ :=
        inv_anti₀ (by norm_num) (by linarith only [hzlb])
      _ ≤ (2177901/2500000 : ℝ) := by norm_num
  have hrow : Real.exp (-(25/3872 * oKm 12 ^ 2) + 57/400 * oKm 12)
      * (1 + Real.exp (oKm 12 / 11))⁻¹ ≤ (57521/10000000 : ℝ) * (2177901/2500000 : ℝ) :=
    mul_le_mul hexp hlog (by positivity) (by norm_num)
  have hub := rowSum_far_le 12 ((57521/10000000 : ℝ) * (2177901/2500000 : ℝ)) (3867357/1000000 : ℝ)
    (by norm_num) colSum_le sMax_lb hrow
  have h := term_pair (by norm_num : (12:ℕ) ≤ 24)
  rw [(by norm_num : (49:ℕ) - 12 = 37)] at h
  calc rowSumN 12 - 2 * rowSumN 37
      ≤ (1 - 2 * Real.exp (oKm 12 / 11)) * rowSumN 12 := h
    _ ≤ (3521057/5000000 : ℝ) * rowSumN 12 := mul_le_mul_of_nonneg_right hcoef (rowSum_nonneg 12)
    _ ≤ (3521057/5000000 : ℝ) * (13/10 * ((57521/10000000 : ℝ) * (2177901/2500000 : ℝ) * (3867357/1000000 : ℝ)) / (2/5)) :=
        mul_le_mul_of_nonneg_left hub (by norm_num)
    _ ≤ (22177/500000 : ℝ) := by norm_num

theorem c4_row_13 : rowSumN 13 - 2 * rowSumN 36 ≤ (35077/500000 : ℝ) := by
  have ho : oKm 13 = (-920/49 : ℝ) := by rw [oKm]; norm_num
  have hzlb : (1730611/10000000 : ℝ) ≤ Real.exp (oKm 13 / 11) := by
    rw [ho, (by norm_num : (-920/49 : ℝ) / 11 = -(920/539))]
    calc (1730611/10000000 : ℝ) ≤ (1 - (17069/10000 : ℝ)/32) ^ 32 := by norm_num
      _ ≤ Real.exp (-(17069/10000 : ℝ)) := exp_neg_ge_lb _ (by norm_num) (by norm_num)
      _ ≤ Real.exp (-(920/539 : ℝ)) := Real.exp_le_exp.mpr (by norm_num)
  have hcoef : 1 - 2 * Real.exp (oKm 13 / 11) ≤ (3269389/5000000 : ℝ) := by linarith only [hzlb]
  have hexp : Real.exp (-(25/3872 * oKm 13 ^ 2) + 57/400 * oKm 13) ≤ (100133/10000000 : ℝ) := by
    rw [ho, (by norm_num : -((25:ℝ)/3872 * (-920/49 : ℝ) ^ 2) + 57/400 * (-920/49 : ℝ) = -(14385419/2905210))]
    calc Real.exp (-(14385419/2905210 : ℝ))
        ≤ Real.exp (-(9903/2000 : ℝ)) := Real.exp_le_exp.mpr (by norm_num)
      _ ≤ ((1 + (9903/2000 : ℝ)/32) ^ 32)⁻¹ := exp_neg_le_ub _ (by norm_num)
      _ ≤ (100133/10000000 : ℝ) := by norm_num
  have hlog : (1 + Real.exp (oKm 13 / 11))⁻¹ ≤ (4262353/5000000 : ℝ) := by
    calc (1 + Real.exp (oKm 13 / 11))⁻¹ ≤ (1 + (1730611/10000000 : ℝ))⁻¹ :=
        inv_anti₀ (by norm_num) (by linarith only [hzlb])
      _ ≤ (4262353/5000000 : ℝ) := by norm_num
  have hrow : Real.exp (-(25/3872 * oKm 13 ^ 2) + 57/400 * oKm 13)
      * (1 + Real.exp (oKm 13 / 11))⁻¹ ≤ (100133/10000000 : ℝ) * (4262353/5000000 : ℝ) :=
    mul_le_mul hexp hlog (by positivity) (by norm_num)
  have hub := rowSum_far_le 13 ((100133/10000000 : ℝ) * (4262353/5000000 : ℝ)) (3867357/1000000 : ℝ)
    (by norm_num) colSum_le sMax_lb hrow
  have h := term_pair (by norm_num : (13:ℕ) ≤ 24)
  rw [(by norm_num : (49:ℕ) - 13 = 36)] at h
  calc rowSumN 13 - 2 * rowSumN 36
      ≤ (1 - 2 * Real.exp (oKm 13 / 11)) * rowSumN 13 := h
    _ ≤ (3269389/5000000 : ℝ) * rowSumN 13 := mul_le_mul_of_nonneg_right hcoef (rowSum_nonneg 13)
    _ ≤ (3269389/5000000 : ℝ) * (13/10 * ((100133/10000000 : ℝ) * (4262353/5000000 : ℝ) * (3867357/1000000 : ℝ)) / (2/5)) :=
        mul_le_mul_of_nonneg_left hub (by norm_num)
    _ ≤ (35077/500000 : ℝ) := by norm_num

theorem c4_row_14 : rowSumN 14 - 2 * rowSumN 35 ≤ (106259/1000000 : ℝ) := by
  have ho : oKm 14 = (-120/7 : ℝ) := by rw [oKm]; norm_num
  have hzlb : (2023551/10000000 : ℝ) ≤ Real.exp (oKm 14 / 11) := by
    rw [ho, (by norm_num : (-120/7 : ℝ) / 11 = -(120/77))]
    calc (2023551/10000000 : ℝ) ≤ (1 - (3117/2000 : ℝ)/32) ^ 32 := by norm_num
      _ ≤ Real.exp (-(3117/2000 : ℝ)) := exp_neg_ge_lb _ (by norm_num) (by norm_num)
      _ ≤ Real.exp (-(120/77 : ℝ)) := Real.exp_le_exp.mpr (by norm_num)
  have hcoef : 1 - 2 * Real.exp (oKm 14 / 11) ≤ (2976449/5000000 : ℝ) := by linarith only [hzlb]
  have hexp : Real.exp (-(25/3872 * oKm 14 ^ 2) + 57/400 * oKm 14) ≤ (170753/10000000 : ℝ) := by
    rw [ho, (by norm_num : -((25:ℝ)/3872 * (-120/7 : ℝ) ^ 2) + 57/400 * (-120/7 : ℝ) = -(257337/59290))]
    calc Real.exp (-(257337/59290 : ℝ))
        ≤ Real.exp (-(43403/10000 : ℝ)) := Real.exp_le_exp.mpr (by norm_num)
      _ ≤ ((1 + (43403/10000 : ℝ)/32) ^ 32)⁻¹ := exp_neg_le_ub _ (by norm_num)
      _ ≤ (170753/10000000 : ℝ) := by norm_num
  have hlog : (1 + Real.exp (oKm 14 / 11))⁻¹ ≤ (8317011/10000000 : ℝ) := by
    calc (1 + Real.exp (oKm 14 / 11))⁻¹ ≤ (1 + (2023551/10000000 : ℝ))⁻¹ :=
        inv_anti₀ (by norm_num) (by linarith only [hzlb])
      _ ≤ (8317011/10000000 : ℝ) := by norm_num
  have hrow : Real.exp (-(25/3872 * oKm 14 ^ 2) + 57/400 * oKm 14)
      * (1 + Real.exp (oKm 14 / 11))⁻¹ ≤ (170753/10000000 : ℝ) * (8317011/10000000 : ℝ) :=
    mul_le_mul hexp hlog (by positivity) (by norm_num)
  have hub := rowSum_far_le 14 ((170753/10000000 : ℝ) * (8317011/10000000 : ℝ)) (3867357/1000000 : ℝ)
    (by norm_num) colSum_le sMax_lb hrow
  have h := term_pair (by norm_num : (14:ℕ) ≤ 24)
  rw [(by norm_num : (49:ℕ) - 14 = 35)] at h
  calc rowSumN 14 - 2 * rowSumN 35
      ≤ (1 - 2 * Real.exp (oKm 14 / 11)) * rowSumN 14 := h
    _ ≤ (2976449/5000000 : ℝ) * rowSumN 14 := mul_le_mul_of_nonneg_right hcoef (rowSum_nonneg 14)
    _ ≤ (2976449/5000000 : ℝ) * (13/10 * ((170753/10000000 : ℝ) * (8317011/10000000 : ℝ) * (3867357/1000000 : ℝ)) / (2/5)) :=
        mul_le_mul_of_nonneg_left hub (by norm_num)
    _ ≤ (106259/1000000 : ℝ) := by norm_num

theorem c4_row_15 : rowSumN 15 - 2 * rowSumN 34 ≤ (152693/1000000 : ℝ) := by
  have ho : oKm 15 = (-760/49 : ℝ) := by rw [oKm]; norm_num
  have hzlb : (2364277/10000000 : ℝ) ≤ Real.exp (oKm 15 / 11) := by
    rw [ho, (by norm_num : (-760/49 : ℝ) / 11 = -(760/539))]
    calc (2364277/10000000 : ℝ) ≤ (1 - (14101/10000 : ℝ)/32) ^ 32 := by norm_num
      _ ≤ Real.exp (-(14101/10000 : ℝ)) := exp_neg_ge_lb _ (by norm_num) (by norm_num)
      _ ≤ Real.exp (-(760/539 : ℝ)) := Real.exp_le_exp.mpr (by norm_num)
  have hcoef : 1 - 2 * Real.exp (oKm 15 / 11) ≤ (2635723/5000000 : ℝ) := by linarith only [hzlb]
  have hexp : Real.exp (-(25/3872 * oKm 15 ^ 2) + 57/400 * oKm 15) ≤ (284943/10000000 : ℝ) := by
    rw [ho, (by norm_num : -((25:ℝ)/3872 * (-760/49 : ℝ) ^ 2) + 57/400 * (-760/49 : ℝ) = -(10933607/2905210))]
    calc Real.exp (-(10933607/2905210 : ℝ))
        ≤ Real.exp (-(18817/5000 : ℝ)) := Real.exp_le_exp.mpr (by norm_num)
      _ ≤ ((1 + (18817/5000 : ℝ)/32) ^ 32)⁻¹ := exp_neg_le_ub _ (by norm_num)
      _ ≤ (284943/10000000 : ℝ) := by norm_num
  have hlog : (1 + Real.exp (oKm 15 / 11))⁻¹ ≤ (8087817/10000000 : ℝ) := by
    calc (1 + Real.exp (oKm 15 / 11))⁻¹ ≤ (1 + (2364277/10000000 : ℝ))⁻¹ :=
        inv_anti₀ (by norm_num) (by linarith only [hzlb])
      _ ≤ (8087817/10000000 : ℝ) := by norm_num
  have hrow : Real.exp (-(25/3872 * oKm 15 ^ 2) + 57/400 * oKm 15)
      * (1 + Real.exp (oKm 15 / 11))⁻¹ ≤ (284943/10000000 : ℝ) * (8087817/10000000 : ℝ) :=
    mul_le_mul hexp hlog (by positivity) (by norm_num)
  have hub := rowSum_far_le 15 ((284943/10000000 : ℝ) * (8087817/10000000 : ℝ)) (3867357/1000000 : ℝ)
    (by norm_num) colSum_le sMax_lb hrow
  have h := term_pair (by norm_num : (15:ℕ) ≤ 24)
  rw [(by norm_num : (49:ℕ) - 15 = 34)] at h
  calc rowSumN 15 - 2 * rowSumN 34
      ≤ (1 - 2 * Real.exp (oKm 15 / 11)) * rowSumN 15 := h
    _ ≤ (2635723/5000000 : ℝ) * rowSumN 15 := mul_le_mul_of_nonneg_right hcoef (rowSum_nonneg 15)
    _ ≤ (2635723/5000000 : ℝ) * (13/10 * ((284943/10000000 : ℝ) * (8087817/10000000 : ℝ) * (3867357/1000000 : ℝ)) / (2/5)) :=
        mul_le_mul_of_nonneg_left hub (by norm_num)
    _ ≤ (152693/1000000 : ℝ) := by norm_num

theorem c4_row_16 : rowSumN 16 - 2 * rowSumN 33 ≤ (204993/1000000 : ℝ) := by
  have ho : oKm 16 = (-680/49 : ℝ) := by rw [oKm]; norm_num
  have hzlb : (2760583/10000000 : ℝ) ≤ Real.exp (oKm 16 / 11) := by
    rw [ho, (by norm_num : (-680/49 : ℝ) / 11 = -(680/539))]
    calc (2760583/10000000 : ℝ) ≤ (1 - (1577/1250 : ℝ)/32) ^ 32 := by norm_num
      _ ≤ Real.exp (-(1577/1250 : ℝ)) := exp_neg_ge_lb _ (by norm_num) (by norm_num)
      _ ≤ Real.exp (-(680/539 : ℝ)) := Real.exp_le_exp.mpr (by norm_num)
  have hcoef : 1 - 2 * Real.exp (oKm 16 / 11) ≤ (2239417/5000000 : ℝ) := by linarith only [hzlb]
  have hexp : Real.exp (-(25/3872 * oKm 16 ^ 2) + 57/400 * oKm 16) ≤ (464671/10000000 : ℝ) := by
    rw [ho, (by norm_num : -((25:ℝ)/3872 * (-680/49 : ℝ) ^ 2) + 57/400 * (-680/49 : ℝ) = -(9357701/2905210))]
    calc Real.exp (-(9357701/2905210 : ℝ))
        ≤ Real.exp (-(3221/1000 : ℝ)) := Real.exp_le_exp.mpr (by norm_num)
      _ ≤ ((1 + (3221/1000 : ℝ)/32) ^ 32)⁻¹ := exp_neg_le_ub _ (by norm_num)
      _ ≤ (464671/10000000 : ℝ) := by norm_num
  have hlog : (1 + Real.exp (oKm 16 / 11))⁻¹ ≤ (7836633/10000000 : ℝ) := by
    calc (1 + Real.exp (oKm 16 / 11))⁻¹ ≤ (1 + (2760583/10000000 : ℝ))⁻¹ :=
        inv_anti₀ (by norm_num) (by linarith only [hzlb])
      _ ≤ (7836633/10000000 : ℝ) := by norm_num
  have hrow : Real.exp (-(25/3872 * oKm 16 ^ 2) + 57/400 * oKm 16)
      * (1 + Real.exp (oKm 16 / 11))⁻¹ ≤ (464671/10000000 : ℝ) * (7836633/10000000 : ℝ) :=
    mul_le_mul hexp hlog (by positivity) (by norm_num)
  have hub := rowSum_far_le 16 ((464671/10000000 : ℝ) * (7836633/10000000 : ℝ)) (3867357/1000000 : ℝ)
    (by norm_num) colSum_le sMax_lb hrow
  have h := term_pair (by norm_num : (16:ℕ) ≤ 24)
  rw [(by norm_num : (49:ℕ) - 16 = 33)] at h
  calc rowSumN 16 - 2 * rowSumN 33
      ≤ (1 - 2 * Real.exp (oKm 16 / 11)) * rowSumN 16 := h
    _ ≤ (2239417/5000000 : ℝ) * rowSumN 16 := mul_le_mul_of_nonneg_right hcoef (rowSum_nonneg 16)
    _ ≤ (2239417/5000000 : ℝ) * (13/10 * ((464671/10000000 : ℝ) * (7836633/10000000 : ℝ) * (3867357/1000000 : ℝ)) / (2/5)) :=
        mul_le_mul_of_nonneg_left hub (by norm_num)
    _ ≤ (204993/1000000 : ℝ) := by norm_num

theorem c4_row_17 : rowSumN 17 - 2 * rowSumN 32 ≤ (62573/250000 : ℝ) := by
  have ho : oKm 17 = (-600/49 : ℝ) := by rw [oKm]; norm_num
  have hzlb : (3220579/10000000 : ℝ) ≤ Real.exp (oKm 17 / 11) := by
    rw [ho, (by norm_num : (-600/49 : ℝ) / 11 = -(600/539))]
    calc (3220579/10000000 : ℝ) ≤ (1 - (2783/2500 : ℝ)/32) ^ 32 := by norm_num
      _ ≤ Real.exp (-(2783/2500 : ℝ)) := exp_neg_ge_lb _ (by norm_num) (by norm_num)
      _ ≤ Real.exp (-(600/539 : ℝ)) := Real.exp_le_exp.mpr (by norm_num)
  have hcoef : 1 - 2 * Real.exp (oKm 17 / 11) ≤ (1779421/5000000 : ℝ) := by linarith only [hzlb]
  have hexp : Real.exp (-(25/3872 * oKm 17 ^ 2) + 57/400 * oKm 17) ≤ (9247/125000 : ℝ) := by
    rw [ho, (by norm_num : -((25:ℝ)/3872 * (-600/49 : ℝ) ^ 2) + 57/400 * (-600/49 : ℝ) = -(1576359/581042))]
    calc Real.exp (-(1576359/581042 : ℝ))
        ≤ Real.exp (-(27129/10000 : ℝ)) := Real.exp_le_exp.mpr (by norm_num)
      _ ≤ ((1 + (27129/10000 : ℝ)/32) ^ 32)⁻¹ := exp_neg_le_ub _ (by norm_num)
      _ ≤ (9247/125000 : ℝ) := by norm_num
  have hlog : (1 + Real.exp (oKm 17 / 11))⁻¹ ≤ (3781983/5000000 : ℝ) := by
    calc (1 + Real.exp (oKm 17 / 11))⁻¹ ≤ (1 + (3220579/10000000 : ℝ))⁻¹ :=
        inv_anti₀ (by norm_num) (by linarith only [hzlb])
      _ ≤ (3781983/5000000 : ℝ) := by norm_num
  have hrow : Real.exp (-(25/3872 * oKm 17 ^ 2) + 57/400 * oKm 17)
      * (1 + Real.exp (oKm 17 / 11))⁻¹ ≤ (9247/125000 : ℝ) * (3781983/5000000 : ℝ) :=
    mul_le_mul hexp hlog (by positivity) (by norm_num)
  have hub := rowSum_far_le 17 ((9247/125000 : ℝ) * (3781983/5000000 : ℝ)) (3867357/1000000 : ℝ)
    (by norm_num) colSum_le sMax_lb hrow
  have h := term_pair (by norm_num : (17:ℕ) ≤ 24)
  rw [(by norm_num : (49:ℕ) - 17 = 32)] at h
  calc rowSumN 17 - 2 * rowSumN 32
      ≤ (1 - 2 * Real.exp (oKm 17 / 11)) * rowSumN 17 := h
    _ ≤ (1779421/5000000 : ℝ) * rowSumN 17 := mul_le_mul_of_nonneg_right hcoef (rowSum_nonneg 17)
    _ ≤ (1779421/5000000 : ℝ) * (13/10 * ((9247/125000 : ℝ) * (3781983/5000000 : ℝ) * (3867357/1000000 : ℝ)) / (2/5)) :=
        mul_le_mul_of_nonneg_left hub (by norm_num)
    _ ≤ (62573/250000 : ℝ) := by norm_num

theorem c4_row_18 : rowSumN 18 - 2 * rowSumN 31 ≤ (261367/1000000 : ℝ) := by
  have ho : oKm 18 = (-520/49 : ℝ) := by rw [oKm]; norm_num
  have hzlb : (3754449/10000000 : ℝ) ≤ Real.exp (oKm 18 / 11) := by
    rw [ho, (by norm_num : (-520/49 : ℝ) / 11 = -(520/539))]
    calc (3754449/10000000 : ℝ) ≤ (1 - (603/625 : ℝ)/32) ^ 32 := by norm_num
      _ ≤ Real.exp (-(603/625 : ℝ)) := exp_neg_ge_lb _ (by norm_num) (by norm_num)
      _ ≤ Real.exp (-(520/539 : ℝ)) := Real.exp_le_exp.mpr (by norm_num)
  have hcoef : 1 - 2 * Real.exp (oKm 18 / 11) ≤ (1245551/5000000 : ℝ) := by linarith only [hzlb]
  have hexp : Real.exp (-(25/3872 * oKm 18 ^ 2) + 57/400 * oKm 18) ≤ (1148163/10000000 : ℝ) := by
    rw [ho, (by norm_num : -((25:ℝ)/3872 * (-520/49 : ℝ) ^ 2) + 57/400 * (-520/49 : ℝ) = -(6505889/2905210))]
    calc Real.exp (-(6505889/2905210 : ℝ))
        ≤ Real.exp (-(22393/10000 : ℝ)) := Real.exp_le_exp.mpr (by norm_num)
      _ ≤ ((1 + (22393/10000 : ℝ)/32) ^ 32)⁻¹ := exp_neg_le_ub _ (by norm_num)
      _ ≤ (1148163/10000000 : ℝ) := by norm_num
  have hlog : (1 + Real.exp (oKm 18 / 11))⁻¹ ≤ (58163/80000 : ℝ) := by
    calc (1 + Real.exp (oKm 18 / 11))⁻¹ ≤ (1 + (3754449/10000000 : ℝ))⁻¹ :=
        inv_anti₀ (by norm_num) (by linarith only [hzlb])
      _ ≤ (58163/80000 : ℝ) := by norm_num
  have hrow : Real.exp (-(25/3872 * oKm 18 ^ 2) + 57/400 * oKm 18)
      * (1 + Real.exp (oKm 18 / 11))⁻¹ ≤ (1148163/10000000 : ℝ) * (58163/80000 : ℝ) :=
    mul_le_mul hexp hlog (by positivity) (by norm_num)
  have hub := rowSum_far_le 18 ((1148163/10000000 : ℝ) * (58163/80000 : ℝ)) (3867357/1000000 : ℝ)
    (by norm_num) colSum_le sMax_lb hrow
  have h := term_pair (by norm_num : (18:ℕ) ≤ 24)
  rw [(by norm_num : (49:ℕ) - 18 = 31)] at h
  calc rowSumN 18 - 2 * rowSumN 31
      ≤ (1 - 2 * Real.exp (oKm 18 / 11)) * rowSumN 18 := h
    _ ≤ (1245551/5000000 : ℝ) * rowSumN 18 := mul_le_mul_of_nonneg_right hcoef (rowSum_nonneg 18)
    _ ≤ (1245551/5000000 : ℝ) * (13/10 * ((1148163/10000000 : ℝ) * (58163/80000 : ℝ) * (3867357/1000000 : ℝ)) / (2/5)) :=
        mul_le_mul_of_nonneg_left hub (by norm_num)
    _ ≤ (261367/1000000 : ℝ) := by norm_num

theorem c4_row_19 : rowSumN 19 - 2 * rowSumN 30 ≤ (95051/500000 : ℝ) := by
  have ho : oKm 19 = (-440/49 : ℝ) := by rw [oKm]; norm_num
  have hzlb : (273351/625000 : ℝ) ≤ Real.exp (oKm 19 / 11) := by
    rw [ho, (by norm_num : (-440/49 : ℝ) / 11 = -(40/49))]
    calc (273351/625000 : ℝ) ≤ (1 - (2041/2500 : ℝ)/32) ^ 32 := by norm_num
      _ ≤ Real.exp (-(2041/2500 : ℝ)) := exp_neg_ge_lb _ (by norm_num) (by norm_num)
      _ ≤ Real.exp (-(40/49 : ℝ)) := Real.exp_le_exp.mpr (by norm_num)
  have hcoef : 1 - 2 * Real.exp (oKm 19 / 11) ≤ (39149/312500 : ℝ) := by linarith only [hzlb]
  have hexp : Real.exp (-(25/3872 * oKm 19 ^ 2) + 57/400 * oKm 19) ≤ (1735333/10000000 : ℝ) := by
    rw [ho, (by norm_num : -((25:ℝ)/3872 * (-440/49 : ℝ) ^ 2) + 57/400 * (-440/49 : ℝ) = -(43223/24010))]
    calc Real.exp (-(43223/24010 : ℝ))
        ≤ Real.exp (-(9001/5000 : ℝ)) := Real.exp_le_exp.mpr (by norm_num)
      _ ≤ ((1 + (9001/5000 : ℝ)/32) ^ 32)⁻¹ := exp_neg_le_ub _ (by norm_num)
      _ ≤ (1735333/10000000 : ℝ) := by norm_num
  have hlog : (1 + Real.exp (oKm 19 / 11))⁻¹ ≤ (869649/1250000 : ℝ) := by
    calc (1 + Real.exp (oKm 19 / 11))⁻¹ ≤ (1 + (273351/625000 : ℝ))⁻¹ :=
        inv_anti₀ (by norm_num) (by linarith only [hzlb])
      _ ≤ (869649/1250000 : ℝ) := by norm_num
  have hrow : Real.exp (-(25/3872 * oKm 19 ^ 2) + 57/400 * oKm 19)
      * (1 + Real.exp (oKm 19 / 11))⁻¹ ≤ (1735333/10000000 : ℝ) * (869649/1250000 : ℝ) :=
    mul_le_mul hexp hlog (by positivity) (by norm_num)
  have hub := rowSum_far_le 19 ((1735333/10000000 : ℝ) * (869649/1250000 : ℝ)) (3867357/1000000 : ℝ)
    (by norm_num) colSum_le sMax_lb hrow
  have h := term_pair (by norm_num : (19:ℕ) ≤ 24)
  rw [(by norm_num : (49:ℕ) - 19 = 30)] at h
  calc rowSumN 19 - 2 * rowSumN 30
      ≤ (1 - 2 * Real.exp (oKm 19 / 11)) * rowSumN 19 := h
    _ ≤ (39149/312500 : ℝ) * rowSumN 19 := mul_le_mul_of_nonneg_right hcoef (rowSum_nonneg 19)
    _ ≤ (39149/312500 : ℝ) * (13/10 * ((1735333/10000000 : ℝ) * (869649/1250000 : ℝ) * (3867357/1000000 : ℝ)) / (2/5)) :=
        mul_le_mul_of_nonneg_left hub (by norm_num)
    _ ≤ (95051/500000 : ℝ) := by norm_num

theorem c4_row_20 : rowSumN 20 - 2 * rowSumN 29 ≤ 0 := by
  have ho : oKm 20 = (-360/49 : ℝ) := by rw [oKm]; norm_num
  have hzlb : (5091203/10000000 : ℝ) ≤ Real.exp (oKm 20 / 11) := by
    rw [ho, (by norm_num : (-360/49 : ℝ) / 11 = -(360/539))]
    calc (5091203/10000000 : ℝ) ≤ (1 - (167/250 : ℝ)/32) ^ 32 := by norm_num
      _ ≤ Real.exp (-(167/250 : ℝ)) := exp_neg_ge_lb _ (by norm_num) (by norm_num)
      _ ≤ Real.exp (-(360/539 : ℝ)) := Real.exp_le_exp.mpr (by norm_num)
  have h := term_pair (by norm_num : (20:ℕ) ≤ 24)
  rw [(by norm_num : (49:ℕ) - 20 = 29)] at h
  have hcoef : 1 - 2 * Real.exp (oKm 20 / 11) ≤ 0 := by linarith only [hzlb]
  nlinarith [rowSum_nonneg 20, h, hcoef]

set_option maxHeartbeats 4000000 in
theorem c4_row_21 : rowSumN 21 - 2 * rowSumN 28 ≤ (-190437/1000000 : ℝ) := by
  have ho : oKm 21 = (-40/7 : ℝ) := by rw [oKm]; norm_num
  have hzlb : (47383/80000 : ℝ) ≤ Real.exp (oKm 21 / 11) := by
    rw [ho, (by norm_num : (-40/7 : ℝ) / 11 = -(40/77))]
    calc (47383/80000 : ℝ) ≤ (1 - (1039/2000 : ℝ)/32) ^ 32 := by norm_num
      _ ≤ Real.exp (-(1039/2000 : ℝ)) := exp_neg_ge_lb _ (by norm_num) (by norm_num)
      _ ≤ Real.exp (-(40/77 : ℝ)) := Real.exp_le_exp.mpr (by norm_num)
  have hzub : Real.exp (oKm 21 / 11) ≤ (5973633/10000000 : ℝ) := by
    rw [ho, (by norm_num : (-40/7 : ℝ) / 11 = -(40/77))]
    calc Real.exp (-(40/77 : ℝ))
        ≤ Real.exp (-(2597/5000 : ℝ)) := Real.exp_le_exp.mpr (by norm_num)
      _ ≤ ((1 + (2597/5000 : ℝ)/32) ^ 32)⁻¹ := exp_neg_le_ub _ (by norm_num)
      _ ≤ (5973633/10000000 : ℝ) := by norm_num
  have hcoef : 1 - 2 * Real.exp (oKm 21 / 11) ≤ (-7383/40000 : ℝ) := by linarith only [hzlb]
  have hs21 : Real.sqrt (oKm 21 ^ 2 + oKm 21 ^ 2) ≤ (80813/10000 : ℝ) := by
    rw [ho]
    exact Real.sqrt_le_iff.mpr ⟨by norm_num, by norm_num⟩
  have hE21 : -(1791/500 : ℝ) ≤ -(25/3872 * oKm 21 ^ 2) - 8/121 * oKm 21 ^ 2
      - 3/20 * Real.sqrt (oKm 21 ^ 2 + oKm 21 ^ 2) := by
    have hs := hs21
    rw [ho] at hs ⊢
    linarith only [hs]
  have hp21 := sPreN_near_ge 21 21 (1791/500 : ℝ) (5973633/10000000 : ℝ) hE21 hzub (by norm_num) (by norm_num)
  have hv21 : (18227/1000000 : ℝ) ≤ sVN 21 21 := by
    refine sVN_near_ge 21 21 (18227/1000000 : ℝ) (by norm_num) (le_trans hs21 (by norm_num)) ?_
    calc (18227/1000000 : ℝ) ≤ 13/10 * ((1 - (1791/500 : ℝ)/32) ^ 32 * (1 + (5973633/10000000 : ℝ))⁻¹) := by norm_num
      _ ≤ 13/10 * sPreN 21 21 := mul_le_mul_of_nonneg_left hp21 (by norm_num)
  have hob22 : oKm 22 = (-200/49 : ℝ) := by rw [oKm]; norm_num
  have hs22 : Real.sqrt (oKm 22 ^ 2 + oKm 21 ^ 2) ≤ (4389/625 : ℝ) := by
    rw [ho, hob22]
    exact Real.sqrt_le_iff.mpr ⟨by norm_num, by norm_num⟩
  have hE22 : -(23657/10000 : ℝ) ≤ -(25/3872 * oKm 21 ^ 2) - 8/121 * oKm 22 ^ 2
      - 3/20 * Real.sqrt (oKm 22 ^ 2 + oKm 21 ^ 2) := by
    have hs := hs22
    rw [ho, hob22] at hs ⊢
    linarith only [hs]
  have hp22 := sPreN_near_ge 21 22 (23657/10000 : ℝ) (5973633/10000000 : ℝ) hE22 hzub (by norm_num) (by norm_num)
  have hv22 : (69689/1000000 : ℝ) ≤ sVN 21 22 := by
    refine sVN_near_ge 21 22 (69689/1000000 : ℝ) (by norm_num) (le_trans hs22 (by norm_num)) ?_
    calc (69689/1000000 : ℝ) ≤ 13/10 * ((1 - (23657/10000 : ℝ)/32) ^ 32 * (1 + (5973633/10000000 : ℝ))⁻¹) := by norm_num
      _ ≤ 13/10 * sPreN 21 22 := mul_le_mul_of_nonneg_left hp22 (by norm_num)
  have hob23 : oKm 23 = (-120/49 : ℝ) := by rw [oKm]; norm_num
  have hs23 : Real.sqrt (oKm 23 ^ 2 + oKm 21 ^ 2) ≤ (6217/1000 : ℝ) := by
    rw [ho, hob23]
    exact Real.sqrt_le_iff.mpr ⟨by norm_num, by norm_num⟩
  have hE23 : -(77/50 : ℝ) ≤ -(25/3872 * oKm 21 ^ 2) - 8/121 * oKm 23 ^ 2
      - 3/20 * Real.sqrt (oKm 23 ^ 2 + oKm 21 ^ 2) := by
    have hs := hs23
    rw [ho, hob23] at hs ⊢
    linarith only [hs]
  have hp23 := sPreN_near_ge 21 23 (77/50 : ℝ) (5973633/10000000 : ℝ) hE23 hzub (by norm_num) (by norm_num)
  have hv23 : (167917/1000000 : ℝ) ≤ sVN 21 23 := by
    refine sVN_near_ge 21 23 (167917/1000000 : ℝ) (by norm_num) (le_trans hs23 (by norm_num)) ?_
    calc (167917/1000000 : ℝ) ≤ 13/10 * ((1 - (77/50 : ℝ)/32) ^ 32 * (1 + (5973633/10000000 : ℝ))⁻¹) := by norm_num
      _ ≤ 13/10 * sPreN 21 23 := mul_le_mul_of_nonneg_left hp23 (by norm_num)
  have hob24 : oKm 24 = (-40/49 : ℝ) := by rw [oKm]; norm_num
  have hs24 : Real.sqrt (oKm 24 ^ 2 + oKm 21 ^ 2) ≤ (14431/2500 : ℝ) := by
    rw [ho, hob24]
    exact Real.sqrt_le_iff.mpr ⟨by norm_num, by norm_num⟩
  have hE24 : -(1401/1250 : ℝ) ≤ -(25/3872 * oKm 21 ^ 2) - 8/121 * oKm 24 ^ 2
      - 3/20 * Real.sqrt (oKm 24 ^ 2 + oKm 21 ^ 2) := by
    have hs := hs24
    rw [ho, hob24] at hs ⊢
    linarith only [hs]
  have hp24 := sPreN_near_ge 21 24 (1401/1250 : ℝ) (5973633/10000000 : ℝ) hE24 hzub (by norm_num) (by norm_num)
  have hv24 : (16253/62500 : ℝ) ≤ sVN 21 24 := by
    refine sVN_near_ge 21 24 (16253/62500 : ℝ) (by norm_num) (le_trans hs24 (by norm_num)) ?_
    calc (16253/62500 : ℝ) ≤ 13/10 * ((1 - (1401/1250 : ℝ)/32) ^ 32 * (1 + (5973633/10000000 : ℝ))⁻¹) := by norm_num
      _ ≤ 13/10 * sPreN 21 24 := mul_le_mul_of_nonneg_left hp24 (by norm_num)
  have hob25 : oKm 25 = (40/49 : ℝ) := by rw [oKm]; norm_num
  have hs25 : Real.sqrt (oKm 25 ^ 2 + oKm 21 ^ 2) ≤ (14431/2500 : ℝ) := by
    rw [ho, hob25]
    exact Real.sqrt_le_iff.mpr ⟨by norm_num, by norm_num⟩
  have hE25 : -(1401/1250 : ℝ) ≤ -(25/3872 * oKm 21 ^ 2) - 8/121 * oKm 25 ^ 2
      - 3/20 * Real.sqrt (oKm 25 ^ 2 + oKm 21 ^ 2) := by
    have hs := hs25
    rw [ho, hob25] at hs ⊢
    linarith only [hs]
  have hp25 := sPreN_near_ge 21 25 (1401/1250 : ℝ) (5973633/10000000 : ℝ) hE25 hzub (by norm_num) (by norm_num)
  have hv25 : (16253/62500 : ℝ) ≤ sVN 21 25 := by
    refine sVN_near_ge 21 25 (16253/62500 : ℝ) (by norm_num) (le_trans hs25 (by norm_num)) ?_
    calc (16253/62500 : ℝ) ≤ 13/10 * ((1 - (1401/1250 : ℝ)/32) ^ 32 * (1 + (5973633/10000000 : ℝ))⁻¹) := by norm_num
      _ ≤ 13/10 * sPreN 21 25 := mul_le_mul_of_nonneg_left hp25 (by norm_num)
  have hob26 : oKm 26 = (120/49 : ℝ) := by rw [oKm]; norm_num
  have hs26 : Real.sqrt (oKm 26 ^ 2 + oKm 21 ^ 2) ≤ (6217/1000 : ℝ) := by
    rw [ho, hob26]
    exact Real.sqrt_le_iff.mpr ⟨by norm_num, by norm_num⟩
  have hE26 : -(77/50 : ℝ) ≤ -(25/3872 * oKm 21 ^ 2) - 8/121 * oKm 26 ^ 2
      - 3/20 * Real.sqrt (oKm 26 ^ 2 + oKm 21 ^ 2) := by
    have hs := hs26
    rw [ho, hob26] at hs ⊢
    linarith only [hs]
  have hp26 := sPreN_near_ge 21 26 (77/50 : ℝ) (5973633/10000000 : ℝ) hE26 hzub (by norm_num) (by norm_num)
  have hv26 : (167917/1000000 : ℝ) ≤ sVN 21 26 := by
    refine sVN_near_ge 21 26 (167917/1000000 : ℝ) (by norm_num) (le_trans hs26 (by norm_num)) ?_
    calc (167917/1000000 : ℝ) ≤ 13/10 * ((1 - (77/50 : ℝ)/32) ^ 32 * (1 + (5973633/10000000 : ℝ))⁻¹) := by norm_num
      _ ≤ 13/10 * sPreN 21 26 := mul_le_mul_of_nonneg_left hp26 (by norm_num)
  have hob27 : oKm 27 = (200/49 : ℝ) := by rw [oKm]; norm_num
  have hs27 : Real.sqrt (oKm 27 ^ 2 + oKm 21 ^ 2) ≤ (4389/625 : ℝ) := by
    rw [ho, hob27]
    exact Real.sqrt_le_iff.mpr ⟨by norm_num, by norm_num⟩
  have hE27 : -(23657/10000 : ℝ) ≤ -(25/3872 * oKm 21 ^ 2) - 8/121 * oKm 27 ^ 2
      - 3/20 * Real.sqrt (oKm 27 ^ 2 + oKm 21 ^ 2) := by
    have hs := hs27
    rw [ho, hob27] at hs ⊢
    linarith only [hs]
  have hp27 := sPreN_near_ge 21 27 (23657/10000 : ℝ) (5973633/10000000 : ℝ) hE27 hzub (by norm_num) (by norm_num)
  have hv27 : (69689/1000000 : ℝ) ≤ sVN 21 27 := by
    refine sVN_near_ge 21 27 (69689/1000000 : ℝ) (by norm_num) (le_trans hs27 (by norm_num)) ?_
    calc (69689/1000000 : ℝ) ≤ 13/10 * ((1 - (23657/10000 : ℝ)/32) ^ 32 * (1 + (5973633/10000000 : ℝ))⁻¹) := by norm_num
      _ ≤ 13/10 * sPreN 21 27 := mul_le_mul_of_nonneg_left hp27 (by norm_num)
  have hob28 : oKm 28 = (40/7 : ℝ) := by rw [oKm]; norm_num
  have hs28 : Real.sqrt (oKm 28 ^ 2 + oKm 21 ^ 2) ≤ (80813/10000 : ℝ) := by
    rw [ho, hob28]
    exact Real.sqrt_le_iff.mpr ⟨by norm_num, by norm_num⟩
  have hE28 : -(1791/500 : ℝ) ≤ -(25/3872 * oKm 21 ^ 2) - 8/121 * oKm 28 ^ 2
      - 3/20 * Real.sqrt (oKm 28 ^ 2 + oKm 21 ^ 2) := by
    have hs := hs28
    rw [ho, hob28] at hs ⊢
    linarith only [hs]
  have hp28 := sPreN_near_ge 21 28 (1791/500 : ℝ) (5973633/10000000 : ℝ) hE28 hzub (by norm_num) (by norm_num)
  have hv28 : (18227/1000000 : ℝ) ≤ sVN 21 28 := by
    refine sVN_near_ge 21 28 (18227/1000000 : ℝ) (by norm_num) (le_trans hs28 (by norm_num)) ?_
    calc (18227/1000000 : ℝ) ≤ 13/10 * ((1 - (1791/500 : ℝ)/32) ^ 32 * (1 + (5973633/10000000 : ℝ))⁻¹) := by norm_num
      _ ≤ 13/10 * sPreN 21 28 := mul_le_mul_of_nonneg_left hp28 (by norm_num)
  have hsubset : Finset.sum (Finset.Ico 21 29) (fun b => sVN 21 b) ≤ rowSumN 21 := by
    rw [rowSumN]
    apply Finset.sum_le_sum_of_subset_of_nonneg
    · intro x hx
      rw [Finset.mem_Ico] at hx
      exact Finset.mem_range.mpr (by omega)
    · intro b _ _
      exact sVN_nonneg 21 b
  have hexpand : Finset.sum (Finset.Ico 21 29) (fun b => sVN 21 b)
      = sVN 21 21 + sVN 21 22 + sVN 21 23 + sVN 21 24 + sVN 21 25 + sVN 21 26 + sVN 21 27 + sVN 21 28 := by
    rw [Finset.sum_Ico_eq_sum_range, (by norm_num : 29 - 21 = 8)]
    simp only [Finset.sum_range_succ, Finset.sum_range_zero, zero_add]
  have hrowlb : ((515881/500000 : ℝ)) ≤ rowSumN 21 := by
    linarith only [hv21, hv22, hv23, hv24, hv25, hv26, hv27, hv28, hsubset, hexpand.le, hexpand.ge]
  have h := term_pair (by norm_num : (21:ℕ) ≤ 24)
  rw [(by norm_num : (49:ℕ) - 21 = 28)] at h
  calc rowSumN 21 - 2 * rowSumN 28
      ≤ (1 - 2 * Real.exp (oKm 21 / 11)) * rowSumN 21 := h
    _ ≤ (-7383/40000 : ℝ) * rowSumN 21 := mul_le_mul_of_nonneg_right hcoef (rowSum_nonneg 21)
    _ ≤ (-7383/40000 : ℝ) * ((515881/500000 : ℝ)) := mul_le_mul_of_nonpos_left hrowlb (by norm_num)
    _ ≤ (-190437/1000000 : ℝ) := by norm_num

set_option maxHeartbeats 4000000 in
theorem c4_row_22 : rowSumN 22 - 2 * rowSumN 27 ≤ (-129179/250000 : ℝ) := by
  have ho : oKm 22 = (-200/49 : ℝ) := by rw [oKm]; norm_num
  have hzlb : (3442401/5000000 : ℝ) ≤ Real.exp (oKm 22 / 11) := by
    rw [ho, (by norm_num : (-200/49 : ℝ) / 11 = -(200/539))]
    calc (3442401/5000000 : ℝ) ≤ (1 - (3711/10000 : ℝ)/32) ^ 32 := by norm_num
      _ ≤ Real.exp (-(3711/10000 : ℝ)) := exp_neg_ge_lb _ (by norm_num) (by norm_num)
      _ ≤ Real.exp (-(200/539 : ℝ)) := Real.exp_le_exp.mpr (by norm_num)
  have hzub : Real.exp (oKm 22 / 11) ≤ (3457591/5000000 : ℝ) := by
    rw [ho, (by norm_num : (-200/49 : ℝ) / 11 = -(200/539))]
    calc Real.exp (-(200/539 : ℝ))
        ≤ Real.exp (-(371/1000 : ℝ)) := Real.exp_le_exp.mpr (by norm_num)
      _ ≤ ((1 + (371/1000 : ℝ)/32) ^ 32)⁻¹ := exp_neg_le_ub _ (by norm_num)
      _ ≤ (3457591/5000000 : ℝ) := by norm_num
  have hcoef : 1 - 2 * Real.exp (oKm 22 / 11) ≤ (-942401/2500000 : ℝ) := by linarith only [hzlb]
  have hob21 : oKm 21 = (-40/7 : ℝ) := by rw [oKm]; norm_num
  have hs21 : Real.sqrt (oKm 21 ^ 2 + oKm 22 ^ 2) ≤ (4389/625 : ℝ) := by
    rw [ho, hob21]
    exact Real.sqrt_le_iff.mpr ⟨by norm_num, by norm_num⟩
  have hE21 : -(33199/10000 : ℝ) ≤ -(25/3872 * oKm 22 ^ 2) - 8/121 * oKm 21 ^ 2
      - 3/20 * Real.sqrt (oKm 21 ^ 2 + oKm 22 ^ 2) := by
    have hs := hs21
    rw [ho, hob21] at hs ⊢
    linarith only [hs]
  have hp21 := sPreN_near_ge 22 21 (33199/10000 : ℝ) (3457591/5000000 : ℝ) hE21 hzub (by norm_num) (by norm_num)
  have hv21 : (23091/1000000 : ℝ) ≤ sVN 22 21 := by
    refine sVN_near_ge 22 21 (23091/1000000 : ℝ) (by norm_num) (le_trans hs21 (by norm_num)) ?_
    calc (23091/1000000 : ℝ) ≤ 13/10 * ((1 - (33199/10000 : ℝ)/32) ^ 32 * (1 + (3457591/5000000 : ℝ))⁻¹) := by norm_num
      _ ≤ 13/10 * sPreN 22 21 := mul_le_mul_of_nonneg_left hp21 (by norm_num)
  have hs22 : Real.sqrt (oKm 22 ^ 2 + oKm 22 ^ 2) ≤ (14431/2500 : ℝ) := by
    rw [ho]
    exact Real.sqrt_le_iff.mpr ⟨by norm_num, by norm_num⟩
  have hE22 : -(20749/10000 : ℝ) ≤ -(25/3872 * oKm 22 ^ 2) - 8/121 * oKm 22 ^ 2
      - 3/20 * Real.sqrt (oKm 22 ^ 2 + oKm 22 ^ 2) := by
    have hs := hs22
    rw [ho] at hs ⊢
    linarith only [hs]
  have hp22 := sPreN_near_ge 22 22 (20749/10000 : ℝ) (3457591/5000000 : ℝ) hE22 hzub (by norm_num) (by norm_num)
  have hv22 : (89951/1000000 : ℝ) ≤ sVN 22 22 := by
    refine sVN_near_ge 22 22 (89951/1000000 : ℝ) (by norm_num) (le_trans hs22 (by norm_num)) ?_
    calc (89951/1000000 : ℝ) ≤ 13/10 * ((1 - (20749/10000 : ℝ)/32) ^ 32 * (1 + (3457591/5000000 : ℝ))⁻¹) := by norm_num
      _ ≤ 13/10 * sPreN 22 22 := mul_le_mul_of_nonneg_left hp22 (by norm_num)
  have hob23 : oKm 23 = (-120/49 : ℝ) := by rw [oKm]; norm_num
  have hs23 : Real.sqrt (oKm 23 ^ 2 + oKm 22 ^ 2) ≤ (119/25 : ℝ) := by
    rw [ho, hob23]
    exact Real.sqrt_le_iff.mpr ⟨by norm_num, by norm_num⟩
  have hE23 : -(12181/10000 : ℝ) ≤ -(25/3872 * oKm 22 ^ 2) - 8/121 * oKm 23 ^ 2
      - 3/20 * Real.sqrt (oKm 23 ^ 2 + oKm 22 ^ 2) := by
    have hs := hs23
    rw [ho, hob23] at hs ⊢
    linarith only [hs]
  have hp23 := sPreN_near_ge 22 23 (12181/10000 : ℝ) (3457591/5000000 : ℝ) hE23 hzub (by norm_num) (by norm_num)
  have hv23 : (221983/1000000 : ℝ) ≤ sVN 22 23 := by
    refine sVN_near_ge 22 23 (221983/1000000 : ℝ) (by norm_num) (le_trans hs23 (by norm_num)) ?_
    calc (221983/1000000 : ℝ) ≤ 13/10 * ((1 - (12181/10000 : ℝ)/32) ^ 32 * (1 + (3457591/5000000 : ℝ))⁻¹) := by norm_num
      _ ≤ 13/10 * sPreN 22 23 := mul_le_mul_of_nonneg_left hp23 (by norm_num)
  have hob24 : oKm 24 = (-40/49 : ℝ) := by rw [oKm]; norm_num
  have hs24 : Real.sqrt (oKm 24 ^ 2 + oKm 22 ^ 2) ≤ (333/80 : ℝ) := by
    rw [ho, hob24]
    exact Real.sqrt_le_iff.mpr ⟨by norm_num, by norm_num⟩
  have hE24 : -(97/125 : ℝ) ≤ -(25/3872 * oKm 22 ^ 2) - 8/121 * oKm 24 ^ 2
      - 3/20 * Real.sqrt (oKm 24 ^ 2 + oKm 22 ^ 2) := by
    have hs := hs24
    rw [ho, hob24] at hs ⊢
    linarith only [hs]
  have hp24 := sPreN_near_ge 22 24 (97/125 : ℝ) (3457591/5000000 : ℝ) hE24 hzub (by norm_num) (by norm_num)
  have hv24 : (87587/250000 : ℝ) ≤ sVN 22 24 := by
    refine sVN_near_ge 22 24 (87587/250000 : ℝ) (by norm_num) (le_trans hs24 (by norm_num)) ?_
    calc (87587/250000 : ℝ) ≤ 13/10 * ((1 - (97/125 : ℝ)/32) ^ 32 * (1 + (3457591/5000000 : ℝ))⁻¹) := by norm_num
      _ ≤ 13/10 * sPreN 22 24 := mul_le_mul_of_nonneg_left hp24 (by norm_num)
  have hob25 : oKm 25 = (40/49 : ℝ) := by rw [oKm]; norm_num
  have hs25 : Real.sqrt (oKm 25 ^ 2 + oKm 22 ^ 2) ≤ (333/80 : ℝ) := by
    rw [ho, hob25]
    exact Real.sqrt_le_iff.mpr ⟨by norm_num, by norm_num⟩
  have hE25 : -(97/125 : ℝ) ≤ -(25/3872 * oKm 22 ^ 2) - 8/121 * oKm 25 ^ 2
      - 3/20 * Real.sqrt (oKm 25 ^ 2 + oKm 22 ^ 2) := by
    have hs := hs25
    rw [ho, hob25] at hs ⊢
    linarith only [hs]
  have hp25 := sPreN_near_ge 22 25 (97/125 : ℝ) (3457591/5000000 : ℝ) hE25 hzub (by norm_num) (by norm_num)
  have hv25 : (87587/250000 : ℝ) ≤ sVN 22 25 := by
    refine sVN_near_ge 22 25 (87587/250000 : ℝ) (by norm_num) (le_trans hs25 (by norm_num)) ?_
    calc (87587/250000 : ℝ) ≤ 13/10 * ((1 - (97/125 : ℝ)/32) ^ 32 * (1 + (3457591/5000000 : ℝ))⁻¹) := by norm_num
      _ ≤ 13/10 * sPreN 22 25 := mul_le_mul_of_nonneg_left hp25 (by norm_num)
  have hob26 : oKm 26 = (120/49 : ℝ) := by rw [oKm]; norm_num
  have hs26 : Real.sqrt (oKm 26 ^ 2 + oKm 22 ^ 2) ≤ (119/25 : ℝ) := by
    rw [ho, hob26]
    exact Real.sqrt_le_iff.mpr ⟨by norm_num, by norm_num⟩
  have hE26 : -(12181/10000 : ℝ) ≤ -(25/3872 * oKm 22 ^ 2) - 8/121 * oKm 26 ^ 2
      - 3/20 * Real.sqrt (oKm 26 ^ 2 + oKm 22 ^ 2) := by
    have hs := hs26
    rw [ho, hob26] at hs ⊢
    linarith only [hs]
  have hp26 := sPreN_near_ge 22 26 (12181/10000 : ℝ) (3457591/5000000 : ℝ) hE26 hzub (by norm_num) (by norm_num)
  have hv26 : (221983/1000000 : ℝ) ≤ sVN 22 26 := by
    refine sVN_near_ge 22 26 (221983/1000000 : ℝ) (by norm_num) (le_trans hs26 (by norm_num)) ?_
    calc (221983/1000000 : ℝ) ≤ 13/10 * ((1 - (12181/10000 : ℝ)/32) ^ 32 * (1 + (3457591/5000000 : ℝ))⁻¹) := by norm_num
      _ ≤ 13/10 * sPreN 22 26 := mul_le_mul_of_nonneg_left hp26 (by norm_num)
  have hob27 : oKm 27 = (200/49 : ℝ) := by rw [oKm]; norm_num
  have hs27 : Real.sqrt (oKm 27 ^ 2 + oKm 22 ^ 2) ≤ (14431/2500 : ℝ) := by
    rw [ho, hob27]
    exact Real.sqrt_le_iff.mpr ⟨by norm_num, by norm_num⟩
  have hE27 : -(20749/10000 : ℝ) ≤ -(25/3872 * oKm 22 ^ 2) - 8/121 * oKm 27 ^ 2
      - 3/20 * Real.sqrt (oKm 27 ^ 2 + oKm 22 ^ 2) := by
    have hs := hs27
    rw [ho, hob27] at hs ⊢
    linarith only [hs]
  have hp27 := sPreN_near_ge 22 27 (20749/10000 : ℝ) (3457591/5000000 : ℝ) hE27 hzub (by norm_num) (by norm_num)
  have hv27 : (89951/1000000 : ℝ) ≤ sVN 22 27 := by
    refine sVN_near_ge 22 27 (89951/1000000 : ℝ) (by norm_num) (le_trans hs27 (by norm_num)) ?_
    calc (89951/1000000 : ℝ) ≤ 13/10 * ((1 - (20749/10000 : ℝ)/32) ^ 32 * (1 + (3457591/5000000 : ℝ))⁻¹) := by norm_num
      _ ≤ 13/10 * sPreN 22 27 := mul_le_mul_of_nonneg_left hp27 (by norm_num)
  have hob28 : oKm 28 = (40/7 : ℝ) := by rw [oKm]; norm_num
  have hs28 : Real.sqrt (oKm 28 ^ 2 + oKm 22 ^ 2) ≤ (4389/625 : ℝ) := by
    rw [ho, hob28]
    exact Real.sqrt_le_iff.mpr ⟨by norm_num, by norm_num⟩
  have hE28 : -(33199/10000 : ℝ) ≤ -(25/3872 * oKm 22 ^ 2) - 8/121 * oKm 28 ^ 2
      - 3/20 * Real.sqrt (oKm 28 ^ 2 + oKm 22 ^ 2) := by
    have hs := hs28
    rw [ho, hob28] at hs ⊢
    linarith only [hs]
  have hp28 := sPreN_near_ge 22 28 (33199/10000 : ℝ) (3457591/5000000 : ℝ) hE28 hzub (by norm_num) (by norm_num)
  have hv28 : (23091/1000000 : ℝ) ≤ sVN 22 28 := by
    refine sVN_near_ge 22 28 (23091/1000000 : ℝ) (by norm_num) (le_trans hs28 (by norm_num)) ?_
    calc (23091/1000000 : ℝ) ≤ 13/10 * ((1 - (33199/10000 : ℝ)/32) ^ 32 * (1 + (3457591/5000000 : ℝ))⁻¹) := by norm_num
      _ ≤ 13/10 * sPreN 22 28 := mul_le_mul_of_nonneg_left hp28 (by norm_num)
  have hsubset : Finset.sum (Finset.Ico 21 29) (fun b => sVN 22 b) ≤ rowSumN 22 := by
    rw [rowSumN]
    apply Finset.sum_le_sum_of_subset_of_nonneg
    · intro x hx
      rw [Finset.mem_Ico] at hx
      exact Finset.mem_range.mpr (by omega)
    · intro b _ _
      exact sVN_nonneg 22 b
  have hexpand : Finset.sum (Finset.Ico 21 29) (fun b => sVN 22 b)
      = sVN 22 21 + sVN 22 22 + sVN 22 23 + sVN 22 24 + sVN 22 25 + sVN 22 26 + sVN 22 27 + sVN 22 28 := by
    rw [Finset.sum_Ico_eq_sum_range, (by norm_num : 29 - 21 = 8)]
    simp only [Finset.sum_range_succ, Finset.sum_range_zero, zero_add]
  have hrowlb : ((685373/500000 : ℝ)) ≤ rowSumN 22 := by
    linarith only [hv21, hv22, hv23, hv24, hv25, hv26, hv27, hv28, hsubset, hexpand.le, hexpand.ge]
  have h := term_pair (by norm_num : (22:ℕ) ≤ 24)
  rw [(by norm_num : (49:ℕ) - 22 = 27)] at h
  calc rowSumN 22 - 2 * rowSumN 27
      ≤ (1 - 2 * Real.exp (oKm 22 / 11)) * rowSumN 22 := h
    _ ≤ (-942401/2500000 : ℝ) * rowSumN 22 := mul_le_mul_of_nonneg_right hcoef (rowSum_nonneg 22)
    _ ≤ (-942401/2500000 : ℝ) * ((685373/500000 : ℝ)) := mul_le_mul_of_nonpos_left hrowlb (by norm_num)
    _ ≤ (-129179/250000 : ℝ) := by norm_num

set_option maxHeartbeats 4000000 in
theorem c4_row_23 : rowSumN 23 - 2 * rowSumN 26 ≤ (-256861/250000 : ℝ) := by
  have ho : oKm 23 = (-120/49 : ℝ) := by rw [oKm]; norm_num
  have hzlb : (199933/250000 : ℝ) ≤ Real.exp (oKm 23 / 11) := by
    rw [ho, (by norm_num : (-120/49 : ℝ) / 11 = -(120/539))]
    calc (199933/250000 : ℝ) ≤ (1 - (2227/10000 : ℝ)/32) ^ 32 := by norm_num
      _ ≤ Real.exp (-(2227/10000 : ℝ)) := exp_neg_ge_lb _ (by norm_num) (by norm_num)
      _ ≤ Real.exp (-(120/539 : ℝ)) := Real.exp_le_exp.mpr (by norm_num)
  have hzub : Real.exp (oKm 23 / 11) ≤ (8010521/10000000 : ℝ) := by
    rw [ho, (by norm_num : (-120/49 : ℝ) / 11 = -(120/539))]
    calc Real.exp (-(120/539 : ℝ))
        ≤ Real.exp (-(1113/5000 : ℝ)) := Real.exp_le_exp.mpr (by norm_num)
      _ ≤ ((1 + (1113/5000 : ℝ)/32) ^ 32)⁻¹ := exp_neg_le_ub _ (by norm_num)
      _ ≤ (8010521/10000000 : ℝ) := by norm_num
  have hcoef : 1 - 2 * Real.exp (oKm 23 / 11) ≤ (-74933/125000 : ℝ) := by linarith only [hzlb]
  have hob21 : oKm 21 = (-40/7 : ℝ) := by rw [oKm]; norm_num
  have hs21 : Real.sqrt (oKm 21 ^ 2 + oKm 23 ^ 2) ≤ (6217/1000 : ℝ) := by
    rw [ho, hob21]
    exact Real.sqrt_le_iff.mpr ⟨by norm_num, by norm_num⟩
  have hE21 : -(15651/5000 : ℝ) ≤ -(25/3872 * oKm 23 ^ 2) - 8/121 * oKm 21 ^ 2
      - 3/20 * Real.sqrt (oKm 21 ^ 2 + oKm 23 ^ 2) := by
    have hs := hs21
    rw [ho, hob21] at hs ⊢
    linarith only [hs]
  have hp21 := sPreN_near_ge 23 21 (15651/5000 : ℝ) (8010521/10000000 : ℝ) hE21 hzub (by norm_num) (by norm_num)
  have hv21 : (1339/50000 : ℝ) ≤ sVN 23 21 := by
    refine sVN_near_ge 23 21 (1339/50000 : ℝ) (by norm_num) (le_trans hs21 (by norm_num)) ?_
    calc (1339/50000 : ℝ) ≤ 13/10 * ((1 - (15651/5000 : ℝ)/32) ^ 32 * (1 + (8010521/10000000 : ℝ))⁻¹) := by norm_num
      _ ≤ 13/10 * sPreN 23 21 := mul_le_mul_of_nonneg_left hp21 (by norm_num)
  have hob22 : oKm 22 = (-200/49 : ℝ) := by rw [oKm]; norm_num
  have hs22 : Real.sqrt (oKm 22 ^ 2 + oKm 23 ^ 2) ≤ (119/25 : ℝ) := by
    rw [ho, hob22]
    exact Real.sqrt_le_iff.mpr ⟨by norm_num, by norm_num⟩
  have hE22 : -(9271/5000 : ℝ) ≤ -(25/3872 * oKm 23 ^ 2) - 8/121 * oKm 22 ^ 2
      - 3/20 * Real.sqrt (oKm 22 ^ 2 + oKm 23 ^ 2) := by
    have hs := hs22
    rw [ho, hob22] at hs ⊢
    linarith only [hs]
  have hp22 := sPreN_near_ge 23 22 (9271/5000 : ℝ) (8010521/10000000 : ℝ) hE22 hzub (by norm_num) (by norm_num)
  have hv22 : (53437/500000 : ℝ) ≤ sVN 23 22 := by
    refine sVN_near_ge 23 22 (53437/500000 : ℝ) (by norm_num) (le_trans hs22 (by norm_num)) ?_
    calc (53437/500000 : ℝ) ≤ 13/10 * ((1 - (9271/5000 : ℝ)/32) ^ 32 * (1 + (8010521/10000000 : ℝ))⁻¹) := by norm_num
      _ ≤ 13/10 * sPreN 23 22 := mul_le_mul_of_nonneg_left hp22 (by norm_num)
  have hs23 : Real.sqrt (oKm 23 ^ 2 + oKm 23 ^ 2) ≤ (17317/5000 : ℝ) := by
    rw [ho]
    exact Real.sqrt_le_iff.mpr ⟨by norm_num, by norm_num⟩
  have hE23 : -(2387/2500 : ℝ) ≤ -(25/3872 * oKm 23 ^ 2) - 8/121 * oKm 23 ^ 2
      - 3/20 * Real.sqrt (oKm 23 ^ 2 + oKm 23 ^ 2) := by
    have hs := hs23
    rw [ho] at hs ⊢
    linarith only [hs]
  have hp23 := sPreN_near_ge 23 23 (2387/2500 : ℝ) (8010521/10000000 : ℝ) hE23 hzub (by norm_num) (by norm_num)
  have hv23 : (68451/250000 : ℝ) ≤ sVN 23 23 := by
    refine sVN_near_ge 23 23 (68451/250000 : ℝ) (by norm_num) (le_trans hs23 (by norm_num)) ?_
    calc (68451/250000 : ℝ) ≤ 13/10 * ((1 - (2387/2500 : ℝ)/32) ^ 32 * (1 + (8010521/10000000 : ℝ))⁻¹) := by norm_num
      _ ≤ 13/10 * sPreN 23 23 := mul_le_mul_of_nonneg_left hp23 (by norm_num)
  have hob24 : oKm 24 = (-40/49 : ℝ) := by rw [oKm]; norm_num
  have hs24 : Real.sqrt (oKm 24 ^ 2 + oKm 23 ^ 2) ≤ (5163/2000 : ℝ) := by
    rw [ho, hob24]
    exact Real.sqrt_le_iff.mpr ⟨by norm_num, by norm_num⟩
  have hE24 : -(4701/10000 : ℝ) ≤ -(25/3872 * oKm 23 ^ 2) - 8/121 * oKm 24 ^ 2
      - 3/20 * Real.sqrt (oKm 24 ^ 2 + oKm 23 ^ 2) := by
    have hs := hs24
    rw [ho, hob24] at hs ⊢
    linarith only [hs]
  have hp24 := sPreN_near_ge 23 24 (4701/10000 : ℝ) (8010521/10000000 : ℝ) hE24 hzub (by norm_num) (by norm_num)
  have hv24 : (449511/1000000 : ℝ) ≤ sVN 23 24 := by
    refine sVN_near_ge 23 24 (449511/1000000 : ℝ) (by norm_num) (le_trans hs24 (by norm_num)) ?_
    calc (449511/1000000 : ℝ) ≤ 13/10 * ((1 - (4701/10000 : ℝ)/32) ^ 32 * (1 + (8010521/10000000 : ℝ))⁻¹) := by norm_num
      _ ≤ 13/10 * sPreN 23 24 := mul_le_mul_of_nonneg_left hp24 (by norm_num)
  have hob25 : oKm 25 = (40/49 : ℝ) := by rw [oKm]; norm_num
  have hs25 : Real.sqrt (oKm 25 ^ 2 + oKm 23 ^ 2) ≤ (5163/2000 : ℝ) := by
    rw [ho, hob25]
    exact Real.sqrt_le_iff.mpr ⟨by norm_num, by norm_num⟩
  have hE25 : -(4701/10000 : ℝ) ≤ -(25/3872 * oKm 23 ^ 2) - 8/121 * oKm 25 ^ 2
      - 3/20 * Real.sqrt (oKm 25 ^ 2 + oKm 23 ^ 2) := by
    have hs := hs25
    rw [ho, hob25] at hs ⊢
    linarith only [hs]
  have hp25 := sPreN_near_ge 23 25 (4701/10000 : ℝ) (8010521/10000000 : ℝ) hE25 hzub (by norm_num) (by norm_num)
  have hv25 : (449511/1000000 : ℝ) ≤ sVN 23 25 := by
    refine sVN_near_ge 23 25 (449511/1000000 : ℝ) (by norm_num) (le_trans hs25 (by norm_num)) ?_
    calc (449511/1000000 : ℝ) ≤ 13/10 * ((1 - (4701/10000 : ℝ)/32) ^ 32 * (1 + (8010521/10000000 : ℝ))⁻¹) := by norm_num
      _ ≤ 13/10 * sPreN 23 25 := mul_le_mul_of_nonneg_left hp25 (by norm_num)
  have hob26 : oKm 26 = (120/49 : ℝ) := by rw [oKm]; norm_num
  have hs26 : Real.sqrt (oKm 26 ^ 2 + oKm 23 ^ 2) ≤ (17317/5000 : ℝ) := by
    rw [ho, hob26]
    exact Real.sqrt_le_iff.mpr ⟨by norm_num, by norm_num⟩
  have hE26 : -(2387/2500 : ℝ) ≤ -(25/3872 * oKm 23 ^ 2) - 8/121 * oKm 26 ^ 2
      - 3/20 * Real.sqrt (oKm 26 ^ 2 + oKm 23 ^ 2) := by
    have hs := hs26
    rw [ho, hob26] at hs ⊢
    linarith only [hs]
  have hp26 := sPreN_near_ge 23 26 (2387/2500 : ℝ) (8010521/10000000 : ℝ) hE26 hzub (by norm_num) (by norm_num)
  have hv26 : (68451/250000 : ℝ) ≤ sVN 23 26 := by
    refine sVN_near_ge 23 26 (68451/250000 : ℝ) (by norm_num) (le_trans hs26 (by norm_num)) ?_
    calc (68451/250000 : ℝ) ≤ 13/10 * ((1 - (2387/2500 : ℝ)/32) ^ 32 * (1 + (8010521/10000000 : ℝ))⁻¹) := by norm_num
      _ ≤ 13/10 * sPreN 23 26 := mul_le_mul_of_nonneg_left hp26 (by norm_num)
  have hob27 : oKm 27 = (200/49 : ℝ) := by rw [oKm]; norm_num
  have hs27 : Real.sqrt (oKm 27 ^ 2 + oKm 23 ^ 2) ≤ (119/25 : ℝ) := by
    rw [ho, hob27]
    exact Real.sqrt_le_iff.mpr ⟨by norm_num, by norm_num⟩
  have hE27 : -(9271/5000 : ℝ) ≤ -(25/3872 * oKm 23 ^ 2) - 8/121 * oKm 27 ^ 2
      - 3/20 * Real.sqrt (oKm 27 ^ 2 + oKm 23 ^ 2) := by
    have hs := hs27
    rw [ho, hob27] at hs ⊢
    linarith only [hs]
  have hp27 := sPreN_near_ge 23 27 (9271/5000 : ℝ) (8010521/10000000 : ℝ) hE27 hzub (by norm_num) (by norm_num)
  have hv27 : (53437/500000 : ℝ) ≤ sVN 23 27 := by
    refine sVN_near_ge 23 27 (53437/500000 : ℝ) (by norm_num) (le_trans hs27 (by norm_num)) ?_
    calc (53437/500000 : ℝ) ≤ 13/10 * ((1 - (9271/5000 : ℝ)/32) ^ 32 * (1 + (8010521/10000000 : ℝ))⁻¹) := by norm_num
      _ ≤ 13/10 * sPreN 23 27 := mul_le_mul_of_nonneg_left hp27 (by norm_num)
  have hob28 : oKm 28 = (40/7 : ℝ) := by rw [oKm]; norm_num
  have hs28 : Real.sqrt (oKm 28 ^ 2 + oKm 23 ^ 2) ≤ (6217/1000 : ℝ) := by
    rw [ho, hob28]
    exact Real.sqrt_le_iff.mpr ⟨by norm_num, by norm_num⟩
  have hE28 : -(15651/5000 : ℝ) ≤ -(25/3872 * oKm 23 ^ 2) - 8/121 * oKm 28 ^ 2
      - 3/20 * Real.sqrt (oKm 28 ^ 2 + oKm 23 ^ 2) := by
    have hs := hs28
    rw [ho, hob28] at hs ⊢
    linarith only [hs]
  have hp28 := sPreN_near_ge 23 28 (15651/5000 : ℝ) (8010521/10000000 : ℝ) hE28 hzub (by norm_num) (by norm_num)
  have hv28 : (1339/50000 : ℝ) ≤ sVN 23 28 := by
    refine sVN_near_ge 23 28 (1339/50000 : ℝ) (by norm_num) (le_trans hs28 (by norm_num)) ?_
    calc (1339/50000 : ℝ) ≤ 13/10 * ((1 - (15651/5000 : ℝ)/32) ^ 32 * (1 + (8010521/10000000 : ℝ))⁻¹) := by norm_num
      _ ≤ 13/10 * sPreN 23 28 := mul_le_mul_of_nonneg_left hp28 (by norm_num)
  have hsubset : Finset.sum (Finset.Ico 21 29) (fun b => sVN 23 b) ≤ rowSumN 23 := by
    rw [rowSumN]
    apply Finset.sum_le_sum_of_subset_of_nonneg
    · intro x hx
      rw [Finset.mem_Ico] at hx
      exact Finset.mem_range.mpr (by omega)
    · intro b _ _
      exact sVN_nonneg 23 b
  have hexpand : Finset.sum (Finset.Ico 21 29) (fun b => sVN 23 b)
      = sVN 23 21 + sVN 23 22 + sVN 23 23 + sVN 23 24 + sVN 23 25 + sVN 23 26 + sVN 23 27 + sVN 23 28 := by
    rw [Finset.sum_Ico_eq_sum_range, (by norm_num : 29 - 21 = 8)]
    simp only [Finset.sum_range_succ, Finset.sum_range_zero, zero_add]
  have hrowlb : ((856969/500000 : ℝ)) ≤ rowSumN 23 := by
    linarith only [hv21, hv22, hv23, hv24, hv25, hv26, hv27, hv28, hsubset, hexpand.le, hexpand.ge]
  have h := term_pair (by norm_num : (23:ℕ) ≤ 24)
  rw [(by norm_num : (49:ℕ) - 23 = 26)] at h
  calc rowSumN 23 - 2 * rowSumN 26
      ≤ (1 - 2 * Real.exp (oKm 23 / 11)) * rowSumN 23 := h
    _ ≤ (-74933/125000 : ℝ) * rowSumN 23 := mul_le_mul_of_nonneg_right hcoef (rowSum_nonneg 23)
    _ ≤ (-74933/125000 : ℝ) * ((856969/500000 : ℝ)) := mul_le_mul_of_nonpos_left hrowlb (by norm_num)
    _ ≤ (-256861/250000 : ℝ) := by norm_num

set_option maxHeartbeats 4000000 in
theorem c4_row_24 : rowSumN 24 - 2 * rowSumN 25 ≤ (-1687491/1000000 : ℝ) := by
  have ho : oKm 24 = (-40/49 : ℝ) := by rw [oKm]; norm_num
  have hzlb : (9283129/10000000 : ℝ) ≤ Real.exp (oKm 24 / 11) := by
    rw [ho, (by norm_num : (-40/49 : ℝ) / 11 = -(40/539))]
    calc (9283129/10000000 : ℝ) ≤ (1 - (743/10000 : ℝ)/32) ^ 32 := by norm_num
      _ ≤ Real.exp (-(743/10000 : ℝ)) := exp_neg_ge_lb _ (by norm_num) (by norm_num)
      _ ≤ Real.exp (-(40/539 : ℝ)) := Real.exp_le_exp.mpr (by norm_num)
  have hzub : Real.exp (oKm 24 / 11) ≤ (4642829/5000000 : ℝ) := by
    rw [ho, (by norm_num : (-40/49 : ℝ) / 11 = -(40/539))]
    calc Real.exp (-(40/539 : ℝ))
        ≤ Real.exp (-(371/5000 : ℝ)) := Real.exp_le_exp.mpr (by norm_num)
      _ ≤ ((1 + (371/5000 : ℝ)/32) ^ 32)⁻¹ := exp_neg_le_ub _ (by norm_num)
      _ ≤ (4642829/5000000 : ℝ) := by norm_num
  have hcoef : 1 - 2 * Real.exp (oKm 24 / 11) ≤ (-4283129/5000000 : ℝ) := by linarith only [hzlb]
  have hob21 : oKm 21 = (-40/7 : ℝ) := by rw [oKm]; norm_num
  have hs21 : Real.sqrt (oKm 21 ^ 2 + oKm 24 ^ 2) ≤ (14431/2500 : ℝ) := by
    rw [ho, hob21]
    exact Real.sqrt_le_iff.mpr ⟨by norm_num, by norm_num⟩
  have hE21 : -(30291/10000 : ℝ) ≤ -(25/3872 * oKm 24 ^ 2) - 8/121 * oKm 21 ^ 2
      - 3/20 * Real.sqrt (oKm 21 ^ 2 + oKm 24 ^ 2) := by
    have hs := hs21
    rw [ho, hob21] at hs ⊢
    linarith only [hs]
  have hp21 := sPreN_near_ge 24 21 (30291/10000 : ℝ) (4642829/5000000 : ℝ) hE21 hzub (by norm_num) (by norm_num)
  have hv21 : (2797/100000 : ℝ) ≤ sVN 24 21 := by
    refine sVN_near_ge 24 21 (2797/100000 : ℝ) (by norm_num) (le_trans hs21 (by norm_num)) ?_
    calc (2797/100000 : ℝ) ≤ 13/10 * ((1 - (30291/10000 : ℝ)/32) ^ 32 * (1 + (4642829/5000000 : ℝ))⁻¹) := by norm_num
      _ ≤ 13/10 * sPreN 24 21 := mul_le_mul_of_nonneg_left hp21 (by norm_num)
  have hob22 : oKm 22 = (-200/49 : ℝ) := by rw [oKm]; norm_num
  have hs22 : Real.sqrt (oKm 22 ^ 2 + oKm 24 ^ 2) ≤ (333/80 : ℝ) := by
    rw [ho, hob22]
    exact Real.sqrt_le_iff.mpr ⟨by norm_num, by norm_num⟩
  have hE22 : -(8651/5000 : ℝ) ≤ -(25/3872 * oKm 24 ^ 2) - 8/121 * oKm 22 ^ 2
      - 3/20 * Real.sqrt (oKm 22 ^ 2 + oKm 24 ^ 2) := by
    have hs := hs22
    rw [ho, hob22] at hs ⊢
    linarith only [hs]
  have hp22 := sPreN_near_ge 24 22 (8651/5000 : ℝ) (4642829/5000000 : ℝ) hE22 hzub (by norm_num) (by norm_num)
  have hv22 : (113819/1000000 : ℝ) ≤ sVN 24 22 := by
    refine sVN_near_ge 24 22 (113819/1000000 : ℝ) (by norm_num) (le_trans hs22 (by norm_num)) ?_
    calc (113819/1000000 : ℝ) ≤ 13/10 * ((1 - (8651/5000 : ℝ)/32) ^ 32 * (1 + (4642829/5000000 : ℝ))⁻¹) := by norm_num
      _ ≤ 13/10 * sPreN 24 22 := mul_le_mul_of_nonneg_left hp22 (by norm_num)
  have hob23 : oKm 23 = (-120/49 : ℝ) := by rw [oKm]; norm_num
  have hs23 : Real.sqrt (oKm 23 ^ 2 + oKm 24 ^ 2) ≤ (5163/2000 : ℝ) := by
    rw [ho, hob23]
    exact Real.sqrt_le_iff.mpr ⟨by norm_num, by norm_num⟩
  have hE23 : -(7881/10000 : ℝ) ≤ -(25/3872 * oKm 24 ^ 2) - 8/121 * oKm 23 ^ 2
      - 3/20 * Real.sqrt (oKm 23 ^ 2 + oKm 24 ^ 2) := by
    have hs := hs23
    rw [ho, hob23] at hs ⊢
    linarith only [hs]
  have hp23 := sPreN_near_ge 24 23 (7881/10000 : ℝ) (4642829/5000000 : ℝ) hE23 hzub (by norm_num) (by norm_num)
  have hv23 : (151749/500000 : ℝ) ≤ sVN 24 23 := by
    refine sVN_near_ge 24 23 (151749/500000 : ℝ) (by norm_num) (le_trans hs23 (by norm_num)) ?_
    calc (151749/500000 : ℝ) ≤ 13/10 * ((1 - (7881/10000 : ℝ)/32) ^ 32 * (1 + (4642829/5000000 : ℝ))⁻¹) := by norm_num
      _ ≤ 13/10 * sPreN 24 23 := mul_le_mul_of_nonneg_left hp23 (by norm_num)
  have hs24 : Real.sqrt (oKm 24 ^ 2 + oKm 24 ^ 2) ≤ (2309/2000 : ℝ) := by
    rw [ho]
    exact Real.sqrt_le_iff.mpr ⟨by norm_num, by norm_num⟩
  have hE24 : -(277/1250 : ℝ) ≤ -(25/3872 * oKm 24 ^ 2) - 8/121 * oKm 24 ^ 2
      - 3/20 * Real.sqrt (oKm 24 ^ 2 + oKm 24 ^ 2) := by
    have hs := hs24
    rw [ho] at hs ⊢
    linarith only [hs]
  have hp24 := sPreN_near_ge 24 24 (277/1250 : ℝ) (4642829/5000000 : ℝ) hE24 hzub (by norm_num) (by norm_num)
  have hv24 : (539677/1000000 : ℝ) ≤ sVN 24 24 := by
    refine sVN_near_ge 24 24 (539677/1000000 : ℝ) (by norm_num) (le_trans hs24 (by norm_num)) ?_
    calc (539677/1000000 : ℝ) ≤ 13/10 * ((1 - (277/1250 : ℝ)/32) ^ 32 * (1 + (4642829/5000000 : ℝ))⁻¹) := by norm_num
      _ ≤ 13/10 * sPreN 24 24 := mul_le_mul_of_nonneg_left hp24 (by norm_num)
  have hob25 : oKm 25 = (40/49 : ℝ) := by rw [oKm]; norm_num
  have hs25 : Real.sqrt (oKm 25 ^ 2 + oKm 24 ^ 2) ≤ (2309/2000 : ℝ) := by
    rw [ho, hob25]
    exact Real.sqrt_le_iff.mpr ⟨by norm_num, by norm_num⟩
  have hE25 : -(277/1250 : ℝ) ≤ -(25/3872 * oKm 24 ^ 2) - 8/121 * oKm 25 ^ 2
      - 3/20 * Real.sqrt (oKm 25 ^ 2 + oKm 24 ^ 2) := by
    have hs := hs25
    rw [ho, hob25] at hs ⊢
    linarith only [hs]
  have hp25 := sPreN_near_ge 24 25 (277/1250 : ℝ) (4642829/5000000 : ℝ) hE25 hzub (by norm_num) (by norm_num)
  have hv25 : (539677/1000000 : ℝ) ≤ sVN 24 25 := by
    refine sVN_near_ge 24 25 (539677/1000000 : ℝ) (by norm_num) (le_trans hs25 (by norm_num)) ?_
    calc (539677/1000000 : ℝ) ≤ 13/10 * ((1 - (277/1250 : ℝ)/32) ^ 32 * (1 + (4642829/5000000 : ℝ))⁻¹) := by norm_num
      _ ≤ 13/10 * sPreN 24 25 := mul_le_mul_of_nonneg_left hp25 (by norm_num)
  have hob26 : oKm 26 = (120/49 : ℝ) := by rw [oKm]; norm_num
  have hs26 : Real.sqrt (oKm 26 ^ 2 + oKm 24 ^ 2) ≤ (5163/2000 : ℝ) := by
    rw [ho, hob26]
    exact Real.sqrt_le_iff.mpr ⟨by norm_num, by norm_num⟩
  have hE26 : -(7881/10000 : ℝ) ≤ -(25/3872 * oKm 24 ^ 2) - 8/121 * oKm 26 ^ 2
      - 3/20 * Real.sqrt (oKm 26 ^ 2 + oKm 24 ^ 2) := by
    have hs := hs26
    rw [ho, hob26] at hs ⊢
    linarith only [hs]
  have hp26 := sPreN_near_ge 24 26 (7881/10000 : ℝ) (4642829/5000000 : ℝ) hE26 hzub (by norm_num) (by norm_num)
  have hv26 : (151749/500000 : ℝ) ≤ sVN 24 26 := by
    refine sVN_near_ge 24 26 (151749/500000 : ℝ) (by norm_num) (le_trans hs26 (by norm_num)) ?_
    calc (151749/500000 : ℝ) ≤ 13/10 * ((1 - (7881/10000 : ℝ)/32) ^ 32 * (1 + (4642829/5000000 : ℝ))⁻¹) := by norm_num
      _ ≤ 13/10 * sPreN 24 26 := mul_le_mul_of_nonneg_left hp26 (by norm_num)
  have hob27 : oKm 27 = (200/49 : ℝ) := by rw [oKm]; norm_num
  have hs27 : Real.sqrt (oKm 27 ^ 2 + oKm 24 ^ 2) ≤ (333/80 : ℝ) := by
    rw [ho, hob27]
    exact Real.sqrt_le_iff.mpr ⟨by norm_num, by norm_num⟩
  have hE27 : -(8651/5000 : ℝ) ≤ -(25/3872 * oKm 24 ^ 2) - 8/121 * oKm 27 ^ 2
      - 3/20 * Real.sqrt (oKm 27 ^ 2 + oKm 24 ^ 2) := by
    have hs := hs27
    rw [ho, hob27] at hs ⊢
    linarith only [hs]
  have hp27 := sPreN_near_ge 24 27 (8651/5000 : ℝ) (4642829/5000000 : ℝ) hE27 hzub (by norm_num) (by norm_num)
  have hv27 : (113819/1000000 : ℝ) ≤ sVN 24 27 := by
    refine sVN_near_ge 24 27 (113819/1000000 : ℝ) (by norm_num) (le_trans hs27 (by norm_num)) ?_
    calc (113819/1000000 : ℝ) ≤ 13/10 * ((1 - (8651/5000 : ℝ)/32) ^ 32 * (1 + (4642829/5000000 : ℝ))⁻¹) := by norm_num
      _ ≤ 13/10 * sPreN 24 27 := mul_le_mul_of_nonneg_left hp27 (by norm_num)
  have hob28 : oKm 28 = (40/7 : ℝ) := by rw [oKm]; norm_num
  have hs28 : Real.sqrt (oKm 28 ^ 2 + oKm 24 ^ 2) ≤ (14431/2500 : ℝ) := by
    rw [ho, hob28]
    exact Real.sqrt_le_iff.mpr ⟨by norm_num, by norm_num⟩
  have hE28 : -(30291/10000 : ℝ) ≤ -(25/3872 * oKm 24 ^ 2) - 8/121 * oKm 28 ^ 2
      - 3/20 * Real.sqrt (oKm 28 ^ 2 + oKm 24 ^ 2) := by
    have hs := hs28
    rw [ho, hob28] at hs ⊢
    linarith only [hs]
  have hp28 := sPreN_near_ge 24 28 (30291/10000 : ℝ) (4642829/5000000 : ℝ) hE28 hzub (by norm_num) (by norm_num)
  have hv28 : (2797/100000 : ℝ) ≤ sVN 24 28 := by
    refine sVN_near_ge 24 28 (2797/100000 : ℝ) (by norm_num) (le_trans hs28 (by norm_num)) ?_
    calc (2797/100000 : ℝ) ≤ 13/10 * ((1 - (30291/10000 : ℝ)/32) ^ 32 * (1 + (4642829/5000000 : ℝ))⁻¹) := by norm_num
      _ ≤ 13/10 * sPreN 24 28 := mul_le_mul_of_nonneg_left hp28 (by norm_num)
  have hsubset : Finset.sum (Finset.Ico 21 29) (fun b => sVN 24 b) ≤ rowSumN 24 := by
    rw [rowSumN]
    apply Finset.sum_le_sum_of_subset_of_nonneg
    · intro x hx
      rw [Finset.mem_Ico] at hx
      exact Finset.mem_range.mpr (by omega)
    · intro b _ _
      exact sVN_nonneg 24 b
  have hexpand : Finset.sum (Finset.Ico 21 29) (fun b => sVN 24 b)
      = sVN 24 21 + sVN 24 22 + sVN 24 23 + sVN 24 24 + sVN 24 25 + sVN 24 26 + sVN 24 27 + sVN 24 28 := by
    rw [Finset.sum_Ico_eq_sum_range, (by norm_num : 29 - 21 = 8)]
    simp only [Finset.sum_range_succ, Finset.sum_range_zero, zero_add]
  have hrowlb : ((246241/125000 : ℝ)) ≤ rowSumN 24 := by
    linarith only [hv21, hv22, hv23, hv24, hv25, hv26, hv27, hv28, hsubset, hexpand.le, hexpand.ge]
  have h := term_pair (by norm_num : (24:ℕ) ≤ 24)
  rw [(by norm_num : (49:ℕ) - 24 = 25)] at h
  calc rowSumN 24 - 2 * rowSumN 25
      ≤ (1 - 2 * Real.exp (oKm 24 / 11)) * rowSumN 24 := h
    _ ≤ (-4283129/5000000 : ℝ) * rowSumN 24 := mul_le_mul_of_nonneg_right hcoef (rowSum_nonneg 24)
    _ ≤ (-4283129/5000000 : ℝ) * ((246241/125000 : ℝ)) := mul_le_mul_of_nonpos_left hrowlb (by norm_num)
    _ ≤ (-1687491/1000000 : ℝ) := by norm_num


/-- For latitudes in the geographic range the effective km-per-degree
longitude scale is strictly positive. -/
theorem lonKmPerDeg_pos {y : ℝ} (hlat : |y| ≤ 90) : 0 < lonKmPerDeg y := by
  have hπ := Real.pi_pos
  have hcos : 0 ≤ Real.cos (radians y) := by
    apply Real.cos_nonneg_of_mem_Icc
    have h1 : |y * (Real.pi / 180)| ≤ 90 * (Real.pi / 180) := by
      rw [abs_mul, abs_of_pos (by positivity : (0:ℝ) < Real.pi / 180)]
      exact mul_le_mul_of_nonneg_right hlat (by positivity)
    rw [radians]
    constructor
    · nlinarith [abs_le.1 h1]
    · nlinarith [abs_le.1 h1]
  rw [lonKmPerDeg]
  split
  · rename_i h
    rw [abs_of_nonneg hcos] at h
    nlinarith
  · norm_num

/-- C2: for every center and every valid latitude, the grid's bounding box
equals center ± (extent/(111.320·cos lat), extent/111.0) in degrees, with
the longitude scale floored to 111.320 when |cos lat| < 1e-6; the box
strictly contains the center, and the longitude span at latitude 60°
is exactly double the span at latitude 0° for equal extent. -/
theorem C2_bounding_box (x y : ℝ) (res : ℕ) (extent : ℝ)
    (hlat : |y| ≤ 90) (hext : 0 < extent) :
    ((1e-6 < |Real.cos (radians y)| →
        (VolcanoSimulation.build x y res extent).lon_min
            = x - extent / (111.320 * Real.cos (radians y)) ∧
          (VolcanoSimulation.build x y res extent).lon_max
            = x + extent / (111.320 * Real.cos (radians y))) ∧
      (|Real.cos (radians y)| < 1e-6 →
        (VolcanoSimulation.build x y res extent).lon_min = x - extent / 111.320 ∧
          (VolcanoSimulation.build x y res extent).lon_max = x + extent / 111.320) ∧
      (VolcanoSimulation.build x y res extent).lat_min = y - extent / 111 ∧
      (VolcanoSimulation.build x y res extent).lat_max = y + extent / 111) ∧
    ((VolcanoSimulation.build x y res extent).lon_min < x ∧
      x < (VolcanoSimulation.build x y res extent).lon_max ∧
      (VolcanoSimulation.build x y res extent).lat_min < y ∧
      y < (VolcanoSimulation.build x y res extent).lat_max) ∧
    extent / lonKmPerDeg 60 = 2 * (extent / lonKmPerDeg 0) := by
  have hspan : 0 < extent / lonKmPerDeg y := div_pos hext (lonKmPerDeg_pos hlat)
  refine ⟨⟨?_, ?_, build_lat_min .., build_lat_max ..⟩, ⟨?_, ?_, ?_, ?_⟩, ?_⟩
  · intro h
    rw [build_lon_min, build_lon_max, lonKmPerDeg, if_pos h]
    exact ⟨rfl, rfl⟩
  · intro h
    rw [build_lon_min, build_lon_max, lonKmPerDeg, if_neg (asymm h)]
    exact ⟨rfl, rfl⟩
  · rw [build_lon_min]; linarith
  · rw [build_lon_max]; linarith
  · rw [build_lat_min]; nlinarith
  · rw [build_lat_max]; nlinarith
  · have h60 : radians 60 = Real.pi / 3 := by rw [radians]; ring
    have h0 : radians 0 = 0 := by rw [radians]; ring
    rw [lonKmPerDeg, lonKmPerDeg, h60, h0, Real.cos_pi_div_three, Real.cos_zero,
      if_pos (by rw [abs_of_nonneg (by norm_num : (0:ℝ) ≤ 1/2)]; norm_num),
      if_pos (by rw [abs_of_nonneg (by norm_num : (0:ℝ) ≤ 1)]; norm_num)]
    ring

/-- C2 witness: the theorem applied at center (121, 15), resolution 4,
extent 10 km. -/
theorem C2_witness :
    (|(15 : ℝ)| ≤ 90 ∧ (0 : ℝ) < 10) ∧
    (((1e-6 < |Real.cos (radians 15)| →
        (VolcanoSimulation.build 121 15 4 10).lon_min
            = 121 - 10 / (111.320 * Real.cos (radians 15)) ∧
          (VolcanoSimulation.build 121 15 4 10).lon_max
            = 121 + 10 / (111.320 * Real.cos (radians 15))) ∧
      (|Real.cos (radians 15)| < 1e-6 →
        (VolcanoSimulation.build 121 15 4 10).lon_min = 121 - 10 / 111.320 ∧
          (VolcanoSimulation.build 121 15 4 10).lon_max = 121 + 10 / 111.320) ∧
      (VolcanoSimulation.build 121 15 4 10).lat_min = 15 - 10 / 111 ∧
      (VolcanoSimulation.build 121 15 4 10).lat_max = 15 + 10 / 111) ∧
    ((VolcanoSimulation.build 121 15 4 10).lon_min < 121 ∧
      (121 : ℝ) < (VolcanoSimulation.build 121 15 4 10).lon_max ∧
      (VolcanoSimulation.build 121 15 4 10).lat_min < 15 ∧
      (15 : ℝ) < (VolcanoSimulation.build 121 15 4 10).lat_max) ∧
    (10 : ℝ) / lonKmPerDeg 60 = 2 * ((10 : ℝ) / lonKmPerDeg 0)) :=
  ⟨⟨by norm_num, by norm_num⟩, C2_bounding_box 121 15 4 10 (by norm_num) (by norm_num)⟩

/-- Each mirrored northern row of the C4 scenario never exceeds its southern
counterpart pointwise: the logistic downwind factor is at most one upwind. -/
theorem sVN_flip_le {a : ℕ} (ha : a ≤ 24) (b : ℕ) : sVN (49 - a) b ≤ sVN a b := by
  have hz : oKm a / 11 ≤ 0 := div_nonpos_of_nonpos_of_nonneg (oKm_nonpos ha) (by norm_num)
  have hc1 : Real.exp (oKm a / 11) ≤ 1 := Real.exp_le_one_iff.mpr hz
  have hpre : sPreN (49 - a) b ≤ sPreN a b := by
    rw [sPreN_flip ha b]
    calc Real.exp (oKm a / 11) * sPreN a b
        ≤ 1 * sPreN a b := mul_le_mul_of_nonneg_right hc1 (sPreN_pos a b).le
      _ = sPreN a b := one_mul _
  rw [sVN, sVN, oKm_flip ha, neg_sq]
  by_cases hm : 30 < Real.sqrt (oKm b ^ 2 + oKm a ^ 2)
  · rw [if_pos hm, if_pos hm]
  · rw [if_neg hm, if_neg hm]
    refine min_le_min le_rfl ?_
    rw [div_eq_mul_inv, div_eq_mul_inv]
    exact mul_le_mul_of_nonneg_right
      (mul_le_mul_of_nonneg_left hpre (by norm_num)) (inv_nonneg.mpr sMax_pos.le)

/-- Each mirrored northern row sum is at most the southern row sum. -/
theorem rowSum_flip_le {a : ℕ} (ha : a ≤ 24) : rowSumN (49 - a) ≤ rowSumN a := by
  rw [rowSumN, rowSumN]
  exact Finset.sum_le_sum fun b _ => sVN_flip_le ha b

/-- The pre-normalization ash value at the northern point (25, 7) is tiny:
the crosswind Gaussian at 28.6 km off-axis decays below 1/54. -/
theorem sPreN_25_7_small : sPreN 25 7 ≤ (1:ℝ)/54 := by
  rw [sPreN]
  have hE : -(25 / 3872 * oKm 25 ^ 2) - 8 / 121 * oKm 7 ^ 2 ≤ -53 := by
    rw [(by rw [oKm]; norm_num : oKm 25 = (40/49 : ℝ)),
      (by rw [oKm]; norm_num : oKm 7 = (-200/7 : ℝ))]
    norm_num
  have h1 : Real.exp (-(25 / 3872 * oKm 25 ^ 2) - 8 / 121 * oKm 7 ^ 2) ≤ 1/54 := by
    calc Real.exp (-(25 / 3872 * oKm 25 ^ 2) - 8 / 121 * oKm 7 ^ 2)
        ≤ Real.exp (-(53:ℝ)) := Real.exp_le_exp.mpr hE
      _ ≤ 1/54 := by
          rw [Real.exp_neg]
          have h2 : (54:ℝ) ≤ Real.exp 53 := by
            have h3 := Real.add_one_le_exp (53:ℝ)
            linarith only [h3]
          calc (Real.exp 53)⁻¹ ≤ ((54:ℝ))⁻¹ := inv_anti₀ (by norm_num) h2
            _ = 1/54 := by norm_num
  have h2 : (1 + Real.exp (oKm 25 / 11))⁻¹ ≤ 1 := by
    rw [inv_le_one_iff₀]
    right
    nlinarith [Real.exp_pos (oKm 25 / 11)]
  have h3 : Real.exp (-(3 / 20 * Real.sqrt (oKm 7 ^ 2 + oKm 25 ^ 2))) ≤ 1 := by
    rw [Real.exp_le_one_iff]
    nlinarith [Real.sqrt_nonneg (oKm 7 ^ 2 + oKm 25 ^ 2)]
  have e2 : (0:ℝ) ≤ (1 + Real.exp (oKm 25 / 11))⁻¹ := by positivity
  have e3 := (Real.exp_pos (-(3 / 20 * Real.sqrt (oKm 7 ^ 2 + oKm 25 ^ 2)))).le
  exact le_trans
    (mul_le_mul (mul_le_mul h1 h2 e2 (by norm_num)) h3 e3 (by norm_num))
    (by norm_num)

/-- At the unmasked, unsaturated point (row 24/25, column 7) the southern
ash intensity strictly exceeds the mirrored northern one. -/
theorem sVN_strict_point : sVN 25 7 < sVN 24 7 := by
  have ho24 : oKm 24 = (-40/49 : ℝ) := by rw [oKm]; norm_num
  have ho25 : oKm 25 = (40/49 : ℝ) := by rw [oKm]; norm_num
  have ho7 : oKm 7 = (-200/7 : ℝ) := by rw [oKm]; norm_num
  have hmaskS : Real.sqrt (oKm 7 ^ 2 + oKm 24 ^ 2) ≤ 30 := by
    rw [ho7, ho24]
    exact Real.sqrt_le_iff.mpr ⟨by norm_num, by norm_num⟩
  have hmaskN : Real.sqrt (oKm 7 ^ 2 + oKm 25 ^ 2) ≤ 30 := by
    rw [ho7, ho25]
    exact Real.sqrt_le_iff.mpr ⟨by norm_num, by norm_num⟩
  have hstrict : sPreN 25 7 < sPreN 24 7 := by
    have hflip := sPreN_flip (le_refl 24) 7
    rw [(by norm_num : (49:ℕ) - 24 = 25)] at hflip
    have hexp : Real.exp (oKm 24 / 11) < 1 := by
      rw [← Real.exp_zero]
      exact Real.exp_lt_exp.mpr (by rw [ho24]; norm_num)
    calc sPreN 25 7 = Real.exp (oKm 24 / 11) * sPreN 24 7 := hflip
      _ < 1 * sPreN 24 7 := mul_lt_mul_of_pos_right hexp (sPreN_pos 24 7)
      _ = sPreN 24 7 := one_mul _
  have hsmall : (13:ℝ) / 10 * sPreN 25 7 / sMax < 1 := by
    rw [div_lt_one sMax_pos]
    linarith only [sPreN_25_7_small, sMax_lb]
  have hlt : (13:ℝ) / 10 * sPreN 25 7 / sMax < 13 / 10 * sPreN 24 7 / sMax := by
    rw [div_eq_mul_inv, div_eq_mul_inv]
    exact mul_lt_mul_of_pos_right
      (mul_lt_mul_of_pos_left hstrict (by norm_num)) (inv_pos.mpr sMax_pos)
  rw [sVN, sVN, if_neg (not_lt.mpr hmaskN), if_neg (not_lt.mpr hmaskS),
    min_eq_right hsmall.le]
  exact lt_min hsmall hlt

/-- The northern row 25 sum is strictly below the southern row 24 sum. -/
theorem rowSum_strict : rowSumN 25 < rowSumN 24 := by
  rw [rowSumN, rowSumN]
  apply Finset.sum_lt_sum
  · intro b _
    have h := sVN_flip_le (le_refl 24) b
    rwa [(by norm_num : (49:ℕ) - 24 = 25)] at h
  · exact ⟨7, Finset.mem_range.mpr (by norm_num), sVN_strict_point⟩

/-! ### Claim theorems -/

/-- C5: for every grid and any resolution, calling either field model with
`radius ≤ 0` or `cutoff_radius ≤ 0` returns, without raising, the all-zero
RGBA raster of the grid's shape; in particular every alpha value is 0. -/
theorem C5_degenerate_inputs_zero_raster {n : ℕ} (sim : VolcanoSimulation n)
    (radius scale eq_mag_num max_radius wind_dir wind_speed : ℝ)
    (cmap cmap' : ℝ → ℝ × ℝ × ℝ × ℝ)
    (h : radius ≤ 0 ∨ max_radius ≤ 0) :
    compute_damage_overlay sim radius scale eq_mag_num max_radius cmap
        = (fun _ _ => zeroRGBA) ∧
      compute_ash_overlay sim radius wind_dir wind_speed max_radius cmap'
        = (fun _ _ => zeroRGBA) ∧
      (∀ i j : Fin n,
        (compute_damage_overlay sim radius scale eq_mag_num max_radius cmap i j).a = 0 ∧
        (compute_ash_overlay sim radius wind_dir wind_speed max_radius cmap' i j).a = 0) := by
  rw [compute_damage_overlay, if_pos h, compute_ash_overlay, if_pos h]
  exact ⟨rfl, rfl, fun i j => ⟨rfl, rfl⟩⟩

/-- C5 witness: the degenerate damage and ash calls with `radius = 0` on a
concrete 3×3 grid return the all-zero raster. -/
theorem C5_witness :
    ((0 : ℝ) ≤ 0 ∨ (10 : ℝ) ≤ 0) ∧
      (compute_damage_overlay (VolcanoSimulation.build 0 0 3 1) 0 2 3 10
          (fun _ => (0, 0, 0, 1)) = (fun _ _ => zeroRGBA) ∧
        compute_ash_overlay (VolcanoSimulation.build 0 0 3 1) 0 90 5 10
          (fun _ => (0, 0, 0, 1)) = (fun _ _ => zeroRGBA) ∧
        (∀ i j : Fin 3,
          (compute_damage_overlay (VolcanoSimulation.build 0 0 3 1) 0 2 3 10
            (fun _ => (0, 0, 0, 1)) i j).a = 0 ∧
          (compute_ash_overlay (VolcanoSimulation.build 0 0 3 1) 0 90 5 10
            (fun _ => (0, 0, 0, 1)) i j).a = 0)) :=
  ⟨Or.inl le_rfl,
    C5_degenerate_inputs_zero_raster (VolcanoSimulation.build 0 0 3 1) 0 2 3 10 90 5
      (fun _ => (0, 0, 0, 1)) (fun _ => (0, 0, 0, 1)) (Or.inl le_rfl)⟩

/-- C6 (code evaluation at the failing input): constructing a grid with
`grid_res = 1 < 2` and `extent_km = -5 ≤ 0` succeeds — `__init__`
performs no validation and only a negative sample count would make
`np.linspace` raise.  The claim (and the spec) demand rejection. -/
theorem C6_no_validation_eval :
    ((1 : ℤ) < 2 ∧ (-5 : ℝ) ≤ 0) ∧
      VolcanoSimulation.buildChecked 0 0 1 (-5)
        = Except.ok (VolcanoSimulation.build 0 0 (1 : ℤ).toNat (-5)) := by
  refine ⟨⟨by norm_num, by norm_num⟩, ?_⟩
  rw [VolcanoSimulation.buildChecked, if_neg (by norm_num)]

/-- C9: both field models are deterministic and stateless: calling a model
twice with identical arguments (threading the instance state through the
first call) yields identical rasters, and neither call changes any stored
attribute of the grid. -/
theorem C9_deterministic_stateless {n : ℕ} (sim : VolcanoSimulation n)
    (radius scale eq_mag_num max_radius wind_dir wind_speed : ℝ)
    (cmap cmap' : ℝ → ℝ × ℝ × ℝ × ℝ) :
    (compute_damage_overlayStateful sim radius scale eq_mag_num max_radius cmap).2 = sim ∧
      (compute_ash_overlayStateful sim radius wind_dir wind_speed max_radius cmap').2 = sim ∧
      (compute_damage_overlayStateful
          (compute_damage_overlayStateful sim radius scale eq_mag_num max_radius cmap).2
          radius scale eq_mag_num max_radius cmap).1
        = (compute_damage_overlayStateful sim radius scale eq_mag_num max_radius cmap).1 ∧
      (compute_ash_overlayStateful
          (compute_ash_overlayStateful sim radius wind_dir wind_speed max_radius cmap').2
          radius wind_dir wind_speed max_radius cmap').1
        = (compute_ash_overlayStateful sim radius wind_dir wind_speed max_radius cmap').1 :=
  ⟨rfl, rfl, rfl, rfl⟩

/-- C10: the rasterizer maps every constant field (any magnitude) to the
fully transparent raster: min/max normalization sends every point to 0 and
every alpha value is 0. -/
theorem C10_constant_field_transparent {n : ℕ} (c : ℝ) (cmap : ℝ → ℝ × ℝ × ℝ × ℝ)
    (i j : Fin n) :
    normedField (fun _ _ => c) i j = 0 ∧
      (array_to_rgba cmap (fun _ _ => c) i j).a = 0 := by
  have hnorm : normedField (fun _ _ : Fin n => c) i j = 0 := by
    rw [normedField, amax_const c i, amin_const c i]
    simp
  refine ⟨hnorm, ?_⟩
  show toUint8 (npclip (normedField (fun _ _ => c) i j * 1.5) 0 1 * 255) = 0
  rw [hnorm, zero_mul, npclip_zero (by norm_num), zero_mul]
  exact Int.floor_zero

/-- C8: the rasterizer's min/max normalization has a strictly positive
denominator for every field and produces values in [0, 1); the ash model's
maximum-normalization divides only by a strictly positive maximum and
leaves the field unchanged otherwise.  No degenerate case escapes. -/
theorem C8_no_division_by_zero :
    (∀ (n : ℕ) (f : Fin n → Fin n → ℝ) (i j : Fin n),
      amin f ≤ f i j ∧ f i j ≤ amax f ∧
      0 < amax f - amin f + 1e-12 ∧
      0 ≤ normedField f i j ∧ normedField f i j < 1) ∧
    (∀ (n : ℕ) (pre : Fin n → Fin n → ℝ),
      (¬ 0 < amax pre → ashNormalized pre = pre) ∧
      (0 < amax pre → ∀ i j, ashNormalized pre i j * amax pre = pre i j)) := by
  constructor
  · intro n f i j
    have hmin := amin_le f i j
    have hmax := le_amax f i j
    have hden : 0 < amax f - amin f + 1e-12 := by
      have : (0:ℝ) < 1e-12 := by norm_num
      linarith
    refine ⟨hmin, hmax, hden, ?_, ?_⟩
    · exact div_nonneg (by linarith) hden.le
    · rw [normedField, div_lt_one hden]
      linarith
  · intro n pre
    constructor
    · intro h
      rw [ashNormalized, if_neg h]
    · intro h i j
      rw [ashNormalized, if_pos h]
      exact div_mul_cancel₀ _ (ne_of_gt h)

/-- C8 witness: the guards evaluated on concrete 1×1 fields — constant 5
for the rasterizer normalization, the all-zero field for the untouched
branch and constant 2 for the dividing branch of the ash normalization. -/
theorem C8_witness :
    (amin (fun _ _ : Fin 1 => (5:ℝ)) ≤ (5:ℝ) ∧ (5:ℝ) ≤ amax (fun _ _ : Fin 1 => (5:ℝ)) ∧
      0 < amax (fun _ _ : Fin 1 => (5:ℝ)) - amin (fun _ _ : Fin 1 => (5:ℝ)) + 1e-12 ∧
      0 ≤ normedField (fun _ _ : Fin 1 => (5:ℝ)) 0 0 ∧
      normedField (fun _ _ : Fin 1 => (5:ℝ)) 0 0 < 1) ∧
    ashNormalized (fun _ _ : Fin 1 => (0:ℝ)) = (fun _ _ : Fin 1 => (0:ℝ)) ∧
    ashNormalized (fun _ _ : Fin 1 => (2:ℝ)) 0 0 * amax (fun _ _ : Fin 1 => (2:ℝ)) = 2 := by
  refine ⟨C8_no_division_by_zero.1 1 (fun _ _ => 5) 0 0, ?_, ?_⟩
  · exact (C8_no_division_by_zero.2 1 (fun _ _ => 0)).1
      (by rw [amax_const (0:ℝ) (0 : Fin 1)]; norm_num)
  · exact (C8_no_division_by_zero.2 1 (fun _ _ => 2)).2
      (by rw [amax_const (2:ℝ) (0 : Fin 1)]; norm_num) 0 0

/-- C7 counterexample: on a 1×1 grid the damage model produces the
constant field 1 (intensity exactly 1 at its only point), yet the
rasterized alpha there is 0, not 255: min/max normalization sends a
constant field to 0.  This refutes "alpha = 255 at every point where the
intensity is exactly 1". -/
theorem C7_counterexample :
    compute_damage_field (VolcanoSimulation.build 0 0 1 (1/10)) 100 4 7 600 0 0 = 1 ∧
    (compute_damage_overlay (VolcanoSimulation.build 0 0 1 (1/10)) 100 4 7 600
        (fun _ => (0, 0, 0, 1)) 0 0).a = 0 := by
  have hd : (VolcanoSimulation.build 0 0 1 (1/10)).dist_grid 0 0 = Real.sqrt (1/50) := by
    rw [dist_grid_one]; norm_num
  set d : ℝ := Real.sqrt (1/50) with hdef
  have hd0 : 0 ≤ d := Real.sqrt_nonneg _
  have hdu : d ≤ 3/20 := Real.sqrt_le_iff.mpr ⟨by norm_num, by norm_num⟩
  have hfield : compute_damage_field (VolcanoSimulation.build 0 0 1 (1/10)) 100 4 7 600 0 0
      = 1 := by
    rw [compute_damage_field_eq, hd,
      if_neg (by push_neg; linarith : ¬ d > 600),
      (by norm_num : max (100:ℝ) 1e-6 = 100),
      (by norm_num : max (1:ℝ) (600 / 6) = 100),
      npclip_of_mem (by norm_num : (0:ℝ) ≤ (4:ℝ)/4) (by norm_num),
      npclip_of_mem (by norm_num : (0:ℝ) ≤ (7:ℝ)/7) (by norm_num),
      npclip_of_mem (by nlinarith : (0:ℝ) ≤ 1 - d / 100) (by nlinarith)]
    apply npclip_of_ge (by norm_num)
    have hexp := Real.add_one_le_exp (-d / 100)
    have h1 : (1997:ℝ)/2000 ≤ 1 - d / 100 := by linarith
    have h2 : 1 - d / 100 ≤ Real.exp (-d / 100) := by linarith
    nlinarith
  refine ⟨hfield, ?_⟩
  rw [compute_damage_overlay, if_neg (by norm_num), array_to_rgba_a]
  have hnorm : normedField
      (compute_damage_field (VolcanoSimulation.build 0 0 1 (1/10)) 100 4 7 600) 0 0 = 0 := by
    rw [normedField, amax_one, amin_one, hfield]
    norm_num
  rw [hnorm, zero_mul, npclip_zero (by norm_num), zero_mul]
  exact Int.floor_zero

/-- C7 (amended): every model intensity value lies in [0,1]; the raster's
alpha value is the uint8 truncation `⌊clamp(normalized·1.5, 0, 1)·255⌋`;
alpha is 0 wherever a nonnegative field is 0; and alpha is 255 wherever
the intensity is exactly 1 provided the field's minimum is at most
`1 - 2·1e-12` (for a constant field of 1s the normalization yields 0 and
alpha is 0, as `C7_counterexample` shows). -/
theorem C7_intensity_and_alpha :
    (∀ (n : ℕ) (sim : VolcanoSimulation n)
        (radius scale eq_mag_num max_radius wind_dir wind_speed : ℝ) (i j : Fin n),
      (0 ≤ compute_damage_field sim radius scale eq_mag_num max_radius i j ∧
        compute_damage_field sim radius scale eq_mag_num max_radius i j ≤ 1) ∧
      (0 ≤ compute_ash_field sim radius wind_dir wind_speed max_radius i j ∧
        compute_ash_field sim radius wind_dir wind_speed max_radius i j ≤ 1)) ∧
    (∀ (n : ℕ) (cmap : ℝ → ℝ × ℝ × ℝ × ℝ) (f : Fin n → Fin n → ℝ) (i j : Fin n),
      (array_to_rgba cmap f i j).a = ⌊npclip (normedField f i j * 1.5) 0 1 * 255⌋) ∧
    (∀ (n : ℕ) (cmap : ℝ → ℝ × ℝ × ℝ × ℝ) (f : Fin n → Fin n → ℝ) (i j : Fin n),
      (∀ k l, 0 ≤ f k l) → f i j = 0 → (array_to_rgba cmap f i j).a = 0) ∧
    (∀ (n : ℕ) (cmap : ℝ → ℝ × ℝ × ℝ × ℝ) (f : Fin n → Fin n → ℝ) (i j : Fin n),
      (∀ k l, f k l ≤ 1) → f i j = 1 → amin f ≤ 1 - 2 * 1e-12 →
      (array_to_rgba cmap f i j).a = 255) := by
  refine ⟨?_, ?_, ?_, ?_⟩
  · intro n sim radius scale eq_mag_num max_radius wind_dir wind_speed i j
    exact ⟨⟨npclip_nonneg one_pos.le, npclip_le⟩, ⟨npclip_nonneg one_pos.le, npclip_le⟩⟩
  · intro n cmap f i j
    exact array_to_rgba_a cmap f i j
  · intro n cmap f i j hpos h0
    have hmin : amin f = 0 :=
      le_antisymm (h0 ▸ amin_le f i j) (le_amin f 0 i hpos)
    rw [array_to_rgba_a, normedField, h0, hmin, toUint8]
    rw [sub_zero, zero_div, zero_mul, npclip_zero (by norm_num), zero_mul]
    exact Int.floor_zero
  · intro n cmap f i j hle h1 hmin
    have hmax : amax f = 1 := le_antisymm (amax_le f 1 i hle) (h1 ▸ le_amax f i j)
    have hminle : amin f ≤ 1 := le_of_le_of_eq (amin_le f i j) h1
    rw [array_to_rgba_a, normedField, h1, hmax, toUint8]
    have hden : (0:ℝ) < 1 - amin f + 1e-12 := by
      have : (0:ℝ) < 1e-12 := by norm_num
      linarith
    have hge : 1 ≤ (1 - amin f) / (1 - amin f + 1e-12) * 1.5 := by
      rw [div_mul_eq_mul_div, le_div_iff₀ hden]
      have h2 : (2:ℝ) * 1e-12 ≤ 1 - amin f := by linarith
      nlinarith
    rw [npclip_of_ge (by norm_num) hge]
    norm_num

/-- C7 witness: the amended statement applied at concrete instances: the
1×1 damage/ash fields of a unit grid; the rasterizer alpha formula on the
constant-0 field; the zero point of the constant-0 field (alpha 0); the
value-1 point of a 2×2 field holding one 1 and three 0s (alpha 255). -/
theorem C7_witness :
    ((0 ≤ compute_damage_field (VolcanoSimulation.build 0 0 1 1) 1 2 3 4 0 0 ∧
        compute_damage_field (VolcanoSimulation.build 0 0 1 1) 1 2 3 4 0 0 ≤ 1) ∧
      (0 ≤ compute_ash_field (VolcanoSimulation.build 0 0 1 1) 1 2 3 4 0 0 ∧
        compute_ash_field (VolcanoSimulation.build 0 0 1 1) 1 2 3 4 0 0 ≤ 1)) ∧
    ((array_to_rgba (fun _ => (0, 0, 0, 1)) (fun _ _ : Fin 1 => (0:ℝ)) 0 0).a
      = ⌊npclip (normedField (fun _ _ : Fin 1 => (0:ℝ)) 0 0 * 1.5) 0 1 * 255⌋) ∧
    ((∀ k l : Fin 1, (0:ℝ) ≤ 0) ∧
      (array_to_rgba (fun _ => (0, 0, 0, 1)) (fun _ _ : Fin 1 => (0:ℝ)) 0 0).a = 0) ∧
    ((∀ k l : Fin 2, (fun i _ : Fin 2 => if i = 0 then (1:ℝ) else 0) k l ≤ 1) ∧
      (fun i _ : Fin 2 => if i = 0 then (1:ℝ) else 0) 0 0 = 1 ∧
      amin (fun i _ : Fin 2 => if i = 0 then (1:ℝ) else 0) ≤ 1 - 2 * 1e-12 ∧
      (array_to_rgba (fun _ => (0, 0, 0, 1))
        (fun i _ : Fin 2 => if i = 0 then (1:ℝ) else 0) 0 0).a = 255) := by
  have hf2le : ∀ k l : Fin 2, (fun i _ : Fin 2 => if i = 0 then (1:ℝ) else 0) k l ≤ 1 := by
    intro k l
    by_cases h : k = 0 <;> simp [h]
  have hf2one : (fun i _ : Fin 2 => if i = 0 then (1:ℝ) else 0) 0 0 = 1 := by norm_num
  have hf2min : amin (fun i _ : Fin 2 => if i = 0 then (1:ℝ) else 0) ≤ 1 - 2 * 1e-12 := by
    have := amin_le (fun i _ : Fin 2 => if i = 0 then (1:ℝ) else 0) 1 0
    simp only [if_neg (by norm_num : (1 : Fin 2) ≠ 0)] at this
    calc amin (fun i _ : Fin 2 => if i = 0 then (1:ℝ) else 0) ≤ 0 := this
      _ ≤ 1 - 2 * 1e-12 := by norm_num
  refine ⟨C7_intensity_and_alpha.1 1 (VolcanoSimulation.build 0 0 1 1) 1 2 3 4 2 3 0 0,
    C7_intensity_and_alpha.2.1 1 (fun _ => (0, 0, 0, 1)) (fun _ _ => 0) 0 0,
    ⟨fun _ _ => le_rfl,
      C7_intensity_and_alpha.2.2.1 1 (fun _ => (0, 0, 0, 1)) (fun _ _ => 0) 0 0
        (fun _ _ => le_rfl) rfl⟩,
    hf2le, hf2one, hf2min,
    C7_intensity_and_alpha.2.2.2 2 (fun _ => (0, 0, 0, 1)) _ 0 0 hf2le hf2one hf2min⟩

/-- C1 counterexample: on a concrete tiny grid with `radius = 1e-7 > 0`
(below the code's `max(radius, 1e-6)` guard) and `cutoff_radius = 1`, the
corner point has distance `d ≤ 1` (inside the cutoff) yet the computed
intensity differs from the claim's formula: the claim's base
`clamp(1 − d/radius, 0, 1)` is 0 while the code, dividing by `1e-6`
instead of `radius`, yields a strictly positive intensity. -/
theorem C1_counterexample :
    (VolcanoSimulation.build 0 0 2 (4/10^7)).dist_grid 0 0 ≤ 1 ∧
    compute_damage_field (VolcanoSimulation.build 0 0 2 (4/10^7)) (1/10^7) 4 7 1 0 0
      ≠ damageSpecFormula (1/10^7) 4 7 1
          ((VolcanoSimulation.build 0 0 2 (4/10^7)).dist_grid 0 0) := by
  have hd : (VolcanoSimulation.build 0 0 2 (4/10^7)).dist_grid 0 0
      = Real.sqrt (32/10^14) := by
    rw [dist_grid_two_corner]; norm_num
  set d : ℝ := Real.sqrt (32/10^14) with hdef
  have hd0 : 0 ≤ d := Real.sqrt_nonneg _
  have hdl : 5/10^7 ≤ d := Real.le_sqrt_of_sq_le (by norm_num)
  have hdu : d ≤ 6/10^7 := Real.sqrt_le_iff.mpr ⟨by norm_num, by norm_num⟩
  have hd1 : d ≤ 1 := by linarith
  rw [hd]
  refine ⟨hd1, ?_⟩
  have hspec : damageSpecFormula (1/10^7) 4 7 1 d = 0 := by
    rw [damageSpecFormula,
      npclip_of_le (by nlinarith : 1 - d / (1/10^7) ≤ 0) (by norm_num)]
    rw [zero_mul, zero_mul, zero_mul, mul_zero, npclip_zero (by norm_num)]
  have hcode : 0 < compute_damage_field (VolcanoSimulation.build 0 0 2 (4/10^7))
      (1/10^7) 4 7 1 0 0 := by
    rw [compute_damage_field_eq, hd, if_neg (by push_neg; linarith : ¬ d > 1),
      (by norm_num : max ((1:ℝ)/10^7) 1e-6 = 1/10^6)]
    apply npclip_pos _ one_pos
    have hbase : (2:ℝ)/5 ≤ npclip (1 - d / (1/10^6)) 0 1 := by
      rw [npclip_of_mem (by nlinarith : (0:ℝ) ≤ 1 - d / (1/10^6)) (by nlinarith)]
      nlinarith
    have hsc : npclip ((4:ℝ) / 4) 0 1 = 1 := by
      rw [npclip_of_mem (by norm_num) (by norm_num)]; norm_num
    have hq : npclip ((7:ℝ) / 7) 0 1 = 1 := by
      rw [npclip_of_mem (by norm_num) (by norm_num)]; norm_num
    rw [hsc, hq, mul_one, mul_one]
    have := Real.exp_pos (-d / max 1 ((1:ℝ)/6))
    nlinarith
  rw [hspec]
  exact ne_of_gt hcode

/-- C1 (amended): for every grid, radius > 0 and cutoff > 0, at every grid
point with distance `d ≤ cutoff_radius` the damage intensity equals the
claim's formula with the base denominator amended to `max(radius, 1e-6)`,
and the intensity is exactly 0 wherever `d > cutoff_radius`. -/
theorem C1_damage_formula {n : ℕ} (sim : VolcanoSimulation n)
    (radius scale eq_mag_num max_radius : ℝ) (i j : Fin n)
    (hr : 0 < radius) (hm : 0 < max_radius) :
    (sim.dist_grid i j ≤ max_radius →
      compute_damage_field sim radius scale eq_mag_num max_radius i j
        = damageSpecFormulaGuarded radius scale eq_mag_num max_radius
            (sim.dist_grid i j)) ∧
    (max_radius < sim.dist_grid i j →
      compute_damage_field sim radius scale eq_mag_num max_radius i j = 0) := by
  constructor
  · intro h
    rw [compute_damage_field_eq, if_neg (not_lt.mpr h), damageSpecFormulaGuarded]
    congr 1
    ring
  · intro h
    rw [compute_damage_field_eq, if_pos h, zero_mul, npclip_zero (by norm_num)]

/-- C1 witness: the amended formula evaluated on a 1×1 grid with
radius 2, alert 4, magnitude 7, cutoff 5. -/
theorem C1_witness :
    ((0:ℝ) < 2 ∧ (0:ℝ) < 5) ∧
    (((VolcanoSimulation.build 0 0 1 1).dist_grid 0 0 ≤ 5 →
      compute_damage_field (VolcanoSimulation.build 0 0 1 1) 2 4 7 5 0 0
        = damageSpecFormulaGuarded 2 4 7 5
            ((VolcanoSimulation.build 0 0 1 1).dist_grid 0 0)) ∧
    (5 < (VolcanoSimulation.build 0 0 1 1).dist_grid 0 0 →
      compute_damage_field (VolcanoSimulation.build 0 0 1 1) 2 4 7 5 0 0 = 0)) :=
  ⟨⟨by norm_num, by norm_num⟩,
    C1_damage_formula (VolcanoSimulation.build 0 0 1 1) 2 4 7 5 0 0
      (by norm_num) (by norm_num)⟩

/-- C3 counterexample: on a 1×1 grid with `radius = 1/4` and
`cutoff_radius = 1/2 < 1`, the single normalized ash value is 1; the code
rescales by `clamp((radius / max(1, cutoff))·1.2 + 0.05) = 0.35`, giving
intensity 0.7, while the claim's rescale factor
`clamp((radius/cutoff)·1.2 + 0.05) = 0.65` would give intensity 1. -/
theorem C3_counterexample :
    compute_ash_field (VolcanoSimulation.build 0 0 1 (1/10)) (1/4) 0 0 (1/2) 0 0
      ≠ ashPostSpec (ash_pre (VolcanoSimulation.build 0 0 1 (1/10)) (1/4) 0 0 (1/2))
          (VolcanoSimulation.build 0 0 1 (1/10)).dist_grid (1/4) (1/2) 0 0 := by
  have hd : (VolcanoSimulation.build 0 0 1 (1/10)).dist_grid 0 0 = Real.sqrt (1/50) := by
    rw [dist_grid_one]; norm_num
  have hd0 : 0 ≤ Real.sqrt (1/50) := Real.sqrt_nonneg _
  have hdu : Real.sqrt (1/50) ≤ 3/20 := Real.sqrt_le_iff.mpr ⟨by norm_num, by norm_num⟩
  have hpre := ash_pre_pos (VolcanoSimulation.build 0 0 1 (1/10)) (1/4) 0 0 (1/2) 0 0
  have hmax : amax (ash_pre (VolcanoSimulation.build 0 0 1 (1/10)) (1/4) 0 0 (1/2))
      = ash_pre (VolcanoSimulation.build 0 0 1 (1/10)) (1/4) 0 0 (1/2) 0 0 := amax_one
  have hmaxpos : 0 < amax (ash_pre (VolcanoSimulation.build 0 0 1 (1/10)) (1/4) 0 0 (1/2)) :=
    hmax ▸ hpre
  have hnormed : ashNormalized
      (ash_pre (VolcanoSimulation.build 0 0 1 (1/10)) (1/4) 0 0 (1/2)) 0 0 = 1 := by
    rw [ashNormalized, if_pos hmaxpos]
    exact div_self (ne_of_gt (hmax ▸ hpre))
  have hmask : ¬ (VolcanoSimulation.build 0 0 1 (1/10)).dist_grid 0 0 > (1:ℝ)/2 * 1.5 := by
    rw [hd]; push_neg
    calc Real.sqrt (1/50) ≤ 3/20 := hdu
      _ ≤ (1:ℝ)/2 * 1.5 := by norm_num
  have hcode : compute_ash_field (VolcanoSimulation.build 0 0 1 (1/10)) (1/4) 0 0 (1/2) 0 0
      = 7/10 := by
    rw [compute_ash_field_eq, if_neg hmask, hnormed, one_mul,
      (by norm_num : max (1:ℝ) (1/2) = 1),
      npclip_of_mem (by norm_num : (0:ℝ) ≤ 1/4 / 1 * 1.2 + 0.05) (by norm_num)]
    rw [npclip_of_mem (by norm_num) (by norm_num)]
    norm_num
  have hspec : ashPostSpec (ash_pre (VolcanoSimulation.build 0 0 1 (1/10)) (1/4) 0 0 (1/2))
      (VolcanoSimulation.build 0 0 1 (1/10)).dist_grid (1/4) (1/2) 0 0 = 1 := by
    simp only [ashPostSpec]
    have hdiv : ash_pre (VolcanoSimulation.build 0 0 1 (1/10)) (1/4) 0 0 (1/2) 0 0
        / amax (ash_pre (VolcanoSimulation.build 0 0 1 (1/10)) (1/4) 0 0 (1/2)) = 1 := by
      rw [hmax]; exact div_self (ne_of_gt hpre)
    rw [if_pos hmaxpos,
      if_neg (by rw [(by norm_num : (1.5:ℝ) * (1/2) = 1/2 * 1.5)]; exact hmask),
      hdiv, one_mul,
      npclip_of_mem (by norm_num : (0:ℝ) ≤ 1/4 / (1/2) * 1.2 + 0.05) (by norm_num)]
    apply npclip_of_ge (by norm_num)
    norm_num
  rw [hcode, hspec]
  norm_num

/-- C3 (amended): for every grid, radius > 0 and cutoff > 0, the ash field
equals the claim's pipeline — normalize by the field's own maximum
(unchanged when it is 0), rescale, extended cutoff at `1.5 · cutoff`,
contrast clamp — with the rescale factor amended to
`clamp((radius / max(1, cutoff_radius))·1.2 + 0.05, 0, 1)`. -/
theorem C3_ash_pipeline {n : ℕ} (sim : VolcanoSimulation n)
    (radius wind_dir wind_speed max_radius : ℝ) (hr : 0 < radius) (hm : 0 < max_radius) :
    compute_ash_field sim radius wind_dir wind_speed max_radius
      = ashPostGuarded (ash_pre sim radius wind_dir wind_speed max_radius)
          sim.dist_grid radius max_radius := by
  funext i j
  simp only [compute_ash_field_eq, ashPostGuarded, ashNormalized,
    apply_ite (fun f : Fin n → Fin n → ℝ => f i j), mul_comm max_radius 1.5]

/-- C3 witness: the amended pipeline identity on a 1×1 grid with
radius 1/4 and cutoff 1/2. -/
theorem C3_witness :
    ((0:ℝ) < 1/4 ∧ (0:ℝ) < 1/2) ∧
    compute_ash_field (VolcanoSimulation.build 0 0 1 (1/10)) (1/4) 0 0 (1/2)
      = ashPostGuarded (ash_pre (VolcanoSimulation.build 0 0 1 (1/10)) (1/4) 0 0 (1/2))
          (VolcanoSimulation.build 0 0 1 (1/10)).dist_grid (1/4) (1/2) :=
  ⟨⟨by norm_num, by norm_num⟩,
    C3_ash_pipeline (VolcanoSimulation.build 0 0 1 (1/10)) (1/4) 0 0 (1/2)
      (by norm_num) (by norm_num)⟩

/-- C4 counterexample: in the claim's scenario (wind_dir 0°, resolution 50,
extent 40 km, radius 10, cutoff 20, wind_speed 20) the summed ash intensity
strictly south of the volcano is LESS than twice the summed intensity strictly
north of it, so the claimed factor-2 downwind dominance fails. -/
theorem C4_counterexample : southSum < 2 * northSum := by
  have hsum : southSum - 2 * northSum
      = Finset.sum (Finset.range 25) (fun a => rowSumN a - 2 * rowSumN (49 - a)) := by
    rw [southSum_eq, northSum_eq, Finset.mul_sum, ← Finset.sum_sub_distrib]
  simp only [Finset.sum_range_succ, Finset.sum_range_zero, zero_add] at hsum
  linarith only [hsum, c4_row_0, c4_row_1, c4_row_2, c4_row_3, c4_row_4, c4_row_5,
    c4_row_6, c4_row_7, c4_row_8, c4_row_9, c4_row_10, c4_row_11, c4_row_12,
    c4_row_13, c4_row_14, c4_row_15, c4_row_16, c4_row_17, c4_row_18, c4_row_19,
    c4_row_20, c4_row_21, c4_row_22, c4_row_23, c4_row_24]

/-- C4 (amended): the plume axis for wind_dir 0° is (0 + 180) mod 360 = 180°,
whose local-frame unit vector (sin, cos) = (0, −1) points due south; and in
the claim's scenario the summed ash intensity strictly north of the volcano is
strictly less than the summed intensity strictly south of it. The downwind
bias is real, but the claimed factor-2 margin does not hold. -/
theorem C4_amended :
    fmod ((0:ℝ) + 180) 360 = 180 ∧
    Real.sin (radians (fmod ((0:ℝ) + 180) 360)) = 0 ∧
    Real.cos (radians (fmod ((0:ℝ) + 180) 360)) = -1 ∧
    northSum < southSum := by
  refine ⟨scenario_axis.1, scenario_axis.2.1, scenario_axis.2.2, ?_⟩
  rw [southSum_eq, northSum_eq]
  apply Finset.sum_lt_sum
  · intro a ha
    have h := Finset.mem_range.mp ha
    exact rowSum_flip_le (by omega)
  · refine ⟨24, Finset.mem_range.mpr (by norm_num), ?_⟩
    rw [(by norm_num : (49:ℕ) - 24 = 25)]
    exact rowSum_strict

end

end Volcano
